import Mathlib

/-!
SceneSense: the native inference session orchestrator.

A shallow embedding of `app/src/main/cpp/visionai_jni.cpp`.

The file drives two libraries it does not contain (the llama model runtime and
the mtmd multimodal preprocessor) and the JNI boundary.  They are taken as a
parameter: a `Runtime σ` is a deterministic state machine over an arbitrary
state type `σ`, with one field per library entry point the file calls.  Every
function of the file is embedded as a Lean function that threads the library
state and returns, next to its C++ result, the list of calls it issued, oldest
first.

Conventions
* a native pointer is a `Nat`, `0` being `nullptr`;
* `std::string` and `char` buffers are lists of bytes; a `const char *` is the
  list of the bytes before its terminator, so the one read back from a
  `std::string` stops at the first NUL byte (`c_str`);
* C `int`/`int32_t` values are `Int`; the one sum that can overflow, `len + 1`
  in `apply_chat_template`, is wrapped into `int32_t` (`to_int32`), and the
  loop counter stays below `max_tokens`;
* `new` and the sampler-chain constructor return a non-null pointer: the file
  uses both results without a test;
* logging, timing and the JNI marshalling of arguments (`Get…`/`Release…` of
  strings and arrays) carry no control flow and are left out.
-/

namespace VisionAI

/-! ## Data model -/

/-- Native pointer value; `0` is `nullptr`. -/
abbrev Ptr := Nat

/-- Token identifier of the model runtime (`int32_t`). -/
abbrev llama_token := Int

/-- Contents of a `std::string` or of a `char` buffer. -/
abbrev Bytes := List UInt8

/-- Line 19: `static constexpr int MAX_TOKENS = 400;`. -/
def MAX_TOKENS : Int := 400

/-- Lines 21-27: `struct VisionAIContext`, with its default member values. -/
structure VisionAIContext where
  model : Ptr := 0
  ctx : Ptr := 0
  sampler : Ptr := 0
  ctx_mtmd : Ptr := 0
  n_threads : Int := 4
  deriving DecidableEq, Repr

/-- The four stages `create_sampler` adds to a sampler chain (lines 42-45). -/
inductive SamplerStage where
  | penalties
  | min_p
  | temp
  | dist
  deriving DecidableEq, Repr

/-- One call issued by the file to a library, to the JNI environment or to the
Java callback object, with the arguments that matter and, where there is one,
the value the callee returned.  `apply_chat_template` marks the call of the
file's own prompt formatter.  Lookups that leave the library state untouched
(vocabulary, end-of-generation test, token pieces, chat template, marker) are
not recorded. -/
inductive Call where
  | operator_new (ret : Ptr)
  | operator_delete (p : Ptr)
  | ggml_backend_load_all
  | llama_model_load_from_file (path : Bytes) (n_gpu_layers : Int) (ret : Ptr)
  | llama_init_from_model (model : Ptr) (n_ctx n_batch n_threads : Int) (ret : Ptr)
  | mtmd_init_from_file (path : Bytes) (model : Ptr) (use_gpu : Bool) (n_threads : Int)
      (ret : Ptr)
  | llama_sampler_chain_init (ret : Ptr)
  | llama_sampler_chain_add (chain : Ptr) (stage : SamplerStage)
  | llama_sampler_free (p : Ptr)
  | mtmd_free (p : Ptr)
  | llama_free (p : Ptr)
  | llama_model_free (p : Ptr)
  | FindClass (name : String) (ret : Ptr)
  | ThrowNew (cls : Ptr) (msg : String)
  | mtmd_bitmap_init (nx ny : Nat) (data : Bytes) (ret : Ptr)
  | mtmd_bitmap_free (p : Ptr)
  | mtmd_input_chunks_init (ret : Ptr)
  | mtmd_input_chunks_free (p : Ptr)
  | apply_chat_template (model : Ptr) (user_content : Bytes)
  | mtmd_tokenize (ctx_mtmd chunks : Ptr) (text : Bytes) (add_special parse_special : Bool)
      (bitmaps : List Ptr) (ret : Int)
  | llama_memory_clear (mem : Ptr) (data : Bool)
  | mtmd_helper_eval_chunks (ctx_mtmd ctx chunks : Ptr) (n_past seq_id n_batch : Int)
      (logits_last : Bool) (ret : Int)
  | llama_sampler_sample (sampler ctx : Ptr) (ret : llama_token)
  | llama_decode (ctx : Ptr) (token : llama_token) (ret : Int)
  | onToken (s : Bytes)
  | onComplete (s : Bytes)
  | onError (msg : String)
  deriving DecidableEq, Repr

/-- The libraries and the JNI environment the file runs against, as a
deterministic state machine over `σ`.  A field that takes and returns a `σ` is
a call with an effect on the library state; a field without `σ` is a lookup
through a `const` pointer. -/
structure Runtime (σ : Type) where
  /-- Allocation by `new VisionAIContext()`: the address of the fresh object,
  never null. -/
  operator_new : σ → {p : Ptr // p ≠ 0} × σ
  ggml_backend_load_all : σ → σ
  /-- Arguments: path, `n_gpu_layers`. -/
  llama_model_load_from_file : σ → Bytes → Int → Ptr × σ
  /-- Arguments: model, `n_ctx`, `n_batch`, `n_threads`. -/
  llama_init_from_model : σ → Ptr → Int → Int → Int → Ptr × σ
  /-- Arguments: projector path, model, `use_gpu`, `n_threads`. -/
  mtmd_init_from_file : σ → Bytes → Ptr → Bool → Int → Ptr × σ
  /-- The constructor of a sampler chain returns a chain, never null:
  `create_sampler` hands its result to `llama_sampler_chain_add` on the next
  line without a test (lines 41-45). -/
  llama_sampler_chain_init : σ → {p : Ptr // p ≠ 0} × σ
  llama_sampler_chain_add : σ → Ptr → SamplerStage → σ
  llama_sampler_free : σ → Ptr → σ
  mtmd_free : σ → Ptr → σ
  llama_free : σ → Ptr → σ
  llama_model_free : σ → Ptr → σ
  /-- JNI class lookup; `0` when the class is not found. -/
  FindClass : String → Ptr
  /-- The chat template stored in the model; `none` is `nullptr`. -/
  llama_model_chat_template : Ptr → Option Bytes
  /-- Arguments: template, messages as (role, content) pairs, `add_ass`, and the
  capacity of the output buffer (`0` with a null buffer).  Result: the returned
  size and the bytes the routine wrote at the start of the buffer. -/
  llama_chat_apply_template : Option Bytes → List (Bytes × Bytes) → Bool → Nat → Int × Bytes
  llama_model_get_vocab : Ptr → Ptr
  /-- Arguments: sampler, context (the index argument is always `-1`). -/
  llama_sampler_sample : σ → Ptr → Ptr → llama_token × σ
  llama_vocab_is_eog : Ptr → llama_token → Bool
  /-- Called with a 256 byte buffer: the returned length and the bytes written
  into the buffer. -/
  llama_token_to_piece : Ptr → llama_token → Int × Bytes
  /-- Decodes the one-token batch made of the given token. -/
  llama_decode : σ → Ptr → llama_token → Int × σ
  mtmd_default_marker : Bytes
  mtmd_bitmap_init : σ → Nat → Nat → Bytes → Ptr × σ
  mtmd_bitmap_free : σ → Ptr → σ
  mtmd_input_chunks_init : σ → Ptr × σ
  mtmd_input_chunks_free : σ → Ptr → σ
  /-- Arguments: multimodal context, chunks, text, `add_special`,
  `parse_special`, bitmaps. -/
  mtmd_tokenize : σ → Ptr → Ptr → Bytes → Bool → Bool → List Ptr → Int × σ
  llama_get_memory : Ptr → Ptr
  llama_memory_clear : σ → Ptr → Bool → σ
  /-- Arguments: multimodal context, context, chunks, `n_past`, `seq_id`,
  `n_batch`, `logits_last`; the new position it reports is not used again. -/
  mtmd_helper_eval_chunks : σ → Ptr → Ptr → Ptr → Int → Int → Int → Bool → Int × σ

variable {σ : Type}

/-- The C string `s.c_str()` points to, as its reader sees it: the bytes before
the first NUL byte of `s`. -/
def c_str (s : Bytes) : Bytes :=
  s.takeWhile (fun b => b != 0)

/-- JNI `NewStringUTF(p)`: the Java string built from the C string `p`,
identified with the bytes it is built from. -/
def NewStringUTF (p : Bytes) : Bytes :=
  p

/-- Lines 29-34: `throw_java_exception`. -/
def throw_java_exception (rt : Runtime σ) (msg : String) : List Call :=
  let cls := rt.FindClass "java/lang/IllegalStateException"
  if cls ≠ 0 then
    [Call.FindClass "java/lang/IllegalStateException" cls, Call.ThrowNew cls msg]
  else
    [Call.FindClass "java/lang/IllegalStateException" cls]

/-! ## Generation loop -/

/-- What a generation helper leaves behind: the `std::string` it returns, the
value of its `tokens_generated` counter, the library state and the calls it
issued. -/
structure GenResult (σ : Type) where
  response : Bytes
  tokens_generated : Nat
  state : σ
  trace : List Call

/-- Lines 81-101: the `for` loop of `generate_response`, entered with
`remaining = max_tokens - i` iterations left. -/
def generate_response_loop (rt : Runtime σ) (vctx : VisionAIContext) (vocab : Ptr) :
    Nat → σ → Bytes → Nat → GenResult σ
  | 0, s, response, tokens_generated => ⟨response, tokens_generated, s, []⟩
  | remaining + 1, s, response, tokens_generated =>
    let sampled := rt.llama_sampler_sample s vctx.sampler vctx.ctx
    let token_id := sampled.1
    if rt.llama_vocab_is_eog vocab token_id then
      ⟨response, tokens_generated, sampled.2,
        [Call.llama_sampler_sample vctx.sampler vctx.ctx token_id]⟩
    else
      let n := (rt.llama_token_to_piece vocab token_id).1
      let buf := (rt.llama_token_to_piece vocab token_id).2
      let response := if n > 0 then response ++ buf.take n.toNat else response
      let decoded := rt.llama_decode sampled.2 vctx.ctx token_id
      if decoded.1 ≠ 0 then
        ⟨response, tokens_generated + 1, decoded.2,
          [Call.llama_sampler_sample vctx.sampler vctx.ctx token_id,
           Call.llama_decode vctx.ctx token_id decoded.1]⟩
      else
        let rest := generate_response_loop rt vctx vocab remaining decoded.2 response
          (tokens_generated + 1)
        ⟨rest.response, rest.tokens_generated, rest.state,
          Call.llama_sampler_sample vctx.sampler vctx.ctx token_id ::
          Call.llama_decode vctx.ctx token_id decoded.1 :: rest.trace⟩

/-- Lines 74-109: `generate_response`. -/
def generate_response (rt : Runtime σ) (s : σ) (vctx : VisionAIContext) (max_tokens : Int) :
    GenResult σ :=
  let vocab := rt.llama_model_get_vocab vctx.model
  generate_response_loop rt vctx vocab max_tokens.toNat s [] 0

/-- Lines 126-151: the `for` loop of `generate_response_streaming`, entered
with `remaining = max_tokens - i` iterations left. -/
def generate_response_streaming_loop (rt : Runtime σ) (vctx : VisionAIContext) (vocab : Ptr) :
    Nat → σ → Bytes → Nat → GenResult σ
  | 0, s, response, tokens_generated => ⟨response, tokens_generated, s, []⟩
  | remaining + 1, s, response, tokens_generated =>
    let sampled := rt.llama_sampler_sample s vctx.sampler vctx.ctx
    let token_id := sampled.1
    if rt.llama_vocab_is_eog vocab token_id then
      ⟨response, tokens_generated, sampled.2,
        [Call.llama_sampler_sample vctx.sampler vctx.ctx token_id]⟩
    else
      let n := (rt.llama_token_to_piece vocab token_id).1
      let buf := (rt.llama_token_to_piece vocab token_id).2
      let response := if n > 0 then response ++ buf.take n.toNat else response
      let delivered :=
        if n > 0 then [Call.onToken (NewStringUTF (c_str (buf.take n.toNat)))] else []
      let decoded := rt.llama_decode sampled.2 vctx.ctx token_id
      if decoded.1 ≠ 0 then
        ⟨response, tokens_generated + 1, decoded.2,
          Call.llama_sampler_sample vctx.sampler vctx.ctx token_id ::
          (delivered ++ [Call.llama_decode vctx.ctx token_id decoded.1])⟩
      else
        let rest := generate_response_streaming_loop rt vctx vocab remaining decoded.2 response
          (tokens_generated + 1)
        ⟨rest.response, rest.tokens_generated, rest.state,
          Call.llama_sampler_sample vctx.sampler vctx.ctx token_id ::
          (delivered ++ Call.llama_decode vctx.ctx token_id decoded.1 :: rest.trace)⟩

/-- Lines 112-159: `generate_response_streaming`; the callback object is the
receiver of the `onToken` calls in the trace. -/
def generate_response_streaming (rt : Runtime σ) (s : σ) (vctx : VisionAIContext)
    (max_tokens : Int) : GenResult σ :=
  let vocab := rt.llama_model_get_vocab vctx.model
  generate_response_streaming_loop rt vctx vocab max_tokens.toNat s [] 0

/-! ## Sampler chain and prompt formatter -/

/-- A session object after a helper ran on it, with the library state and the
calls issued. -/
structure SessionResult (σ : Type) where
  vctx : VisionAIContext
  state : σ
  trace : List Call

/-- Lines 36-46: `create_sampler`.  Each `llama_sampler_chain_add` receives a
stage object built on the spot by `llama_sampler_init_penalties`, `_min_p`,
`_temp` or `_dist`; the stage is recorded by its kind. -/
def create_sampler (rt : Runtime σ) (s : σ) (vctx : VisionAIContext) : SessionResult σ :=
  let s0 := if vctx.sampler ≠ 0 then rt.llama_sampler_free s vctx.sampler else s
  let freed := if vctx.sampler ≠ 0 then [Call.llama_sampler_free vctx.sampler] else []
  let chain := rt.llama_sampler_chain_init s0
  let vctx := { vctx with sampler := chain.1.val }
  let s1 := rt.llama_sampler_chain_add chain.2 vctx.sampler SamplerStage.penalties
  let s2 := rt.llama_sampler_chain_add s1 vctx.sampler SamplerStage.min_p
  let s3 := rt.llama_sampler_chain_add s2 vctx.sampler SamplerStage.temp
  let s4 := rt.llama_sampler_chain_add s3 vctx.sampler SamplerStage.dist
  ⟨vctx, s4, freed ++
    [Call.llama_sampler_chain_init chain.1.val,
     Call.llama_sampler_chain_add vctx.sampler SamplerStage.penalties,
     Call.llama_sampler_chain_add vctx.sampler SamplerStage.min_p,
     Call.llama_sampler_chain_add vctx.sampler SamplerStage.temp,
     Call.llama_sampler_chain_add vctx.sampler SamplerStage.dist]⟩

/-- The bytes of an ASCII string literal of the source. -/
def literal (s : String) : Bytes :=
  s.data.map (fun c => c.toNat.toUInt8)

/-- Lines 52-55: the two-message conversation handed to the template routine:
the fixed system instruction, then the user content as a C string. -/
def chat_messages (user_content : Bytes) : List (Bytes × Bytes) :=
  [(literal "system", literal
      "You are an image understanding model capable of describing the salient features of any image."),
   (literal "user", c_str user_content)]

/-- The largest value of an `int32_t`. -/
def INT32_MAX : Int := 2147483647

/-- The value of an `int32_t` sum whose exact result is `v`: `v` wrapped into
the range of `int32_t`. -/
def to_int32 (v : Int) : Int :=
  (v + 2147483648) % 4294967296 - 2147483648

/-- The conversion `(size_t)v` of an `int32_t`, `size_t` being 64 bits wide. -/
def to_size_t (v : Int) : Nat :=
  (v % 18446744073709551616).toNat

/-- Lines 49-71: `apply_chat_template`.  The first call to the template routine
has a null buffer of capacity 0; the second one writes into the zero-filled
bytes of `buf`.  The size of `buf` is the `int32_t` sum `len + 1` converted to
`size_t`: it is `len + 1` for `len < INT32_MAX`, and the sum overflows for
`len = INT32_MAX`, where the source has no meaningful result. -/
def apply_chat_template (rt : Runtime σ) (model : Ptr) (user_content : Bytes) : Bytes :=
  let tmpl := rt.llama_model_chat_template model
  let messages := chat_messages user_content
  let len := (rt.llama_chat_apply_template tmpl messages true 0).1
  if len < 0 then
    user_content
  else
    let buf : Bytes := List.replicate (to_size_t (to_int32 (len + 1))) 0
    let written := ((rt.llama_chat_apply_template tmpl messages true buf.length).2).take buf.length
    let buf := written ++ buf.drop written.length
    let buf := buf.set len.toNat 0
    buf.take len.toNat

/-! ## Session lifecycle -/

/-- What `loadModel` leaves behind: the `jlong` it returns, the session object
living at that address (`none` when the object was deleted), the library
state and the calls issued. -/
structure LoadResult (σ : Type) where
  ret : Ptr
  session : Option VisionAIContext
  state : σ
  trace : List Call

/-- Lines 164-247: `Java_com_example_visionai_inference_LlamaModel_loadModel`. -/
def loadModel (rt : Runtime σ) (s : σ) (model_path_c mmproj_path_c : Bytes)
    (n_threads n_ctx : Int) : LoadResult σ :=
  let alloc := rt.operator_new s
  let vctx : VisionAIContext := {}
  let vctx := { vctx with n_threads := n_threads }
  let s0 := rt.ggml_backend_load_all alloc.2
  let loaded := rt.llama_model_load_from_file s0 model_path_c 99
  let vctx := { vctx with model := loaded.1 }
  let tr1 := [Call.operator_new alloc.1.val, Call.ggml_backend_load_all,
    Call.llama_model_load_from_file model_path_c 99 loaded.1]
  if vctx.model = 0 then
    ⟨0, none, loaded.2,
      tr1 ++ Call.operator_delete alloc.1.val :: throw_java_exception rt "Failed to load model"⟩
  else
    let created := rt.llama_init_from_model loaded.2 vctx.model n_ctx 512 n_threads
    let vctx := { vctx with ctx := created.1 }
    let tr2 := tr1 ++ [Call.llama_init_from_model vctx.model n_ctx 512 n_threads created.1]
    if vctx.ctx = 0 then
      let s1 := rt.llama_model_free created.2 vctx.model
      ⟨0, none, s1,
        tr2 ++ Call.llama_model_free vctx.model :: Call.operator_delete alloc.1.val ::
          throw_java_exception rt "Failed to create llama context"⟩
    else
      let projector := rt.mtmd_init_from_file created.2 mmproj_path_c vctx.model true n_threads
      let vctx := { vctx with ctx_mtmd := projector.1 }
      let tr3 := tr2 ++ [Call.mtmd_init_from_file mmproj_path_c vctx.model true n_threads
        projector.1]
      if vctx.ctx_mtmd = 0 then
        let s1 := rt.llama_free projector.2 vctx.ctx
        let s2 := rt.llama_model_free s1 vctx.model
        ⟨0, none, s2,
          tr3 ++ Call.llama_free vctx.ctx :: Call.llama_model_free vctx.model ::
            Call.operator_delete alloc.1.val ::
            throw_java_exception rt "Failed to load multimodal projector"⟩
      else
        let made := create_sampler rt projector.2 vctx
        ⟨alloc.1.val, some made.vctx, made.state, tr3 ++ made.trace⟩

/-- What `freeModel` leaves behind: the session object when it is still
allocated, the library state and the calls issued. -/
structure FreeResult (σ : Type) where
  session : Option VisionAIContext
  state : σ
  trace : List Call

/-- Lines 664-679: `Java_com_example_visionai_inference_LlamaModel_freeModel`.
`vctx` is the object `ctx_ptr` points to; it is not read when `ctx_ptr` is
null. -/
def freeModel (rt : Runtime σ) (s : σ) (ctx_ptr : Ptr) (vctx : VisionAIContext) :
    FreeResult σ :=
  if ctx_ptr = 0 then
    ⟨none, s, []⟩
  else
    let s1 := if vctx.sampler ≠ 0 then rt.llama_sampler_free s vctx.sampler else s
    let t1 := if vctx.sampler ≠ 0 then [Call.llama_sampler_free vctx.sampler] else []
    let s2 := if vctx.ctx_mtmd ≠ 0 then rt.mtmd_free s1 vctx.ctx_mtmd else s1
    let t2 := if vctx.ctx_mtmd ≠ 0 then [Call.mtmd_free vctx.ctx_mtmd] else []
    let s3 := if vctx.ctx ≠ 0 then rt.llama_free s2 vctx.ctx else s2
    let t3 := if vctx.ctx ≠ 0 then [Call.llama_free vctx.ctx] else []
    let s4 := if vctx.model ≠ 0 then rt.llama_model_free s3 vctx.model else s3
    let t4 := if vctx.model ≠ 0 then [Call.llama_model_free vctx.model] else []
    ⟨none, s4, t1 ++ t2 ++ t3 ++ t4 ++ [Call.operator_delete ctx_ptr]⟩

/-! ## Inference entry points -/

/-- What a blocking inference call leaves behind: the Java string it returns,
the session object, the library state and the calls issued. -/
structure InferResult (σ : Type) where
  ret : Bytes
  vctx : VisionAIContext
  state : σ
  trace : List Call

/-- One input frame of a multi-frame call: the pixel buffer and the entries of
the `widths` and `heights` arrays at its index (both arrays are taken to be
at least as long as `frames_array`). -/
structure Frame where
  data : Bytes
  width : Int
  height : Int
  deriving DecidableEq, Repr

/-- The conversion `(uint32_t)v` of a `jint`. -/
def to_uint32 (v : Int) : Nat :=
  (v % 4294967296).toNat

/-- Lines 249-335: `Java_com_example_visionai_inference_LlamaModel_runInference`.
`vctx` is the object `ctx_ptr` points to; it is not read when `ctx_ptr` is
null. -/
def runInference (rt : Runtime σ) (s : σ) (ctx_ptr : Ptr) (vctx : VisionAIContext)
    (img_data : Bytes) (width height : Int) (prompt_c : Bytes) : InferResult σ :=
  if ctx_ptr = 0 ∨ vctx.model = 0 ∨ vctx.ctx = 0 ∨ vctx.ctx_mtmd = 0 then
    ⟨NewStringUTF [], vctx, s, throw_java_exception rt "Model not loaded"⟩
  else
    let bmp := rt.mtmd_bitmap_init s (to_uint32 width) (to_uint32 height) img_data
    let marker := rt.mtmd_default_marker
    let user_content := marker ++ literal "\n" ++ prompt_c
    let formatted := apply_chat_template rt vctx.model user_content
    let chunks := rt.mtmd_input_chunks_init bmp.2
    let tokenize_res := rt.mtmd_tokenize chunks.2 vctx.ctx_mtmd chunks.1 (c_str formatted)
      false true [bmp.1]
    let tr1 := [Call.mtmd_bitmap_init (to_uint32 width) (to_uint32 height) img_data bmp.1,
      Call.apply_chat_template vctx.model user_content,
      Call.mtmd_input_chunks_init chunks.1,
      Call.mtmd_tokenize vctx.ctx_mtmd chunks.1 (c_str formatted) false true [bmp.1]
        tokenize_res.1]
    if tokenize_res.1 ≠ 0 then
      let s1 := rt.mtmd_input_chunks_free tokenize_res.2 chunks.1
      let s2 := rt.mtmd_bitmap_free s1 bmp.1
      ⟨NewStringUTF [], vctx, s2,
        tr1 ++ Call.mtmd_input_chunks_free chunks.1 :: Call.mtmd_bitmap_free bmp.1 ::
          throw_java_exception rt "Failed to tokenize input"⟩
    else
      let s1 := rt.llama_memory_clear tokenize_res.2 (rt.llama_get_memory vctx.ctx) true
      let made := create_sampler rt s1 vctx
      let vctx := made.vctx
      let eval_res := rt.mtmd_helper_eval_chunks made.state vctx.ctx_mtmd vctx.ctx chunks.1
        0 0 128 true
      let tr2 := tr1 ++ Call.llama_memory_clear (rt.llama_get_memory vctx.ctx) true ::
        made.trace ++
        [Call.mtmd_helper_eval_chunks vctx.ctx_mtmd vctx.ctx chunks.1 0 0 128 true eval_res.1]
      if eval_res.1 ≠ 0 then
        let s2 := rt.mtmd_input_chunks_free eval_res.2 chunks.1
        let s3 := rt.mtmd_bitmap_free s2 bmp.1
        ⟨NewStringUTF [], vctx, s3,
          tr2 ++ Call.mtmd_input_chunks_free chunks.1 :: Call.mtmd_bitmap_free bmp.1 ::
            throw_java_exception rt "Failed to evaluate input"⟩
      else
        let gen := generate_response rt eval_res.2 vctx MAX_TOKENS
        let s2 := rt.mtmd_input_chunks_free gen.state chunks.1
        let s3 := rt.mtmd_bitmap_free s2 bmp.1
        ⟨NewStringUTF (c_str gen.response), vctx, s3,
          tr2 ++ gen.trace ++
            [Call.mtmd_input_chunks_free chunks.1, Call.mtmd_bitmap_free bmp.1]⟩

/-- Lines 363-371 and 575-582: one `mtmd_bitmap_init` per frame, in order;
returns the `bitmaps` vector. -/
def init_bitmaps (rt : Runtime σ) : σ → List Frame → List Ptr × σ × List Call
  | s, [] => ([], s, [])
  | s, f :: fs =>
    let bmp := rt.mtmd_bitmap_init s (to_uint32 f.width) (to_uint32 f.height) f.data
    let rest := init_bitmaps rt bmp.2 fs
    (bmp.1 :: rest.1, rest.2.1,
      Call.mtmd_bitmap_init (to_uint32 f.width) (to_uint32 f.height) f.data bmp.1 :: rest.2.2)

/-- The loops `for (i < n_frames) mtmd_bitmap_free(bitmaps[i])` (lines 393-396,
418-421, 442-445 and their streaming twins). -/
def free_bitmaps (rt : Runtime σ) : σ → List Ptr → σ × List Call
  | s, [] => (s, [])
  | s, b :: bs =>
    let rest := free_bitmaps rt (rt.mtmd_bitmap_free s b) bs
    (rest.1, Call.mtmd_bitmap_free b :: rest.2)

/-- Lines 376-378 and 586-588: the loop appending `marker + "\n"` to
`user_content` once per frame, with `n` frames left. -/
def append_markers (marker : Bytes) : Nat → Bytes → Bytes
  | 0, user_content => user_content
  | n + 1, user_content => append_markers marker n (user_content ++ (marker ++ literal "\n"))

/-- Lines 337-452:
`Java_com_example_visionai_inference_LlamaModel_runVideoInference`.  `frames`
holds the `n_frames` elements of `frames_array` with their widths and
heights. -/
def runVideoInference (rt : Runtime σ) (s : σ) (ctx_ptr : Ptr) (vctx : VisionAIContext)
    (frames : List Frame) (prompt_c : Bytes) : InferResult σ :=
  if ctx_ptr = 0 ∨ vctx.model = 0 ∨ vctx.ctx = 0 ∨ vctx.ctx_mtmd = 0 then
    ⟨NewStringUTF [], vctx, s, throw_java_exception rt "Model not loaded"⟩
  else
    let n_frames := frames.length
    let bitmaps := init_bitmaps rt s frames
    let marker := rt.mtmd_default_marker
    let user_content := append_markers marker n_frames (prompt_c ++ literal "\n")
    let formatted := apply_chat_template rt vctx.model user_content
    let chunks := rt.mtmd_input_chunks_init bitmaps.2.1
    let tokenize_res := rt.mtmd_tokenize chunks.2 vctx.ctx_mtmd chunks.1 (c_str formatted)
      false true bitmaps.1
    let tr1 := bitmaps.2.2 ++ [Call.apply_chat_template vctx.model user_content,
      Call.mtmd_input_chunks_init chunks.1,
      Call.mtmd_tokenize vctx.ctx_mtmd chunks.1 (c_str formatted) false true bitmaps.1
        tokenize_res.1]
    if tokenize_res.1 ≠ 0 then
      let freed := free_bitmaps rt tokenize_res.2 bitmaps.1
      let s1 := rt.mtmd_input_chunks_free freed.1 chunks.1
      ⟨NewStringUTF [], vctx, s1,
        tr1 ++ freed.2 ++ Call.mtmd_input_chunks_free chunks.1 ::
          throw_java_exception rt "Failed to tokenize video input"⟩
    else
      let s1 := rt.llama_memory_clear tokenize_res.2 (rt.llama_get_memory vctx.ctx) true
      let made := create_sampler rt s1 vctx
      let vctx := made.vctx
      let eval_res := rt.mtmd_helper_eval_chunks made.state vctx.ctx_mtmd vctx.ctx chunks.1
        0 0 128 true
      let tr2 := tr1 ++ Call.llama_memory_clear (rt.llama_get_memory vctx.ctx) true ::
        made.trace ++
        [Call.mtmd_helper_eval_chunks vctx.ctx_mtmd vctx.ctx chunks.1 0 0 128 true eval_res.1]
      if eval_res.1 ≠ 0 then
        let freed := free_bitmaps rt eval_res.2 bitmaps.1
        let s2 := rt.mtmd_input_chunks_free freed.1 chunks.1
        ⟨NewStringUTF [], vctx, s2,
          tr2 ++ freed.2 ++ Call.mtmd_input_chunks_free chunks.1 ::
            throw_java_exception rt "Failed to evaluate video input"⟩
      else
        let gen := generate_response rt eval_res.2 vctx MAX_TOKENS
        let freed := free_bitmaps rt gen.state bitmaps.1
        let s2 := rt.mtmd_input_chunks_free freed.1 chunks.1
        ⟨NewStringUTF (c_str gen.response), vctx, s2,
          tr2 ++ gen.trace ++ freed.2 ++ [Call.mtmd_input_chunks_free chunks.1]⟩

/-- Lines 454-544:
`Java_com_example_visionai_inference_LlamaModel_runInferenceStreaming`; the
callback object is the receiver of the `onToken`, `onComplete` and `onError`
calls in the trace. -/
def runInferenceStreaming (rt : Runtime σ) (s : σ) (ctx_ptr : Ptr) (vctx : VisionAIContext)
    (img_data : Bytes) (width height : Int) (prompt_c : Bytes) : SessionResult σ :=
  if ctx_ptr = 0 ∨ vctx.model = 0 ∨ vctx.ctx = 0 ∨ vctx.ctx_mtmd = 0 then
    ⟨vctx, s, throw_java_exception rt "Model not loaded"⟩
  else
    let bmp := rt.mtmd_bitmap_init s (to_uint32 width) (to_uint32 height) img_data
    let marker := rt.mtmd_default_marker
    let user_content := marker ++ literal "\n" ++ prompt_c
    let formatted := apply_chat_template rt vctx.model user_content
    let chunks := rt.mtmd_input_chunks_init bmp.2
    let tokenize_res := rt.mtmd_tokenize chunks.2 vctx.ctx_mtmd chunks.1 (c_str formatted)
      false true [bmp.1]
    let tr1 := [Call.mtmd_bitmap_init (to_uint32 width) (to_uint32 height) img_data bmp.1,
      Call.apply_chat_template vctx.model user_content,
      Call.mtmd_input_chunks_init chunks.1,
      Call.mtmd_tokenize vctx.ctx_mtmd chunks.1 (c_str formatted) false true [bmp.1]
        tokenize_res.1]
    if tokenize_res.1 ≠ 0 then
      let s1 := rt.mtmd_input_chunks_free tokenize_res.2 chunks.1
      let s2 := rt.mtmd_bitmap_free s1 bmp.1
      ⟨vctx, s2,
        tr1 ++ [Call.mtmd_input_chunks_free chunks.1, Call.mtmd_bitmap_free bmp.1,
          Call.onError "Failed to tokenize input"]⟩
    else
      let s1 := rt.llama_memory_clear tokenize_res.2 (rt.llama_get_memory vctx.ctx) true
      let made := create_sampler rt s1 vctx
      let vctx := made.vctx
      let eval_res := rt.mtmd_helper_eval_chunks made.state vctx.ctx_mtmd vctx.ctx chunks.1
        0 0 128 true
      let tr2 := tr1 ++ Call.llama_memory_clear (rt.llama_get_memory vctx.ctx) true ::
        made.trace ++
        [Call.mtmd_helper_eval_chunks vctx.ctx_mtmd vctx.ctx chunks.1 0 0 128 true eval_res.1]
      if eval_res.1 ≠ 0 then
        let s2 := rt.mtmd_input_chunks_free eval_res.2 chunks.1
        let s3 := rt.mtmd_bitmap_free s2 bmp.1
        ⟨vctx, s3,
          tr2 ++ [Call.mtmd_input_chunks_free chunks.1, Call.mtmd_bitmap_free bmp.1,
            Call.onError "Failed to evaluate input"]⟩
      else
        let gen := generate_response_streaming rt eval_res.2 vctx MAX_TOKENS
        let s2 := rt.mtmd_input_chunks_free gen.state chunks.1
        let s3 := rt.mtmd_bitmap_free s2 bmp.1
        ⟨vctx, s3,
          tr2 ++ gen.trace ++
            [Call.mtmd_input_chunks_free chunks.1, Call.mtmd_bitmap_free bmp.1,
             Call.onComplete (NewStringUTF (c_str gen.response))]⟩

/-- Lines 546-661:
`Java_com_example_visionai_inference_LlamaModel_runVideoInferenceStreaming`. -/
def runVideoInferenceStreaming (rt : Runtime σ) (s : σ) (ctx_ptr : Ptr)
    (vctx : VisionAIContext) (frames : List Frame) (prompt_c : Bytes) : SessionResult σ :=
  if ctx_ptr = 0 ∨ vctx.model = 0 ∨ vctx.ctx = 0 ∨ vctx.ctx_mtmd = 0 then
    ⟨vctx, s, throw_java_exception rt "Model not loaded"⟩
  else
    let n_frames := frames.length
    let bitmaps := init_bitmaps rt s frames
    let marker := rt.mtmd_default_marker
    let user_content := append_markers marker n_frames (prompt_c ++ literal "\n")
    let formatted := apply_chat_template rt vctx.model user_content
    let chunks := rt.mtmd_input_chunks_init bitmaps.2.1
    let tokenize_res := rt.mtmd_tokenize chunks.2 vctx.ctx_mtmd chunks.1 (c_str formatted)
      false true bitmaps.1
    let tr1 := bitmaps.2.2 ++ [Call.apply_chat_template vctx.model user_content,
      Call.mtmd_input_chunks_init chunks.1,
      Call.mtmd_tokenize vctx.ctx_mtmd chunks.1 (c_str formatted) false true bitmaps.1
        tokenize_res.1]
    if tokenize_res.1 ≠ 0 then
      let freed := free_bitmaps rt tokenize_res.2 bitmaps.1
      let s1 := rt.mtmd_input_chunks_free freed.1 chunks.1
      ⟨vctx, s1,
        tr1 ++ freed.2 ++ [Call.mtmd_input_chunks_free chunks.1,
          Call.onError "Failed to tokenize video input"]⟩
    else
      let s1 := rt.llama_memory_clear tokenize_res.2 (rt.llama_get_memory vctx.ctx) true
      let made := create_sampler rt s1 vctx
      let vctx := made.vctx
      let eval_res := rt.mtmd_helper_eval_chunks made.state vctx.ctx_mtmd vctx.ctx chunks.1
        0 0 128 true
      let tr2 := tr1 ++ Call.llama_memory_clear (rt.llama_get_memory vctx.ctx) true ::
        made.trace ++
        [Call.mtmd_helper_eval_chunks vctx.ctx_mtmd vctx.ctx chunks.1 0 0 128 true eval_res.1]
      if eval_res.1 ≠ 0 then
        let freed := free_bitmaps rt eval_res.2 bitmaps.1
        let s2 := rt.mtmd_input_chunks_free freed.1 chunks.1
        ⟨vctx, s2,
          tr2 ++ freed.2 ++ [Call.mtmd_input_chunks_free chunks.1,
            Call.onError "Failed to evaluate video input"]⟩
      else
        let gen := generate_response_streaming rt eval_res.2 vctx MAX_TOKENS
        let freed := free_bitmaps rt gen.state bitmaps.1
        let s2 := rt.mtmd_input_chunks_free freed.1 chunks.1
        ⟨vctx, s2,
          tr2 ++ gen.trace ++ freed.2 ++
            [Call.mtmd_input_chunks_free chunks.1,
             Call.onComplete (NewStringUTF (c_str gen.response))]⟩

/-! ## Observations on a run of the generation loop

The loop alternates `llama_sampler_sample` and `llama_decode` on the library
state.  The definitions below name what the library answers at each iteration
for as long as the loop keeps going, starting from the state `s` the loop is
entered with; iterations are counted from `0`, so the `k`-th sampled token is
`sampled_at … (k - 1)`. -/

/-- The library state after one full iteration: the sample call, then the
decode call on the sampled token. -/
def iteration (rt : Runtime σ) (vctx : VisionAIContext) (s : σ) : σ :=
  (rt.llama_decode (rt.llama_sampler_sample s vctx.sampler vctx.ctx).2 vctx.ctx
    (rt.llama_sampler_sample s vctx.sampler vctx.ctx).1).2

/-- The library state at the start of iteration `i`. -/
def state_at (rt : Runtime σ) (vctx : VisionAIContext) (s : σ) (i : Nat) : σ :=
  (iteration rt vctx)^[i] s

/-- The token returned by the sample call of iteration `i`. -/
def sampled_at (rt : Runtime σ) (vctx : VisionAIContext) (s : σ) (i : Nat) : llama_token :=
  (rt.llama_sampler_sample (state_at rt vctx s i) vctx.sampler vctx.ctx).1

/-- Whether the token sampled at iteration `i` is an end-of-generation token. -/
def is_eog_at (rt : Runtime σ) (vctx : VisionAIContext) (s : σ) (i : Nat) : Bool :=
  rt.llama_vocab_is_eog (rt.llama_model_get_vocab vctx.model) (sampled_at rt vctx s i)

/-- The value returned by the decode call of iteration `i`. -/
def decode_result_at (rt : Runtime σ) (vctx : VisionAIContext) (s : σ) (i : Nat) : Int :=
  (rt.llama_decode (rt.llama_sampler_sample (state_at rt vctx s i) vctx.sampler vctx.ctx).2
    vctx.ctx (sampled_at rt vctx s i)).1

/-- The text fragment of a token: the first `n` bytes of the piece buffer when
`llama_token_to_piece` returns `n > 0`, the empty fragment otherwise. -/
def token_fragment (rt : Runtime σ) (vctx : VisionAIContext) (token_id : llama_token) : Bytes :=
  if (rt.llama_token_to_piece (rt.llama_model_get_vocab vctx.model) token_id).1 > 0 then
    (rt.llama_token_to_piece (rt.llama_model_get_vocab vctx.model) token_id).2.take
      (rt.llama_token_to_piece (rt.llama_model_get_vocab vctx.model) token_id).1.toNat
  else []

/-- The text fragment of the token sampled at iteration `i`. -/
def fragment_at (rt : Runtime σ) (vctx : VisionAIContext) (s : σ) (i : Nat) : Bytes :=
  token_fragment rt vctx (sampled_at rt vctx s i)

/-- The tokens returned by the sample calls of a trace, in order. -/
def sample_calls (tr : List Call) : List llama_token :=
  tr.filterMap fun c =>
    match c with
    | Call.llama_sampler_sample _ _ t => some t
    | _ => none

/-- The decode calls of a trace, in order: the token decoded and the result. -/
def decode_calls (tr : List Call) : List (llama_token × Int) :=
  tr.filterMap fun c =>
    match c with
    | Call.llama_decode _ t r => some (t, r)
    | _ => none

/-- The strings delivered to the per-token sink (`onToken`), in order. -/
def token_sink_calls (tr : List Call) : List Bytes :=
  tr.filterMap fun c =>
    match c with
    | Call.onToken f => some f
    | _ => none

/-- The strings delivered to the completion sink (`onComplete`), in order. -/
def complete_sink_calls (tr : List Call) : List Bytes :=
  tr.filterMap fun c =>
    match c with
    | Call.onComplete f => some f
    | _ => none

/-- The messages delivered to the error sink (`onError`), in order. -/
def error_sink_calls (tr : List Call) : List String :=
  tr.filterMap fun c =>
    match c with
    | Call.onError m => some m
    | _ => none

/-- The messages of the Java exceptions raised (`ThrowNew`), in order. -/
def thrown (tr : List Call) : List String :=
  tr.filterMap fun c =>
    match c with
    | Call.ThrowNew _ m => some m
    | _ => none

/-- The calls of iterations `0 … m - 1` of the blocking loop while it keeps
going. -/
def blocking_calls (rt : Runtime σ) (vctx : VisionAIContext) (s : σ) (m : Nat) : List Call :=
  (List.range m).flatMap fun j =>
    [Call.llama_sampler_sample vctx.sampler vctx.ctx (sampled_at rt vctx s j),
     Call.llama_decode vctx.ctx (sampled_at rt vctx s j) (decode_result_at rt vctx s j)]

/-- The `onToken` call of one iteration of the streaming loop, if any. -/
def delivered_at (rt : Runtime σ) (vctx : VisionAIContext) (s : σ) (j : Nat) : List Call :=
  if (rt.llama_token_to_piece (rt.llama_model_get_vocab vctx.model)
      (sampled_at rt vctx s j)).1 > 0 then
    [Call.onToken (NewStringUTF (c_str (fragment_at rt vctx s j)))]
  else []

/-- The calls of iterations `0 … m - 1` of the streaming loop while it keeps
going. -/
def streaming_calls (rt : Runtime σ) (vctx : VisionAIContext) (s : σ) (m : Nat) : List Call :=
  (List.range m).flatMap fun j =>
    Call.llama_sampler_sample vctx.sampler vctx.ctx (sampled_at rt vctx s j) ::
      (delivered_at rt vctx s j ++
        [Call.llama_decode vctx.ctx (sampled_at rt vctx s j) (decode_result_at rt vctx s j)])

/-- The response accumulated over iterations `0 … m - 1`. -/
def fragments (rt : Runtime σ) (vctx : VisionAIContext) (s : σ) (m : Nat) : Bytes :=
  ((List.range m).map (fragment_at rt vctx s)).flatten

/-- The calls to the prompt formatter in a trace, in order: the model and the
user content it is given. -/
def formatter_calls (tr : List Call) : List (Ptr × Bytes) :=
  tr.filterMap fun c =>
    match c with
    | Call.apply_chat_template m u => some (m, u)
    | _ => none

/-- Whether a call is one the generation helpers issue: a sample call, a decode
call or a per-token notification. -/
def generation_call : Call → Bool
  | Call.llama_sampler_sample _ _ _ => true
  | Call.llama_decode _ _ _ => true
  | Call.onToken _ => true
  | _ => false

/-! ## Observations on the prompt formatter -/

/-- The size the template routine reports for the conversation of
`apply_chat_template` (line 58). -/
def template_size (rt : Runtime σ) (model : Ptr) (user_content : Bytes) : Int :=
  (rt.llama_chat_apply_template (rt.llama_model_chat_template model)
    (chat_messages user_content) true 0).1

/-- The `len + 1` bytes of a buffer of that size after the second call to the
template routine (line 65): what the routine wrote, then the zero bytes it
left untouched. -/
def template_buffer (rt : Runtime σ) (model : Ptr) (user_content : Bytes) : Bytes :=
  let capacity := (template_size rt model user_content + 1).toNat
  let written := ((rt.llama_chat_apply_template (rt.llama_model_chat_template model)
    (chat_messages user_content) true capacity).2).take capacity
  written ++ List.replicate (capacity - written.length) 0

/-! ## Observations on resource handles -/

/-- The four kinds of native resource a session holds. -/
inductive Resource where
  | model
  | context
  | projector
  | sampler
  deriving DecidableEq, Repr

/-- The acquisition calls of a trace, in order, with the handle each returned
(`0` when the acquisition failed). -/
def acquisitions (tr : List Call) : List (Resource × Ptr) :=
  tr.filterMap fun c =>
    match c with
    | Call.llama_model_load_from_file _ _ p => some (Resource.model, p)
    | Call.llama_init_from_model _ _ _ _ p => some (Resource.context, p)
    | Call.mtmd_init_from_file _ _ _ _ p => some (Resource.projector, p)
    | Call.llama_sampler_chain_init p => some (Resource.sampler, p)
    | _ => none

/-- The handles acquired in a trace: the acquisitions that returned a non-null
handle. -/
def acquired (tr : List Call) : List (Resource × Ptr) :=
  (acquisitions tr).filter fun a => a.2 != 0

/-- The release calls of a trace, in order, with the handle each was given. -/
def released (tr : List Call) : List (Resource × Ptr) :=
  tr.filterMap fun c =>
    match c with
    | Call.llama_model_free p => some (Resource.model, p)
    | Call.llama_free p => some (Resource.context, p)
    | Call.mtmd_free p => some (Resource.projector, p)
    | Call.llama_sampler_free p => some (Resource.sampler, p)
    | _ => none

/-- The error message `loadModel` raises when the acquisition of a resource
fails (lines 198, 215 and 232); the sampler chain has none. -/
def stage_error : Resource → String
  | Resource.model => "Failed to load model"
  | Resource.context => "Failed to create llama context"
  | Resource.projector => "Failed to load multimodal projector"
  | Resource.sampler => ""

/-! ## A scripted library

A `Runtime` whose answers are read off a finite script; its state counts the
sample and decode calls served so far.  It instantiates the theorems below on
concrete runs. -/

/-- The answers of a scripted library. -/
structure Script where
  /-- Results of `llama_model_load_from_file`, `llama_init_from_model` and
  `mtmd_init_from_file`. -/
  model : Ptr := 11
  ctx : Ptr := 12
  ctx_mtmd : Ptr := 13
  /-- Result of the JNI lookup of the exception class; `0` when the class is
  not found. -/
  exception_class : Ptr := 7
  /-- The chat template of the model and what the template routine answers: the
  size it returns and the bytes it writes when given a buffer. -/
  template : Option Bytes := none
  render_size : Int := -1
  render_bytes : Bytes := []
  /-- Successive results of `llama_sampler_sample`; token `1` once the list is
  used up. -/
  tokens : List llama_token := []
  /-- The one end-of-generation token. -/
  eog : llama_token := 2
  /-- Successive results of `llama_decode`; `0` once the list is used up. -/
  decode_results : List Int := []
  /-- Results of `llama_token_to_piece` per token; `(0, [])` for the others. -/
  pieces : List (llama_token × Int × Bytes) := []
  tokenize_res : Int := 0
  eval_res : Int := 0

/-- The library that answers from the script `sc`. -/
def scripted (sc : Script) : Runtime (Nat × Nat) where
  operator_new := fun s => (⟨4096, by decide⟩, s)
  ggml_backend_load_all := fun s => s
  llama_model_load_from_file := fun s _ _ => (sc.model, s)
  llama_init_from_model := fun s _ _ _ _ => (sc.ctx, s)
  mtmd_init_from_file := fun s _ _ _ _ => (sc.ctx_mtmd, s)
  llama_sampler_chain_init := fun s => (⟨14, by decide⟩, s)
  llama_sampler_chain_add := fun s _ _ => s
  llama_sampler_free := fun s _ => s
  mtmd_free := fun s _ => s
  llama_free := fun s _ => s
  llama_model_free := fun s _ => s
  FindClass := fun _ => sc.exception_class
  llama_model_chat_template := fun _ => sc.template
  llama_chat_apply_template := fun _ _ _ capacity =>
    (sc.render_size, if capacity = 0 then [] else sc.render_bytes)
  llama_model_get_vocab := fun model => model
  llama_sampler_sample := fun s _ _ => (sc.tokens.getD s.1 1, (s.1 + 1, s.2))
  llama_vocab_is_eog := fun _ t => t == sc.eog
  llama_token_to_piece := fun _ t => (sc.pieces.lookup t).getD (0, [])
  llama_decode := fun s _ _ => (sc.decode_results.getD s.2 0, (s.1, s.2 + 1))
  mtmd_default_marker := literal "<__media__>"
  mtmd_bitmap_init := fun s _ _ _ => (21, s)
  mtmd_bitmap_free := fun s _ => s
  mtmd_input_chunks_init := fun s => (31, s)
  mtmd_input_chunks_free := fun s _ => s
  mtmd_tokenize := fun s _ _ _ _ _ _ => (sc.tokenize_res, s)
  llama_get_memory := fun ctx => ctx
  llama_memory_clear := fun s _ _ => s
  mtmd_helper_eval_chunks := fun s _ _ _ _ _ _ _ => (sc.eval_res, s)

/-- A fully constructed session. -/
def ready_session : VisionAIContext :=
  { model := 11, ctx := 12, sampler := 14, ctx_mtmd := 13, n_threads := 4 }

/-- Script: every acquisition succeeds. -/
def script_plain : Script :=
  {}

/-- Script: tokens `5` ("Hi"), `6` (no text), then the end-of-generation token. -/
def script_eog : Script :=
  { tokens := [5, 6, 2], pieces := [(5, 2, [72, 105]), (6, -1, [])] }

/-- Script: the sampler never emits the end-of-generation token and every
decode call succeeds. -/
def script_endless : Script :=
  { pieces := [(1, 1, [97])] }

/-- Script: tokens `5` ("Hi") and `7` ("!"); the second decode call fails. -/
def script_decode_failure : Script :=
  { tokens := [5, 7, 5], decode_results := [0, 1],
    pieces := [(5, 2, [72, 105]), (7, 1, [33])] }

/-- Script: tokens `5` ("a"), `8` (the single byte NUL) and `9` ("b"), then the
end-of-generation token. -/
def script_nul : Script :=
  { tokens := [5, 8, 9, 2], pieces := [(5, 1, [97]), (8, 1, [0]), (9, 1, [98])] }

/-- Script: a model without chat template whose template routine renders
three bytes all the same. -/
def script_untemplated : Script :=
  { template := none, render_size := 3, render_bytes := [97, 98, 99] }

/-- Script: a model with a chat template that renders to nothing. -/
def script_blank_template : Script :=
  { template := some [123, 125], render_size := 0, render_bytes := [] }

/-- Script: a model with a chat template whose rendering is four bytes long. -/
def script_templated : Script :=
  { template := some [123, 125], render_size := 4, render_bytes := [60, 104, 105, 62] }

/-- Script: the multimodal projector cannot be loaded. -/
def script_no_projector : Script :=
  { ctx_mtmd := 0 }

/-- Script: the model cannot be loaded and the JNI lookup of the exception
class returns null. -/
def script_no_model_no_class : Script :=
  { model := 0, exception_class := 0 }

/-- Script: the JNI lookup of the exception class returns null. -/
def script_no_class : Script :=
  { exception_class := 0 }

/-- The calls of `create_sampler` on a session whose sampler handle is `old`,
when the chain constructor returns `p`: the free of the previous chain if
there is one, the construction, and the four stages. -/
def sampler_rebuild (old p : Ptr) : List Call :=
  (if old ≠ 0 then [Call.llama_sampler_free old] else []) ++
    [Call.llama_sampler_chain_init p,
     Call.llama_sampler_chain_add p SamplerStage.penalties,
     Call.llama_sampler_chain_add p SamplerStage.min_p,
     Call.llama_sampler_chain_add p SamplerStage.temp,
     Call.llama_sampler_chain_add p SamplerStage.dist]

/-- The `mtmd_bitmap_init` calls that build the bitmaps `bitmaps` from the
frames `frames`. -/
def bitmap_init_calls (frames : List Frame) (bitmaps : List Ptr) : List Call :=
  List.zipWith
    (fun f b => Call.mtmd_bitmap_init (to_uint32 f.width) (to_uint32 f.height) f.data b)
    frames bitmaps

/-- The form of the trace of an inference call on a ready session: the bitmap
constructions, the formatter call, the chunk construction and the tokenize
call; then the work of the later stages (`work`); then the releases
(`frees`); then what reports the outcome (`report`).  `streaming` tells the
two delivery modes apart, `vctx2` is the session object after the call and
`ret` the string returned. -/
def request_shape (rt : Runtime σ) (streaming : Bool) (vctx : VisionAIContext)
    (frames : List Frame) (tr : List Call) (vctx2 : VisionAIContext) (ret : Bytes) : Prop :=
  ∃ (bitmaps : List Ptr) (chunks : Ptr) (content text : Bytes) (tok : Int)
    (work frees report : List Call),
    bitmaps.length = frames.length ∧
    tr = bitmap_init_calls frames bitmaps ++
      (Call.apply_chat_template vctx.model content :: Call.mtmd_input_chunks_init chunks ::
        Call.mtmd_tokenize vctx.ctx_mtmd chunks text false true bitmaps tok ::
        (work ++ (frees ++ report))) ∧
    (frees = Call.mtmd_input_chunks_free chunks :: bitmaps.map Call.mtmd_bitmap_free ∨
      frees = bitmaps.map Call.mtmd_bitmap_free ++ [Call.mtmd_input_chunks_free chunks]) ∧
    ((tok ≠ 0 ∧ work = [] ∧ vctx2 = vctx ∧ ret = [] ∧
        ∃ msg, report = if streaming then [Call.onError msg] else throw_java_exception rt msg) ∨
      (tok = 0 ∧ ∃ (p : Ptr) (ev : Int) (gen : List Call),
        p ≠ 0 ∧ vctx2 = { vctx with sampler := p } ∧
        work = Call.llama_memory_clear (rt.llama_get_memory vctx.ctx) true ::
          (sampler_rebuild vctx.sampler p ++
            Call.mtmd_helper_eval_chunks vctx.ctx_mtmd vctx.ctx chunks 0 0 128 true ev :: gen) ∧
        ((ev ≠ 0 ∧ gen = [] ∧ ret = [] ∧
            ∃ msg, report =
              if streaming then [Call.onError msg] else throw_java_exception rt msg) ∨
          (ev = 0 ∧ ∃ s2 : σ,
            if streaming then
              gen = (generate_response_streaming rt s2 vctx2 MAX_TOKENS).trace ∧
              report = [Call.onComplete (NewStringUTF
                (c_str (generate_response_streaming rt s2 vctx2 MAX_TOKENS).response))] ∧
              ret = []
            else
              gen = (generate_response rt s2 vctx2 MAX_TOKENS).trace ∧
              report = [] ∧
              ret = NewStringUTF (c_str (generate_response rt s2 vctx2 MAX_TOKENS).response)))))

/-- Whether a call clears the running memory, frees or builds a sampler chain,
evaluates the chunks, samples or decodes: the calls whose order the per-call
reset is about. -/
def state_call : Call → Bool
  | Call.llama_memory_clear _ _ => true
  | Call.llama_sampler_free _ => true
  | Call.llama_sampler_chain_init _ => true
  | Call.llama_sampler_chain_add _ _ => true
  | Call.mtmd_helper_eval_chunks _ _ _ _ _ _ _ _ => true
  | Call.llama_sampler_sample _ _ _ => true
  | Call.llama_decode _ _ _ => true
  | _ => false

/-- The calls of a trace for which `state_call` holds, in order. -/
def state_calls (tr : List Call) : List Call :=
  tr.filter state_call

/-- Whether a call is a chunk evaluation. -/
def evaluation_call : Call → Bool
  | Call.mtmd_helper_eval_chunks _ _ _ _ _ _ _ _ => true
  | _ => false

/-- Whether a call is a sample call or a decode call. -/
def sample_or_decode : Call → Bool
  | Call.llama_sampler_sample _ _ _ => true
  | Call.llama_decode _ _ _ => true
  | _ => false

/-- Whether a call releases a bitmap or a chunk sequence. -/
def release_call : Call → Bool
  | Call.mtmd_bitmap_free _ => true
  | Call.mtmd_input_chunks_free _ => true
  | _ => false

/-- Whether a call reports the outcome of an inference call to the caller: the
raising of a Java exception (class lookup and `ThrowNew`), the error sink or
the completion sink. -/
def report_call : Call → Bool
  | Call.FindClass _ _ => true
  | Call.ThrowNew _ _ => true
  | Call.onError _ => true
  | Call.onComplete _ => true
  | _ => false

/-- The bitmap handles released in a trace, in order. -/
def bitmap_frees (tr : List Call) : List Ptr :=
  tr.filterMap fun c =>
    match c with
    | Call.mtmd_bitmap_free b => some b
    | _ => none

/-- The chunk sequences freed in a trace, in order. -/
def chunk_frees (tr : List Call) : List Ptr :=
  tr.filterMap fun c =>
    match c with
    | Call.mtmd_input_chunks_free p => some p
    | _ => none

/-- The results of the tokenize calls of a trace, in order. -/
def tokenize_results (tr : List Call) : List Int :=
  tr.filterMap fun c =>
    match c with
    | Call.mtmd_tokenize _ _ _ _ _ _ r => some r
    | _ => none

/-- The reset order of an inference call on the session `vctx`: among the
state calls of the trace the first is the clear of the running memory of the
session's context, then comes one sampler rebuild (free of the previous
chain if any, construction of the chain `p`, its four stages), then the chunk
evaluation at position 0, and whatever follows is a sample or a decode
call. -/
def reset_order (rt : Runtime σ) (vctx : VisionAIContext) (tr : List Call) : Prop :=
  ∃ (p chunks : Ptr) (ev : Int) (gen : List Call),
    state_calls tr =
      Call.llama_memory_clear (rt.llama_get_memory vctx.ctx) true ::
        (sampler_rebuild vctx.sampler p ++
          Call.mtmd_helper_eval_chunks vctx.ctx_mtmd vctx.ctx chunks 0 0 128 true ev :: gen) ∧
    ∀ c ∈ gen, sample_or_decode c = true

/-- Whether a call is a bitmap construction. -/
def bitmap_init_call : Call → Bool
  | Call.mtmd_bitmap_init _ _ _ _ => true
  | _ => false

/-- Whether a call is part of a sampler rebuild. -/
def sampler_call : Call → Bool
  | Call.llama_sampler_free _ => true
  | Call.llama_sampler_chain_init _ => true
  | Call.llama_sampler_chain_add _ _ => true
  | _ => false

/-- Whether a call belongs to the work of an inference call after
tokenization: a state call or a per-token notification. -/
def work_call (c : Call) : Bool :=
  state_call c || generation_call c

/-- One inference request of the Java caller: which of the four entry points
it calls, and with which arguments. -/
inductive Request where
  | image (img_data : Bytes) (width height : Int) (prompt_c : Bytes)
  | video (frames : List Frame) (prompt_c : Bytes)
  | image_streaming (img_data : Bytes) (width height : Int) (prompt_c : Bytes)
  | video_streaming (frames : List Frame) (prompt_c : Bytes)

/-- The call of the entry point a request names, on the session object `vctx`
that `ctx_ptr` points to: the session object, the library state and the
calls it leaves behind. -/
def serve (rt : Runtime σ) (s : σ) (ctx_ptr : Ptr) (vctx : VisionAIContext) :
    Request → SessionResult σ
  | Request.image img_data width height prompt_c =>
    let r := runInference rt s ctx_ptr vctx img_data width height prompt_c
    ⟨r.vctx, r.state, r.trace⟩
  | Request.video frames prompt_c =>
    let r := runVideoInference rt s ctx_ptr vctx frames prompt_c
    ⟨r.vctx, r.state, r.trace⟩
  | Request.image_streaming img_data width height prompt_c =>
    runInferenceStreaming rt s ctx_ptr vctx img_data width height prompt_c
  | Request.video_streaming frames prompt_c =>
    runVideoInferenceStreaming rt s ctx_ptr vctx frames prompt_c

/-- A sequence of inference calls on one session handle, one after the other:
each call starts from the session object and the library state the previous
one left.  The trace is the concatenation of the traces of the calls. -/
def serve_all (rt : Runtime σ) : σ → Ptr → VisionAIContext → List Request → SessionResult σ
  | s, _, vctx, [] => ⟨vctx, s, []⟩
  | s, ctx_ptr, vctx, req :: reqs =>
    let one := serve rt s ctx_ptr vctx req
    let rest := serve_all rt one.state ctx_ptr one.vctx reqs
    ⟨rest.vctx, rest.state, one.trace ++ rest.trace⟩

/-- Whether a request calls a streaming entry point. -/
def Request.streaming : Request → Bool
  | Request.image _ _ _ _ => false
  | Request.video _ _ => false
  | Request.image_streaming _ _ _ _ => true
  | Request.video_streaming _ _ => true

/-- The frames a request passes. -/
def Request.frames : Request → List Frame
  | Request.image img_data width height _ => [⟨img_data, width, height⟩]
  | Request.video frames _ => frames
  | Request.image_streaming img_data width height _ => [⟨img_data, width, height⟩]
  | Request.video_streaming frames _ => frames

/-- Whether a call is a sink call: a per-token notification, the completion
sink or the error sink. -/
def sink_call : Call → Bool
  | Call.onToken _ => true
  | Call.onComplete _ => true
  | Call.onError _ => true
  | _ => false

/-- The sink calls of a trace, in order. -/
def sink_calls (tr : List Call) : List Call :=
  tr.filter sink_call

/-- The results of the chunk evaluations of a trace, in order. -/
def evaluation_results (tr : List Call) : List Int :=
  tr.filterMap fun c =>
    match c with
    | Call.mtmd_helper_eval_chunks _ _ _ _ _ _ _ r => some r
    | _ => none

/-- The sink protocol of a streaming call.  Either
tokenization or the chunk evaluation failed, and then the only sink call is
one call of the error sink and the trace holds no sample, decode or per-token
call; or both succeeded, and then the sink calls are the per-token
notifications of the generation loop followed by one call of the completion
sink, whose payload is the Java string made from `response.c_str()`. -/
def sink_protocol (rt : Runtime σ) (tr : List Call) : Prop :=
  ∃ tok, tokenize_results tr = [tok] ∧
    (((tok ≠ 0 ∧ evaluation_results tr = [] ∨
        tok = 0 ∧ ∃ ev, ev ≠ 0 ∧ evaluation_results tr = [ev]) ∧
      (∃ msg, sink_calls tr = [Call.onError msg]) ∧ tr.filter generation_call = []) ∨
    (tok = 0 ∧ evaluation_results tr = [0] ∧
      ∃ (s2 : σ) (vctx2 : VisionAIContext),
        sink_calls tr =
          (token_sink_calls (generate_response_streaming rt s2 vctx2 MAX_TOKENS).trace).map
            Call.onToken ++
          [Call.onComplete (NewStringUTF
            (c_str (generate_response_streaming rt s2 vctx2 MAX_TOKENS).response))]))

/-- The chains returned by the sampler-chain constructions of a trace, in
order. -/
def chain_inits (tr : List Call) : List Ptr :=
  tr.filterMap fun c =>
    match c with
    | Call.llama_sampler_chain_init p => some p
    | _ => none

/-- The sampler chains freed in a trace, in order. -/
def sampler_frees (tr : List Call) : List Ptr :=
  tr.filterMap fun c =>
    match c with
    | Call.llama_sampler_free p => some p
    | _ => none

/-- Replays the sampler calls of a trace.  `live` is the chain that is
constructed and not yet freed (0 when there is none).  A construction is
admitted only while no chain is live and when it returns a chain, which
becomes the live chain; a free is admitted only of the live chain, and leaves
none.  The result is the live chain at the end of the trace, or `none` if a
call was not admitted (a chain freed twice or before its construction, or a
second chain constructed beside a live one). -/
def sampler_discipline : Ptr → List Call → Option Ptr
  | live, [] => some live
  | live, Call.llama_sampler_chain_init p :: tr =>
    if live = 0 ∧ p ≠ 0 then sampler_discipline p tr else none
  | live, Call.llama_sampler_free p :: tr =>
    if p ≠ 0 ∧ p = live then sampler_discipline 0 tr else none
  | live, _ :: tr => sampler_discipline live tr

/-- The life of a session: `loadModel`, then the inference calls `reqs` on the
handle it returned, then `freeModel` on that handle; the calls issued, and
nothing after `loadModel` when it returned no session. -/
def session_life (rt : Runtime σ) (s : σ) (model_path_c mmproj_path_c : Bytes)
    (n_threads n_ctx : Int) (reqs : List Request) : List Call :=
  let loaded := loadModel rt s model_path_c mmproj_path_c n_threads n_ctx
  match loaded.session with
  | none => loaded.trace
  | some vctx =>
    let served := serve_all rt loaded.state loaded.ret vctx reqs
    loaded.trace ++ served.trace ++
      (freeModel rt served.state loaded.ret served.vctx).trace

/-- Whether a call constructs or frees a sampler chain. -/
def sampler_event : Call → Bool
  | Call.llama_sampler_chain_init _ => true
  | Call.llama_sampler_free _ => true
  | _ => false

/-! ## The generation loop, iteration by iteration -/

theorem state_at_succ (rt : Runtime σ) (vctx : VisionAIContext) (s : σ) (j : Nat) :
    state_at rt vctx s (j + 1) = state_at rt vctx (iteration rt vctx s) j := by
  simp [state_at, Function.iterate_succ_apply]

theorem sampled_at_succ (rt : Runtime σ) (vctx : VisionAIContext) (s : σ) (j : Nat) :
    sampled_at rt vctx s (j + 1) = sampled_at rt vctx (iteration rt vctx s) j := by
  simp [sampled_at, state_at_succ]

theorem is_eog_at_succ (rt : Runtime σ) (vctx : VisionAIContext) (s : σ) (j : Nat) :
    is_eog_at rt vctx s (j + 1) = is_eog_at rt vctx (iteration rt vctx s) j := by
  simp [is_eog_at, sampled_at_succ]

theorem decode_result_at_succ (rt : Runtime σ) (vctx : VisionAIContext) (s : σ) (j : Nat) :
    decode_result_at rt vctx s (j + 1) = decode_result_at rt vctx (iteration rt vctx s) j := by
  simp [decode_result_at, sampled_at_succ, state_at_succ]

theorem fragment_at_succ (rt : Runtime σ) (vctx : VisionAIContext) (s : σ) (j : Nat) :
    fragment_at rt vctx s (j + 1) = fragment_at rt vctx (iteration rt vctx s) j := by
  simp [fragment_at, sampled_at_succ]

theorem delivered_at_succ (rt : Runtime σ) (vctx : VisionAIContext) (s : σ) (j : Nat) :
    delivered_at rt vctx s (j + 1) = delivered_at rt vctx (iteration rt vctx s) j := by
  simp [delivered_at, sampled_at_succ, fragment_at_succ]

theorem fragments_succ (rt : Runtime σ) (vctx : VisionAIContext) (s : σ) (m : Nat) :
    fragments rt vctx s (m + 1) =
      fragment_at rt vctx s 0 ++ fragments rt vctx (iteration rt vctx s) m := by
  simp [fragments, List.range_succ_eq_map, List.map_map, Function.comp_def, fragment_at_succ]

theorem blocking_calls_succ (rt : Runtime σ) (vctx : VisionAIContext) (s : σ) (m : Nat) :
    blocking_calls rt vctx s (m + 1) =
      Call.llama_sampler_sample vctx.sampler vctx.ctx (sampled_at rt vctx s 0) ::
      Call.llama_decode vctx.ctx (sampled_at rt vctx s 0) (decode_result_at rt vctx s 0) ::
      blocking_calls rt vctx (iteration rt vctx s) m := by
  simp [blocking_calls, List.range_succ_eq_map, List.flatMap_map, sampled_at_succ,
    decode_result_at_succ]

theorem streaming_calls_succ (rt : Runtime σ) (vctx : VisionAIContext) (s : σ) (m : Nat) :
    streaming_calls rt vctx s (m + 1) =
      Call.llama_sampler_sample vctx.sampler vctx.ctx (sampled_at rt vctx s 0) ::
      (delivered_at rt vctx s 0 ++
      Call.llama_decode vctx.ctx (sampled_at rt vctx s 0) (decode_result_at rt vctx s 0) ::
      streaming_calls rt vctx (iteration rt vctx s) m) := by
  simp [streaming_calls, List.range_succ_eq_map, List.flatMap_map, sampled_at_succ,
    decode_result_at_succ, delivered_at_succ]

theorem append_fragment (rt : Runtime σ) (vctx : VisionAIContext) (t : llama_token)
    (response : Bytes) :
    (if (rt.llama_token_to_piece (rt.llama_model_get_vocab vctx.model) t).1 > 0 then
      response ++ (rt.llama_token_to_piece (rt.llama_model_get_vocab vctx.model) t).2.take
        (rt.llama_token_to_piece (rt.llama_model_get_vocab vctx.model) t).1.toNat
     else response) = response ++ token_fragment rt vctx t := by
  unfold token_fragment
  split <;> simp

theorem sampled_at_zero (rt : Runtime σ) (vctx : VisionAIContext) (s : σ) :
    sampled_at rt vctx s 0 = (rt.llama_sampler_sample s vctx.sampler vctx.ctx).1 := rfl

theorem is_eog_at_zero (rt : Runtime σ) (vctx : VisionAIContext) (s : σ) :
    is_eog_at rt vctx s 0 = rt.llama_vocab_is_eog (rt.llama_model_get_vocab vctx.model)
      (rt.llama_sampler_sample s vctx.sampler vctx.ctx).1 := rfl

theorem decode_result_at_zero (rt : Runtime σ) (vctx : VisionAIContext) (s : σ) :
    decode_result_at rt vctx s 0 =
      (rt.llama_decode (rt.llama_sampler_sample s vctx.sampler vctx.ctx).2 vctx.ctx
        (rt.llama_sampler_sample s vctx.sampler vctx.ctx).1).1 := rfl

/-- One iteration of the blocking loop that samples an end-of-generation
token. -/
theorem generate_response_loop_eog (rt : Runtime σ) (vctx : VisionAIContext) (r : Nat) (s : σ)
    (response : Bytes) (tg : Nat) (h : is_eog_at rt vctx s 0 = true) :
    generate_response_loop rt vctx (rt.llama_model_get_vocab vctx.model) (r + 1) s response tg =
      ⟨response, tg, (rt.llama_sampler_sample s vctx.sampler vctx.ctx).2,
        [Call.llama_sampler_sample vctx.sampler vctx.ctx (sampled_at rt vctx s 0)]⟩ := by
  rw [is_eog_at_zero] at h
  rw [generate_response_loop]
  simp only [h, if_true, sampled_at_zero]

/-- One iteration of the blocking loop whose decode call fails. -/
theorem generate_response_loop_fail (rt : Runtime σ) (vctx : VisionAIContext) (r : Nat) (s : σ)
    (response : Bytes) (tg : Nat) (h : is_eog_at rt vctx s 0 = false)
    (hd : decode_result_at rt vctx s 0 ≠ 0) :
    generate_response_loop rt vctx (rt.llama_model_get_vocab vctx.model) (r + 1) s response tg =
      ⟨response ++ fragment_at rt vctx s 0, tg + 1, iteration rt vctx s,
        [Call.llama_sampler_sample vctx.sampler vctx.ctx (sampled_at rt vctx s 0),
         Call.llama_decode vctx.ctx (sampled_at rt vctx s 0) (decode_result_at rt vctx s 0)]⟩ := by
  rw [is_eog_at_zero] at h
  rw [decode_result_at_zero] at hd
  rw [generate_response_loop]
  simp only [h, Bool.false_eq_true, if_false, append_fragment]
  rw [if_pos hd]
  rfl

/-- One iteration of the blocking loop that goes on to the next one. -/
theorem generate_response_loop_next (rt : Runtime σ) (vctx : VisionAIContext) (r : Nat) (s : σ)
    (response : Bytes) (tg : Nat) (h : is_eog_at rt vctx s 0 = false)
    (hd : decode_result_at rt vctx s 0 = 0) :
    generate_response_loop rt vctx (rt.llama_model_get_vocab vctx.model) (r + 1) s response tg =
      ⟨(generate_response_loop rt vctx (rt.llama_model_get_vocab vctx.model) r
          (iteration rt vctx s) (response ++ fragment_at rt vctx s 0) (tg + 1)).response,
       (generate_response_loop rt vctx (rt.llama_model_get_vocab vctx.model) r
          (iteration rt vctx s) (response ++ fragment_at rt vctx s 0) (tg + 1)).tokens_generated,
       (generate_response_loop rt vctx (rt.llama_model_get_vocab vctx.model) r
          (iteration rt vctx s) (response ++ fragment_at rt vctx s 0) (tg + 1)).state,
       Call.llama_sampler_sample vctx.sampler vctx.ctx (sampled_at rt vctx s 0) ::
       Call.llama_decode vctx.ctx (sampled_at rt vctx s 0) (decode_result_at rt vctx s 0) ::
       (generate_response_loop rt vctx (rt.llama_model_get_vocab vctx.model) r
          (iteration rt vctx s) (response ++ fragment_at rt vctx s 0) (tg + 1)).trace⟩ := by
  rw [is_eog_at_zero] at h
  rw [decode_result_at_zero] at hd
  rw [generate_response_loop]
  simp only [h, Bool.false_eq_true, if_false, append_fragment]
  rw [if_neg (not_not.mpr hd)]
  rfl

/-- The blocking loop through `m` iterations that neither sample an
end-of-generation token nor fail to decode. -/
theorem generate_response_loop_clean (rt : Runtime σ) (vctx : VisionAIContext) (m r : Nat) :
    ∀ (s : σ) (response : Bytes) (tg : Nat),
      (∀ j, j < m → is_eog_at rt vctx s j = false ∧ decode_result_at rt vctx s j = 0) →
      generate_response_loop rt vctx (rt.llama_model_get_vocab vctx.model) (m + r) s response tg =
        ⟨(generate_response_loop rt vctx (rt.llama_model_get_vocab vctx.model) r
            (state_at rt vctx s m) (response ++ fragments rt vctx s m) (tg + m)).response,
         (generate_response_loop rt vctx (rt.llama_model_get_vocab vctx.model) r
            (state_at rt vctx s m) (response ++ fragments rt vctx s m) (tg + m)).tokens_generated,
         (generate_response_loop rt vctx (rt.llama_model_get_vocab vctx.model) r
            (state_at rt vctx s m) (response ++ fragments rt vctx s m) (tg + m)).state,
         blocking_calls rt vctx s m ++
         (generate_response_loop rt vctx (rt.llama_model_get_vocab vctx.model) r
            (state_at rt vctx s m) (response ++ fragments rt vctx s m) (tg + m)).trace⟩ := by
  induction m with
  | zero =>
    intro s response tg _
    simp [state_at, fragments, blocking_calls]
  | succ m ih =>
    intro s response tg h
    have h0 := h 0 (Nat.succ_pos m)
    have hrest : ∀ j, j < m → is_eog_at rt vctx (iteration rt vctx s) j = false ∧
        decode_result_at rt vctx (iteration rt vctx s) j = 0 := by
      intro j hj
      have := h (j + 1) (Nat.succ_lt_succ hj)
      rwa [is_eog_at_succ, decode_result_at_succ] at this
    have hshape : m + 1 + r = (m + r) + 1 := by omega
    rw [hshape, generate_response_loop_next rt vctx (m + r) s response tg h0.1 h0.2,
      ih _ _ _ hrest, state_at_succ, fragments_succ, blocking_calls_succ]
    simp [List.append_assoc, Nat.add_assoc, Nat.add_comm 1 m]

theorem delivered_now (rt : Runtime σ) (vctx : VisionAIContext) (s : σ) :
    (if (rt.llama_token_to_piece (rt.llama_model_get_vocab vctx.model)
        (rt.llama_sampler_sample s vctx.sampler vctx.ctx).1).1 > 0 then
      [Call.onToken (NewStringUTF (c_str
        ((rt.llama_token_to_piece (rt.llama_model_get_vocab vctx.model)
          (rt.llama_sampler_sample s vctx.sampler vctx.ctx).1).2.take
        (rt.llama_token_to_piece (rt.llama_model_get_vocab vctx.model)
          (rt.llama_sampler_sample s vctx.sampler vctx.ctx).1).1.toNat)))]
     else []) = delivered_at rt vctx s 0 := by
  unfold delivered_at fragment_at token_fragment
  rw [sampled_at_zero]
  split <;> simp

/-- One iteration of the streaming loop that samples an end-of-generation
token. -/
theorem generate_response_streaming_loop_eog (rt : Runtime σ) (vctx : VisionAIContext) (r : Nat)
    (s : σ) (response : Bytes) (tg : Nat) (h : is_eog_at rt vctx s 0 = true) :
    generate_response_streaming_loop rt vctx (rt.llama_model_get_vocab vctx.model) (r + 1) s
        response tg =
      ⟨response, tg, (rt.llama_sampler_sample s vctx.sampler vctx.ctx).2,
        [Call.llama_sampler_sample vctx.sampler vctx.ctx (sampled_at rt vctx s 0)]⟩ := by
  rw [is_eog_at_zero] at h
  rw [generate_response_streaming_loop]
  simp only [h, if_true, sampled_at_zero]

/-- One iteration of the streaming loop whose decode call fails. -/
theorem generate_response_streaming_loop_fail (rt : Runtime σ) (vctx : VisionAIContext)
    (r : Nat) (s : σ) (response : Bytes) (tg : Nat) (h : is_eog_at rt vctx s 0 = false)
    (hd : decode_result_at rt vctx s 0 ≠ 0) :
    generate_response_streaming_loop rt vctx (rt.llama_model_get_vocab vctx.model) (r + 1) s
        response tg =
      ⟨response ++ fragment_at rt vctx s 0, tg + 1, iteration rt vctx s,
        Call.llama_sampler_sample vctx.sampler vctx.ctx (sampled_at rt vctx s 0) ::
        (delivered_at rt vctx s 0 ++
         [Call.llama_decode vctx.ctx (sampled_at rt vctx s 0) (decode_result_at rt vctx s 0)])⟩ := by
  rw [is_eog_at_zero] at h
  rw [decode_result_at_zero] at hd
  rw [generate_response_streaming_loop]
  simp only [h, Bool.false_eq_true, if_false, append_fragment, delivered_now]
  rw [if_pos hd]
  rfl

/-- One iteration of the streaming loop that goes on to the next one. -/
theorem generate_response_streaming_loop_next (rt : Runtime σ) (vctx : VisionAIContext)
    (r : Nat) (s : σ) (response : Bytes) (tg : Nat) (h : is_eog_at rt vctx s 0 = false)
    (hd : decode_result_at rt vctx s 0 = 0) :
    generate_response_streaming_loop rt vctx (rt.llama_model_get_vocab vctx.model) (r + 1) s
        response tg =
      ⟨(generate_response_streaming_loop rt vctx (rt.llama_model_get_vocab vctx.model) r
          (iteration rt vctx s) (response ++ fragment_at rt vctx s 0) (tg + 1)).response,
       (generate_response_streaming_loop rt vctx (rt.llama_model_get_vocab vctx.model) r
          (iteration rt vctx s) (response ++ fragment_at rt vctx s 0) (tg + 1)).tokens_generated,
       (generate_response_streaming_loop rt vctx (rt.llama_model_get_vocab vctx.model) r
          (iteration rt vctx s) (response ++ fragment_at rt vctx s 0) (tg + 1)).state,
       Call.llama_sampler_sample vctx.sampler vctx.ctx (sampled_at rt vctx s 0) ::
       (delivered_at rt vctx s 0 ++
       Call.llama_decode vctx.ctx (sampled_at rt vctx s 0) (decode_result_at rt vctx s 0) ::
       (generate_response_streaming_loop rt vctx (rt.llama_model_get_vocab vctx.model) r
          (iteration rt vctx s) (response ++ fragment_at rt vctx s 0) (tg + 1)).trace)⟩ := by
  rw [is_eog_at_zero] at h
  rw [decode_result_at_zero] at hd
  rw [generate_response_streaming_loop]
  simp only [h, Bool.false_eq_true, if_false, append_fragment, delivered_now]
  rw [if_neg (not_not.mpr hd)]
  rfl

/-- The streaming loop through `m` iterations that neither sample an
end-of-generation token nor fail to decode. -/
theorem generate_response_streaming_loop_clean (rt : Runtime σ) (vctx : VisionAIContext)
    (m r : Nat) :
    ∀ (s : σ) (response : Bytes) (tg : Nat),
      (∀ j, j < m → is_eog_at rt vctx s j = false ∧ decode_result_at rt vctx s j = 0) →
      generate_response_streaming_loop rt vctx (rt.llama_model_get_vocab vctx.model) (m + r) s
          response tg =
        ⟨(generate_response_streaming_loop rt vctx (rt.llama_model_get_vocab vctx.model) r
            (state_at rt vctx s m) (response ++ fragments rt vctx s m) (tg + m)).response,
         (generate_response_streaming_loop rt vctx (rt.llama_model_get_vocab vctx.model) r
            (state_at rt vctx s m) (response ++ fragments rt vctx s m) (tg + m)).tokens_generated,
         (generate_response_streaming_loop rt vctx (rt.llama_model_get_vocab vctx.model) r
            (state_at rt vctx s m) (response ++ fragments rt vctx s m) (tg + m)).state,
         streaming_calls rt vctx s m ++
         (generate_response_streaming_loop rt vctx (rt.llama_model_get_vocab vctx.model) r
            (state_at rt vctx s m) (response ++ fragments rt vctx s m) (tg + m)).trace⟩ := by
  induction m with
  | zero =>
    intro s response tg _
    simp [state_at, fragments, streaming_calls]
  | succ m ih =>
    intro s response tg h
    have h0 := h 0 (Nat.succ_pos m)
    have hrest : ∀ j, j < m → is_eog_at rt vctx (iteration rt vctx s) j = false ∧
        decode_result_at rt vctx (iteration rt vctx s) j = 0 := by
      intro j hj
      have := h (j + 1) (Nat.succ_lt_succ hj)
      rwa [is_eog_at_succ, decode_result_at_succ] at this
    have hshape : m + 1 + r = (m + r) + 1 := by omega
    rw [hshape, generate_response_streaming_loop_next rt vctx (m + r) s response tg h0.1 h0.2,
      ih _ _ _ hrest, state_at_succ, fragments_succ, streaming_calls_succ]
    simp [List.append_assoc, Nat.add_assoc, Nat.add_comm 1 m]

/-! ### Reading the observations at a later state -/

theorem sampled_at_state_at (rt : Runtime σ) (vctx : VisionAIContext) (s : σ) (m : Nat) :
    sampled_at rt vctx (state_at rt vctx s m) 0 = sampled_at rt vctx s m := rfl

theorem is_eog_at_state_at (rt : Runtime σ) (vctx : VisionAIContext) (s : σ) (m : Nat) :
    is_eog_at rt vctx (state_at rt vctx s m) 0 = is_eog_at rt vctx s m := rfl

theorem decode_result_at_state_at (rt : Runtime σ) (vctx : VisionAIContext) (s : σ) (m : Nat) :
    decode_result_at rt vctx (state_at rt vctx s m) 0 = decode_result_at rt vctx s m := rfl

theorem fragment_at_state_at (rt : Runtime σ) (vctx : VisionAIContext) (s : σ) (m : Nat) :
    fragment_at rt vctx (state_at rt vctx s m) 0 = fragment_at rt vctx s m := rfl

theorem delivered_at_state_at (rt : Runtime σ) (vctx : VisionAIContext) (s : σ) (m : Nat) :
    delivered_at rt vctx (state_at rt vctx s m) 0 = delivered_at rt vctx s m := rfl

theorem state_at_succ_last (rt : Runtime σ) (vctx : VisionAIContext) (s : σ) (m : Nat) :
    state_at rt vctx s (m + 1) = iteration rt vctx (state_at rt vctx s m) := by
  simp [state_at, Function.iterate_succ_apply']

theorem fragments_succ_last (rt : Runtime σ) (vctx : VisionAIContext) (s : σ) (m : Nat) :
    fragments rt vctx s (m + 1) = fragments rt vctx s m ++ fragment_at rt vctx s m := by
  simp [fragments, List.range_succ]

theorem blocking_calls_succ_last (rt : Runtime σ) (vctx : VisionAIContext) (s : σ) (m : Nat) :
    blocking_calls rt vctx s (m + 1) = blocking_calls rt vctx s m ++
      [Call.llama_sampler_sample vctx.sampler vctx.ctx (sampled_at rt vctx s m),
       Call.llama_decode vctx.ctx (sampled_at rt vctx s m) (decode_result_at rt vctx s m)] := by
  simp [blocking_calls, List.range_succ]

theorem streaming_calls_succ_last (rt : Runtime σ) (vctx : VisionAIContext) (s : σ) (m : Nat) :
    streaming_calls rt vctx s (m + 1) = streaming_calls rt vctx s m ++
      Call.llama_sampler_sample vctx.sampler vctx.ctx (sampled_at rt vctx s m) ::
      (delivered_at rt vctx s m ++
       [Call.llama_decode vctx.ctx (sampled_at rt vctx s m) (decode_result_at rt vctx s m)]) := by
  simp [streaming_calls, List.range_succ]

/-! ### The three ways out of the loop -/

/-- The blocking helper when iteration `m` is the first to sample an
end-of-generation token and no earlier decode call fails. -/
theorem generate_response_eog (rt : Runtime σ) (s : σ) (vctx : VisionAIContext)
    (max_tokens : Int) (m : Nat) (hm : m < max_tokens.toNat)
    (hclean : ∀ j, j < m → is_eog_at rt vctx s j = false ∧ decode_result_at rt vctx s j = 0)
    (heog : is_eog_at rt vctx s m = true) :
    generate_response rt s vctx max_tokens =
      ⟨fragments rt vctx s m, m,
        (rt.llama_sampler_sample (state_at rt vctx s m) vctx.sampler vctx.ctx).2,
        blocking_calls rt vctx s m ++
          [Call.llama_sampler_sample vctx.sampler vctx.ctx (sampled_at rt vctx s m)]⟩ := by
  have hN : max_tokens.toNat = m + ((max_tokens.toNat - (m + 1)) + 1) := by omega
  unfold generate_response
  rw [hN, generate_response_loop_clean rt vctx m _ s [] 0 hclean,
    generate_response_loop_eog rt vctx _ _ _ _ (by rw [is_eog_at_state_at]; exact heog)]
  simp [sampled_at_state_at]

/-- The blocking helper when the decode call of iteration `m` is the first to
fail and no end-of-generation token is sampled up to that iteration. -/
theorem generate_response_fail (rt : Runtime σ) (s : σ) (vctx : VisionAIContext)
    (max_tokens : Int) (m : Nat) (hm : m < max_tokens.toNat)
    (hclean : ∀ j, j < m → is_eog_at rt vctx s j = false ∧ decode_result_at rt vctx s j = 0)
    (heog : is_eog_at rt vctx s m = false) (hfail : decode_result_at rt vctx s m ≠ 0) :
    generate_response rt s vctx max_tokens =
      ⟨fragments rt vctx s (m + 1), m + 1, state_at rt vctx s (m + 1),
        blocking_calls rt vctx s (m + 1)⟩ := by
  have hN : max_tokens.toNat = m + ((max_tokens.toNat - (m + 1)) + 1) := by omega
  unfold generate_response
  rw [hN, generate_response_loop_clean rt vctx m _ s [] 0 hclean,
    generate_response_loop_fail rt vctx _ _ _ _ (by rw [is_eog_at_state_at]; exact heog)
      (by rw [decode_result_at_state_at]; exact hfail)]
  simp only [sampled_at_state_at, decode_result_at_state_at, fragment_at_state_at,
    fragments_succ_last, blocking_calls_succ_last, state_at_succ_last, List.nil_append,
    Nat.zero_add]

/-- The blocking helper when no iteration samples an end-of-generation token
or fails to decode. -/
theorem generate_response_ceiling (rt : Runtime σ) (s : σ) (vctx : VisionAIContext)
    (max_tokens : Int)
    (hclean : ∀ j, j < max_tokens.toNat →
      is_eog_at rt vctx s j = false ∧ decode_result_at rt vctx s j = 0) :
    generate_response rt s vctx max_tokens =
      ⟨fragments rt vctx s max_tokens.toNat, max_tokens.toNat,
        state_at rt vctx s max_tokens.toNat, blocking_calls rt vctx s max_tokens.toNat⟩ := by
  have h := generate_response_loop_clean rt vctx max_tokens.toNat 0 s [] 0 hclean
  unfold generate_response
  rw [Nat.add_zero] at h
  rw [h]
  simp [generate_response_loop]

/-- The streaming helper when iteration `m` is the first to sample an
end-of-generation token and no earlier decode call fails. -/
theorem generate_response_streaming_eog (rt : Runtime σ) (s : σ) (vctx : VisionAIContext)
    (max_tokens : Int) (m : Nat) (hm : m < max_tokens.toNat)
    (hclean : ∀ j, j < m → is_eog_at rt vctx s j = false ∧ decode_result_at rt vctx s j = 0)
    (heog : is_eog_at rt vctx s m = true) :
    generate_response_streaming rt s vctx max_tokens =
      ⟨fragments rt vctx s m, m,
        (rt.llama_sampler_sample (state_at rt vctx s m) vctx.sampler vctx.ctx).2,
        streaming_calls rt vctx s m ++
          [Call.llama_sampler_sample vctx.sampler vctx.ctx (sampled_at rt vctx s m)]⟩ := by
  have hN : max_tokens.toNat = m + ((max_tokens.toNat - (m + 1)) + 1) := by omega
  unfold generate_response_streaming
  rw [hN, generate_response_streaming_loop_clean rt vctx m _ s [] 0 hclean,
    generate_response_streaming_loop_eog rt vctx _ _ _ _
      (by rw [is_eog_at_state_at]; exact heog)]
  simp [sampled_at_state_at]

/-- The streaming helper when the decode call of iteration `m` is the first to
fail and no end-of-generation token is sampled up to that iteration. -/
theorem generate_response_streaming_fail (rt : Runtime σ) (s : σ) (vctx : VisionAIContext)
    (max_tokens : Int) (m : Nat) (hm : m < max_tokens.toNat)
    (hclean : ∀ j, j < m → is_eog_at rt vctx s j = false ∧ decode_result_at rt vctx s j = 0)
    (heog : is_eog_at rt vctx s m = false) (hfail : decode_result_at rt vctx s m ≠ 0) :
    generate_response_streaming rt s vctx max_tokens =
      ⟨fragments rt vctx s (m + 1), m + 1, state_at rt vctx s (m + 1),
        streaming_calls rt vctx s (m + 1)⟩ := by
  have hN : max_tokens.toNat = m + ((max_tokens.toNat - (m + 1)) + 1) := by omega
  unfold generate_response_streaming
  rw [hN, generate_response_streaming_loop_clean rt vctx m _ s [] 0 hclean,
    generate_response_streaming_loop_fail rt vctx _ _ _ _
      (by rw [is_eog_at_state_at]; exact heog)
      (by rw [decode_result_at_state_at]; exact hfail)]
  simp only [sampled_at_state_at, decode_result_at_state_at, fragment_at_state_at,
    delivered_at_state_at, fragments_succ_last, streaming_calls_succ_last, state_at_succ_last,
    List.nil_append, Nat.zero_add]

/-- The streaming helper when no iteration samples an end-of-generation token
or fails to decode. -/
theorem generate_response_streaming_ceiling (rt : Runtime σ) (s : σ) (vctx : VisionAIContext)
    (max_tokens : Int)
    (hclean : ∀ j, j < max_tokens.toNat →
      is_eog_at rt vctx s j = false ∧ decode_result_at rt vctx s j = 0) :
    generate_response_streaming rt s vctx max_tokens =
      ⟨fragments rt vctx s max_tokens.toNat, max_tokens.toNat,
        state_at rt vctx s max_tokens.toNat, streaming_calls rt vctx s max_tokens.toNat⟩ := by
  have h := generate_response_streaming_loop_clean rt vctx max_tokens.toNat 0 s [] 0 hclean
  unfold generate_response_streaming
  rw [Nat.add_zero] at h
  rw [h]
  simp [generate_response_streaming_loop]

/-! ### Projections of the expected traces -/

theorem sample_calls_blocking_calls (rt : Runtime σ) (vctx : VisionAIContext) (s : σ) (m : Nat) :
    sample_calls (blocking_calls rt vctx s m) = (List.range m).map (sampled_at rt vctx s) := by
  induction m with
  | zero => simp [blocking_calls, sample_calls]
  | succ m ih =>
    rw [blocking_calls_succ_last, List.range_succ, List.map_append, ← ih]
    simp [sample_calls]

theorem decode_calls_blocking_calls (rt : Runtime σ) (vctx : VisionAIContext) (s : σ) (m : Nat) :
    decode_calls (blocking_calls rt vctx s m) =
      (List.range m).map (fun j => (sampled_at rt vctx s j, decode_result_at rt vctx s j)) := by
  induction m with
  | zero => simp [blocking_calls, decode_calls]
  | succ m ih =>
    rw [blocking_calls_succ_last, List.range_succ, List.map_append, ← ih]
    simp [decode_calls]

theorem delivered_at_no_sample (rt : Runtime σ) (vctx : VisionAIContext) (s : σ) (m : Nat) :
    sample_calls (delivered_at rt vctx s m) = [] ∧ decode_calls (delivered_at rt vctx s m) = [] := by
  unfold delivered_at
  split <;> simp [sample_calls, decode_calls]

theorem sample_calls_streaming_calls (rt : Runtime σ) (vctx : VisionAIContext) (s : σ)
    (m : Nat) :
    sample_calls (streaming_calls rt vctx s m) = (List.range m).map (sampled_at rt vctx s) := by
  induction m with
  | zero => simp [streaming_calls, sample_calls]
  | succ m ih =>
    rw [streaming_calls_succ_last, List.range_succ, List.map_append, ← ih]
    have := (delivered_at_no_sample rt vctx s m).1
    simp only [sample_calls] at this ⊢
    simp [this]

theorem decode_calls_streaming_calls (rt : Runtime σ) (vctx : VisionAIContext) (s : σ)
    (m : Nat) :
    decode_calls (streaming_calls rt vctx s m) =
      (List.range m).map (fun j => (sampled_at rt vctx s j, decode_result_at rt vctx s j)) := by
  induction m with
  | zero => simp [streaming_calls, decode_calls]
  | succ m ih =>
    rw [streaming_calls_succ_last, List.range_succ, List.map_append, ← ih]
    have := (delivered_at_no_sample rt vctx s m).2
    simp only [decode_calls] at this ⊢
    simp [this]

theorem no_error_blocking_calls (rt : Runtime σ) (vctx : VisionAIContext) (s : σ) (m : Nat) :
    thrown (blocking_calls rt vctx s m) = [] ∧ error_sink_calls (blocking_calls rt vctx s m) = [] := by
  induction m with
  | zero => simp [blocking_calls, thrown, error_sink_calls]
  | succ m ih =>
    rw [blocking_calls_succ_last]
    simp only [thrown, error_sink_calls] at ih ⊢
    simp [ih.1, ih.2]

theorem no_error_streaming_calls (rt : Runtime σ) (vctx : VisionAIContext) (s : σ) (m : Nat) :
    thrown (streaming_calls rt vctx s m) = [] ∧
      error_sink_calls (streaming_calls rt vctx s m) = [] := by
  induction m with
  | zero => simp [streaming_calls, thrown, error_sink_calls]
  | succ m ih =>
    have hd : thrown (delivered_at rt vctx s m) = [] ∧
        error_sink_calls (delivered_at rt vctx s m) = [] := by
      unfold delivered_at
      split <;> simp [thrown, error_sink_calls]
    rw [streaming_calls_succ_last]
    simp only [thrown, error_sink_calls] at ih hd ⊢
    simp [ih.1, ih.2, hd.1, hd.2]

/-- The blocking loop never runs more iterations than it has left. -/
theorem generate_response_loop_bound (rt : Runtime σ) (vctx : VisionAIContext) (r : Nat) :
    ∀ (s : σ) (response : Bytes) (tg : Nat),
      (sample_calls (generate_response_loop rt vctx (rt.llama_model_get_vocab vctx.model) r s
        response tg).trace).length ≤ r ∧
      (decode_calls (generate_response_loop rt vctx (rt.llama_model_get_vocab vctx.model) r s
        response tg).trace).length ≤ r ∧
      (generate_response_loop rt vctx (rt.llama_model_get_vocab vctx.model) r s
        response tg).tokens_generated ≤ tg + r := by
  induction r with
  | zero => intro s response tg; simp [generate_response_loop, sample_calls, decode_calls]
  | succ r ih =>
    intro s response tg
    by_cases he : is_eog_at rt vctx s 0 = true
    · rw [generate_response_loop_eog rt vctx r s response tg he]
      simp [sample_calls, decode_calls]
    · have he : is_eog_at rt vctx s 0 = false := by simpa using he
      by_cases hd : decode_result_at rt vctx s 0 = 0
      · rw [generate_response_loop_next rt vctx r s response tg he hd]
        have := ih (iteration rt vctx s) (response ++ fragment_at rt vctx s 0) (tg + 1)
        simp only [sample_calls, decode_calls] at this ⊢
        simp
        omega
      · rw [generate_response_loop_fail rt vctx r s response tg he hd]
        simp [sample_calls, decode_calls]

/-- The streaming loop never runs more iterations than it has left. -/
theorem generate_response_streaming_loop_bound (rt : Runtime σ) (vctx : VisionAIContext)
    (r : Nat) :
    ∀ (s : σ) (response : Bytes) (tg : Nat),
      (sample_calls (generate_response_streaming_loop rt vctx
        (rt.llama_model_get_vocab vctx.model) r s response tg).trace).length ≤ r ∧
      (decode_calls (generate_response_streaming_loop rt vctx
        (rt.llama_model_get_vocab vctx.model) r s response tg).trace).length ≤ r ∧
      (generate_response_streaming_loop rt vctx (rt.llama_model_get_vocab vctx.model) r s
        response tg).tokens_generated ≤ tg + r := by
  induction r with
  | zero =>
    intro s response tg
    simp [generate_response_streaming_loop, sample_calls, decode_calls]
  | succ r ih =>
    intro s response tg
    have hdel := delivered_at_no_sample rt vctx s 0
    by_cases he : is_eog_at rt vctx s 0 = true
    · rw [generate_response_streaming_loop_eog rt vctx r s response tg he]
      simp [sample_calls, decode_calls]
    · have he : is_eog_at rt vctx s 0 = false := by simpa using he
      by_cases hd : decode_result_at rt vctx s 0 = 0
      · rw [generate_response_streaming_loop_next rt vctx r s response tg he hd]
        have := ih (iteration rt vctx s) (response ++ fragment_at rt vctx s 0) (tg + 1)
        simp only [sample_calls, decode_calls] at this hdel ⊢
        simp [hdel.1, hdel.2]
        omega
      · rw [generate_response_streaming_loop_fail rt vctx r s response tg he hd]
        simp only [sample_calls, decode_calls] at hdel ⊢
        simp [hdel.1, hdel.2]

/-! ## Sample calls of the entry points -/

theorem sample_calls_append (l₁ l₂ : List Call) :
    sample_calls (l₁ ++ l₂) = sample_calls l₁ ++ sample_calls l₂ := by
  simp [sample_calls]

theorem sample_calls_nil : sample_calls [] = [] := rfl

theorem sample_calls_cons (c : Call) (l : List Call) :
    sample_calls (c :: l) =
      (match c with
        | Call.llama_sampler_sample _ _ t => [t]
        | _ => []) ++ sample_calls l := by
  cases c <;> simp [sample_calls]

theorem sample_calls_throw (rt : Runtime σ) (msg : String) :
    sample_calls (throw_java_exception rt msg) = [] := by
  by_cases h : rt.FindClass "java/lang/IllegalStateException" = 0 <;>
    simp [throw_java_exception, h, sample_calls]

theorem sample_calls_create_sampler (rt : Runtime σ) (s : σ) (vctx : VisionAIContext) :
    sample_calls (create_sampler rt s vctx).trace = [] := by
  by_cases h : vctx.sampler = 0 <;> simp [create_sampler, h, sample_calls]

theorem sample_calls_init_bitmaps (rt : Runtime σ) (frames : List Frame) :
    ∀ s : σ, sample_calls (init_bitmaps rt s frames).2.2 = [] := by
  induction frames with
  | nil => intro s; simp [init_bitmaps, sample_calls]
  | cons f fs ih =>
    intro s
    simp [init_bitmaps, sample_calls_cons, ih]

theorem sample_calls_free_bitmaps (rt : Runtime σ) (bitmaps : List Ptr) :
    ∀ s : σ, sample_calls (free_bitmaps rt s bitmaps).2 = [] := by
  induction bitmaps with
  | nil => intro s; simp [free_bitmaps, sample_calls]
  | cons b bs ih =>
    intro s
    simp [free_bitmaps, sample_calls_cons, ih]

theorem generate_response_sample_bound (rt : Runtime σ) (s : σ) (vctx : VisionAIContext)
    (max_tokens : Int) :
    (sample_calls (generate_response rt s vctx max_tokens).trace).length ≤ max_tokens.toNat :=
  (generate_response_loop_bound rt vctx max_tokens.toNat s [] 0).1

theorem generate_response_streaming_sample_bound (rt : Runtime σ) (s : σ)
    (vctx : VisionAIContext) (max_tokens : Int) :
    (sample_calls (generate_response_streaming rt s vctx max_tokens).trace).length ≤
      max_tokens.toNat :=
  (generate_response_streaming_loop_bound rt vctx max_tokens.toNat s [] 0).1

theorem MAX_TOKENS_toNat : MAX_TOKENS.toNat = 400 := rfl

theorem runInference_sample_bound (rt : Runtime σ) (s : σ) (ctx_ptr : Ptr)
    (vctx : VisionAIContext) (img_data : Bytes) (width height : Int) (prompt_c : Bytes) :
    (sample_calls (runInference rt s ctx_ptr vctx img_data width height prompt_c).trace).length
      ≤ 400 := by
  unfold runInference
  split
  · simp [sample_calls_throw]
  · simp only []
    split
    · simp [sample_calls_append, sample_calls_throw, sample_calls_cons, sample_calls_nil]
    · split
      · simp [sample_calls_append, sample_calls_throw, sample_calls_create_sampler,
          sample_calls_cons, sample_calls_nil]
      · simp only [sample_calls_append, sample_calls_throw, sample_calls_create_sampler,
          sample_calls_cons, sample_calls_nil, List.nil_append, List.append_nil, List.length_nil,
          Nat.zero_add]
        rw [← MAX_TOKENS_toNat]
        exact generate_response_sample_bound rt _ _ MAX_TOKENS

theorem runVideoInference_sample_bound (rt : Runtime σ) (s : σ) (ctx_ptr : Ptr)
    (vctx : VisionAIContext) (frames : List Frame) (prompt_c : Bytes) :
    (sample_calls (runVideoInference rt s ctx_ptr vctx frames prompt_c).trace).length ≤ 400 := by
  unfold runVideoInference
  split
  · simp [sample_calls_throw]
  · simp only []
    split
    · simp [sample_calls_append, sample_calls_throw, sample_calls_cons, sample_calls_nil,
        sample_calls_init_bitmaps, sample_calls_free_bitmaps]
    · split
      · simp [sample_calls_append, sample_calls_throw, sample_calls_create_sampler,
          sample_calls_cons, sample_calls_nil, sample_calls_init_bitmaps,
          sample_calls_free_bitmaps]
      · simp only [sample_calls_append, sample_calls_throw, sample_calls_create_sampler,
          sample_calls_cons, sample_calls_nil, List.nil_append, List.append_nil, List.length_nil,
          Nat.zero_add, sample_calls_init_bitmaps, sample_calls_free_bitmaps]
        rw [← MAX_TOKENS_toNat]
        exact generate_response_sample_bound rt _ _ MAX_TOKENS

theorem runInferenceStreaming_sample_bound (rt : Runtime σ) (s : σ) (ctx_ptr : Ptr)
    (vctx : VisionAIContext) (img_data : Bytes) (width height : Int) (prompt_c : Bytes) :
    (sample_calls
      (runInferenceStreaming rt s ctx_ptr vctx img_data width height prompt_c).trace).length
      ≤ 400 := by
  unfold runInferenceStreaming
  split
  · simp [sample_calls_throw]
  · simp only []
    split
    · simp [sample_calls_append, sample_calls_throw, sample_calls_cons, sample_calls_nil]
    · split
      · simp [sample_calls_append, sample_calls_throw, sample_calls_create_sampler,
          sample_calls_cons, sample_calls_nil]
      · simp only [sample_calls_append, sample_calls_throw, sample_calls_create_sampler,
          sample_calls_cons, sample_calls_nil, List.nil_append, List.append_nil, List.length_nil,
          Nat.zero_add]
        rw [← MAX_TOKENS_toNat]
        exact generate_response_streaming_sample_bound rt _ _ MAX_TOKENS

theorem runVideoInferenceStreaming_sample_bound (rt : Runtime σ) (s : σ) (ctx_ptr : Ptr)
    (vctx : VisionAIContext) (frames : List Frame) (prompt_c : Bytes) :
    (sample_calls (runVideoInferenceStreaming rt s ctx_ptr vctx frames prompt_c).trace).length
      ≤ 400 := by
  unfold runVideoInferenceStreaming
  split
  · simp [sample_calls_throw]
  · simp only []
    split
    · simp [sample_calls_append, sample_calls_throw, sample_calls_cons, sample_calls_nil,
        sample_calls_init_bitmaps, sample_calls_free_bitmaps]
    · split
      · simp [sample_calls_append, sample_calls_throw, sample_calls_create_sampler,
          sample_calls_cons, sample_calls_nil, sample_calls_init_bitmaps,
          sample_calls_free_bitmaps]
      · simp only [sample_calls_append, sample_calls_throw, sample_calls_create_sampler,
          sample_calls_cons, sample_calls_nil, List.nil_append, List.append_nil, List.length_nil,
          Nat.zero_add, sample_calls_init_bitmaps, sample_calls_free_bitmaps]
        rw [← MAX_TOKENS_toNat]
        exact generate_response_streaming_sample_bound rt _ _ MAX_TOKENS

/-! ## Prompt formatter and user content -/

theorem take_set_self {α : Type} (l : List α) (n : Nat) (a : α) :
    (l.set n a).take n = l.take n := by
  induction l generalizing n with
  | nil => simp
  | cons x xs ih =>
    cases n with
    | zero => simp
    | succ n => simp [ih]

theorem apply_chat_template_negative (rt : Runtime σ) (model : Ptr) (user_content : Bytes)
    (h : template_size rt model user_content < 0) :
    apply_chat_template rt model user_content = user_content := by
  unfold template_size at h
  simp [apply_chat_template, h]

theorem buffer_size_in_range (len : Int) (h : 0 ≤ len) (hmax : len < INT32_MAX) :
    to_size_t (to_int32 (len + 1)) = (len + 1).toNat := by
  unfold INT32_MAX at hmax
  unfold to_size_t to_int32
  omega

theorem apply_chat_template_rendered (rt : Runtime σ) (model : Ptr) (user_content : Bytes)
    (h : 0 ≤ template_size rt model user_content)
    (hmax : template_size rt model user_content < INT32_MAX) :
    apply_chat_template rt model user_content =
      (template_buffer rt model user_content).take (template_size rt model user_content).toNat := by
  have h' : ¬ (rt.llama_chat_apply_template (rt.llama_model_chat_template model)
    (chat_messages user_content) true 0).1 < 0 := by
    unfold template_size at h; omega
  have hsize := buffer_size_in_range _ h hmax
  unfold template_size at hsize
  unfold apply_chat_template
  simp only [h', if_false, hsize]
  rw [take_set_self]
  simp [template_buffer, template_size]

theorem template_buffer_length (rt : Runtime σ) (model : Ptr) (user_content : Bytes) :
    (template_buffer rt model user_content).length =
      (template_size rt model user_content + 1).toNat := by
  simp only [template_buffer, List.length_append, List.length_take, List.length_replicate]
  omega

theorem generate_response_loop_calls (rt : Runtime σ) (vctx : VisionAIContext) (r : Nat) :
    ∀ (s : σ) (response : Bytes) (tg : Nat),
      ∀ c ∈ (generate_response_loop rt vctx (rt.llama_model_get_vocab vctx.model) r s
        response tg).trace, generation_call c = true := by
  induction r with
  | zero => intro s response tg; simp [generate_response_loop]
  | succ r ih =>
    intro s response tg
    by_cases he : is_eog_at rt vctx s 0 = true
    · rw [generate_response_loop_eog rt vctx r s response tg he]
      simp [generation_call]
    · have he : is_eog_at rt vctx s 0 = false := by simpa using he
      by_cases hd : decode_result_at rt vctx s 0 = 0
      · rw [generate_response_loop_next rt vctx r s response tg he hd]
        have := ih (iteration rt vctx s) (response ++ fragment_at rt vctx s 0) (tg + 1)
        simpa [generation_call] using this
      · rw [generate_response_loop_fail rt vctx r s response tg he hd]
        simp [generation_call]

theorem delivered_at_calls (rt : Runtime σ) (vctx : VisionAIContext) (s : σ) (j : Nat) :
    ∀ c ∈ delivered_at rt vctx s j, generation_call c = true := by
  unfold delivered_at
  split <;> simp [generation_call]

theorem generate_response_streaming_loop_calls (rt : Runtime σ) (vctx : VisionAIContext)
    (r : Nat) :
    ∀ (s : σ) (response : Bytes) (tg : Nat),
      ∀ c ∈ (generate_response_streaming_loop rt vctx (rt.llama_model_get_vocab vctx.model) r s
        response tg).trace, generation_call c = true := by
  induction r with
  | zero => intro s response tg; simp [generate_response_streaming_loop]
  | succ r ih =>
    intro s response tg
    have hdel := delivered_at_calls rt vctx s 0
    by_cases he : is_eog_at rt vctx s 0 = true
    · rw [generate_response_streaming_loop_eog rt vctx r s response tg he]
      simp [generation_call]
    · have he : is_eog_at rt vctx s 0 = false := by simpa using he
      by_cases hd : decode_result_at rt vctx s 0 = 0
      · rw [generate_response_streaming_loop_next rt vctx r s response tg he hd]
        have := ih (iteration rt vctx s) (response ++ fragment_at rt vctx s 0) (tg + 1)
        intro c hc
        simp only [List.mem_cons, List.mem_append] at hc
        rcases hc with rfl | hc | rfl | hc
        · rfl
        · exact hdel c hc
        · rfl
        · exact this c hc
      · rw [generate_response_streaming_loop_fail rt vctx r s response tg he hd]
        intro c hc
        simp only [List.mem_cons, List.mem_append, List.mem_singleton, List.not_mem_nil,
          or_false] at hc
        rcases hc with rfl | hc | rfl
        · rfl
        · exact hdel c hc
        · rfl

theorem formatter_calls_generation (tr : List Call)
    (h : ∀ c ∈ tr, generation_call c = true) : formatter_calls tr = [] := by
  unfold formatter_calls
  rw [List.filterMap_eq_nil_iff]
  intro c hc
  have := h c hc
  cases c <;> simp_all [generation_call]

theorem formatter_calls_append (l₁ l₂ : List Call) :
    formatter_calls (l₁ ++ l₂) = formatter_calls l₁ ++ formatter_calls l₂ := by
  simp [formatter_calls]

theorem formatter_calls_nil : formatter_calls [] = [] := rfl

theorem formatter_calls_cons (c : Call) (l : List Call) :
    formatter_calls (c :: l) =
      (match c with
        | Call.apply_chat_template m u => [(m, u)]
        | _ => []) ++ formatter_calls l := by
  cases c <;> simp [formatter_calls]

theorem formatter_calls_throw (rt : Runtime σ) (msg : String) :
    formatter_calls (throw_java_exception rt msg) = [] := by
  by_cases h : rt.FindClass "java/lang/IllegalStateException" = 0 <;>
    simp [throw_java_exception, h, formatter_calls]

theorem formatter_calls_create_sampler (rt : Runtime σ) (s : σ) (vctx : VisionAIContext) :
    formatter_calls (create_sampler rt s vctx).trace = [] := by
  by_cases h : vctx.sampler = 0 <;> simp [create_sampler, h, formatter_calls]

theorem formatter_calls_init_bitmaps (rt : Runtime σ) (frames : List Frame) :
    ∀ s : σ, formatter_calls (init_bitmaps rt s frames).2.2 = [] := by
  induction frames with
  | nil => intro s; simp [init_bitmaps, formatter_calls]
  | cons f fs ih =>
    intro s
    simp [init_bitmaps, formatter_calls_cons, ih]

theorem formatter_calls_free_bitmaps (rt : Runtime σ) (bitmaps : List Ptr) :
    ∀ s : σ, formatter_calls (free_bitmaps rt s bitmaps).2 = [] := by
  induction bitmaps with
  | nil => intro s; simp [free_bitmaps, formatter_calls]
  | cons b bs ih =>
    intro s
    simp [free_bitmaps, formatter_calls_cons, ih]

theorem formatter_calls_generate_response (rt : Runtime σ) (s : σ) (vctx : VisionAIContext)
    (max_tokens : Int) : formatter_calls (generate_response rt s vctx max_tokens).trace = [] :=
  formatter_calls_generation _ (generate_response_loop_calls rt vctx _ s [] 0)

theorem formatter_calls_generate_response_streaming (rt : Runtime σ) (s : σ)
    (vctx : VisionAIContext) (max_tokens : Int) :
    formatter_calls (generate_response_streaming rt s vctx max_tokens).trace = [] :=
  formatter_calls_generation _ (generate_response_streaming_loop_calls rt vctx _ s [] 0)

theorem append_markers_eq (marker : Bytes) (n : Nat) :
    ∀ user_content : Bytes, append_markers marker n user_content =
      user_content ++ (List.replicate n (marker ++ [10])).flatten := by
  induction n with
  | zero => intro u; simp [append_markers]
  | succ n ih =>
    intro u
    have hl : literal "\n" = [10] := by decide
    rw [append_markers, ih, List.replicate_succ, List.flatten_cons, hl]
    simp

/-! ## Streaming against blocking delivery -/

/-- The streaming loop and the blocking loop compute the same response, token
count and library state. -/
theorem generate_response_streaming_loop_response (rt : Runtime σ) (vctx : VisionAIContext)
    (r : Nat) :
    ∀ (s : σ) (response : Bytes) (tg : Nat),
      (generate_response_streaming_loop rt vctx (rt.llama_model_get_vocab vctx.model) r s
          response tg).response =
        (generate_response_loop rt vctx (rt.llama_model_get_vocab vctx.model) r s
          response tg).response ∧
      (generate_response_streaming_loop rt vctx (rt.llama_model_get_vocab vctx.model) r s
          response tg).tokens_generated =
        (generate_response_loop rt vctx (rt.llama_model_get_vocab vctx.model) r s
          response tg).tokens_generated ∧
      (generate_response_streaming_loop rt vctx (rt.llama_model_get_vocab vctx.model) r s
          response tg).state =
        (generate_response_loop rt vctx (rt.llama_model_get_vocab vctx.model) r s
          response tg).state := by
  induction r with
  | zero => intro s response tg; simp [generate_response_streaming_loop, generate_response_loop]
  | succ r ih =>
    intro s response tg
    by_cases he : is_eog_at rt vctx s 0 = true
    · rw [generate_response_streaming_loop_eog rt vctx r s response tg he,
        generate_response_loop_eog rt vctx r s response tg he]
      exact ⟨rfl, rfl, rfl⟩
    · have he : is_eog_at rt vctx s 0 = false := by simpa using he
      by_cases hd : decode_result_at rt vctx s 0 = 0
      · rw [generate_response_streaming_loop_next rt vctx r s response tg he hd,
          generate_response_loop_next rt vctx r s response tg he hd]
        exact ih _ _ _
      · rw [generate_response_streaming_loop_fail rt vctx r s response tg he hd,
          generate_response_loop_fail rt vctx r s response tg he hd]
        exact ⟨rfl, rfl, rfl⟩

theorem c_str_of_no_nul (l : Bytes) (h : (0 : UInt8) ∉ l) : c_str l = l := by
  unfold c_str
  rw [List.takeWhile_eq_self_iff]
  intro b hb
  have : b ≠ 0 := fun h0 => h (h0 ▸ hb)
  simpa using this

theorem token_sink_calls_append (l₁ l₂ : List Call) :
    token_sink_calls (l₁ ++ l₂) = token_sink_calls l₁ ++ token_sink_calls l₂ := by
  simp [token_sink_calls]

theorem token_sink_calls_cons (c : Call) (l : List Call) :
    token_sink_calls (c :: l) =
      (match c with
        | Call.onToken f => [f]
        | _ => []) ++ token_sink_calls l := by
  cases c <;> simp [token_sink_calls]

theorem token_sink_calls_nil : token_sink_calls [] = [] := rfl

/-- What one iteration of the streaming loop delivers, concatenated: the
fragment of its token cut at its first NUL byte. -/
theorem token_sink_calls_delivered_at (rt : Runtime σ) (vctx : VisionAIContext) (s : σ)
    (j : Nat) :
    (token_sink_calls (delivered_at rt vctx s j)).flatten = c_str (fragment_at rt vctx s j) := by
  unfold delivered_at
  split
  · simp [token_sink_calls, NewStringUTF]
  · rename_i h
    simp [token_sink_calls, fragment_at, token_fragment, h, c_str]

/-- The fragments delivered by the streaming loop, concatenated onto the
response the loop starts from, give the response it ends with, as long as no
token fragment holds a NUL byte. -/
theorem generate_response_streaming_loop_delivered (rt : Runtime σ) (vctx : VisionAIContext)
    (hnul : ∀ t, (0 : UInt8) ∉ token_fragment rt vctx t) (r : Nat) :
    ∀ (s : σ) (response : Bytes) (tg : Nat),
      response ++ (token_sink_calls (generate_response_streaming_loop rt vctx
          (rt.llama_model_get_vocab vctx.model) r s response tg).trace).flatten =
        (generate_response_streaming_loop rt vctx (rt.llama_model_get_vocab vctx.model) r s
          response tg).response := by
  induction r with
  | zero => intro s response tg; simp [generate_response_streaming_loop, token_sink_calls]
  | succ r ih =>
    intro s response tg
    have hdel : (token_sink_calls (delivered_at rt vctx s 0)).flatten =
        c_str (token_fragment rt vctx (sampled_at rt vctx s 0)) :=
      token_sink_calls_delivered_at rt vctx s 0
    rw [c_str_of_no_nul _ (hnul (sampled_at rt vctx s 0))] at hdel
    by_cases he : is_eog_at rt vctx s 0 = true
    · rw [generate_response_streaming_loop_eog rt vctx r s response tg he]
      simp [token_sink_calls]
    · have he : is_eog_at rt vctx s 0 = false := by simpa using he
      by_cases hd : decode_result_at rt vctx s 0 = 0
      · rw [generate_response_streaming_loop_next rt vctx r s response tg he hd]
        have := ih (iteration rt vctx s) (response ++ fragment_at rt vctx s 0) (tg + 1)
        simp only [token_sink_calls_cons, token_sink_calls_append, List.nil_append,
          List.flatten_append, hdel]
        rw [← this, List.append_assoc]
        rfl
      · rw [generate_response_streaming_loop_fail rt vctx r s response tg he hd]
        simp only [token_sink_calls_cons, token_sink_calls_append, List.nil_append,
          List.flatten_append, hdel, token_sink_calls_nil, List.flatten_nil, List.append_nil]
        rfl

/-- The two generation helpers return the same `std::string`, whatever the
library answers. -/
theorem generate_response_streaming_response (rt : Runtime σ) (s : σ) (vctx : VisionAIContext)
    (max_tokens : Int) :
    (generate_response_streaming rt s vctx max_tokens).response =
      (generate_response rt s vctx max_tokens).response :=
  (generate_response_streaming_loop_response rt vctx max_tokens.toNat s [] 0).1

/-- A response built from fragments without NUL byte has no NUL byte. -/
theorem generate_response_loop_no_nul (rt : Runtime σ) (vctx : VisionAIContext)
    (hnul : ∀ t, (0 : UInt8) ∉ token_fragment rt vctx t) (r : Nat) :
    ∀ (s : σ) (response : Bytes) (tg : Nat), (0 : UInt8) ∉ response →
      (0 : UInt8) ∉ (generate_response_loop rt vctx (rt.llama_model_get_vocab vctx.model) r s
        response tg).response := by
  induction r with
  | zero => intro s response tg h; simpa [generate_response_loop] using h
  | succ r ih =>
    intro s response tg h
    have hfrag : (0 : UInt8) ∉ response ++ fragment_at rt vctx s 0 := by
      rw [List.mem_append]
      rintro (h0 | h0)
      · exact h h0
      · exact hnul _ h0
    by_cases he : is_eog_at rt vctx s 0 = true
    · rw [generate_response_loop_eog rt vctx r s response tg he]
      exact h
    · have he : is_eog_at rt vctx s 0 = false := by simpa using he
      by_cases hd : decode_result_at rt vctx s 0 = 0
      · rw [generate_response_loop_next rt vctx r s response tg he hd]
        exact ih _ _ _ hfrag
      · rw [generate_response_loop_fail rt vctx r s response tg he hd]
        exact hfrag

/-- When no token fragment holds a NUL byte, the strings delivered to the
per-token sink concatenate to the payload of the completion sink, which is
the whole response. -/
theorem streamed_fragments_without_nul (rt : Runtime σ) (s : σ) (vctx : VisionAIContext)
    (max_tokens : Int) (hnul : ∀ t, (0 : UInt8) ∉ token_fragment rt vctx t) :
    (token_sink_calls (generate_response_streaming rt s vctx max_tokens).trace).flatten =
      NewStringUTF (c_str (generate_response_streaming rt s vctx max_tokens).response) ∧
    NewStringUTF (c_str (generate_response_streaming rt s vctx max_tokens).response) =
      (generate_response rt s vctx max_tokens).response := by
  have h := generate_response_streaming_loop_delivered rt vctx hnul max_tokens.toNat s [] 0
  have hr := generate_response_streaming_response rt s vctx max_tokens
  have hn := generate_response_loop_no_nul rt vctx hnul max_tokens.toNat s [] 0 (by simp)
  rw [List.nil_append] at h
  have hc : c_str (generate_response_streaming rt s vctx max_tokens).response =
      (generate_response rt s vctx max_tokens).response := by
    rw [hr]
    exact c_str_of_no_nul _ hn
  refine ⟨?_, hc⟩
  unfold NewStringUTF
  rw [hc, ← hr]
  exact h

theorem complete_sink_calls_append (l₁ l₂ : List Call) :
    complete_sink_calls (l₁ ++ l₂) = complete_sink_calls l₁ ++ complete_sink_calls l₂ := by
  simp [complete_sink_calls]

theorem complete_sink_calls_cons (c : Call) (l : List Call) :
    complete_sink_calls (c :: l) =
      (match c with
        | Call.onComplete f => [f]
        | _ => []) ++ complete_sink_calls l := by
  cases c <;> simp [complete_sink_calls]

theorem complete_sink_calls_nil : complete_sink_calls [] = [] := rfl

theorem complete_sink_calls_generation (tr : List Call)
    (h : ∀ c ∈ tr, generation_call c = true) : complete_sink_calls tr = [] := by
  unfold complete_sink_calls
  rw [List.filterMap_eq_nil_iff]
  intro c hc
  have := h c hc
  cases c <;> simp_all [generation_call]

theorem complete_sink_calls_create_sampler (rt : Runtime σ) (s : σ) (vctx : VisionAIContext) :
    complete_sink_calls (create_sampler rt s vctx).trace = [] := by
  by_cases h : vctx.sampler = 0 <;> simp [create_sampler, h, complete_sink_calls]

theorem complete_sink_calls_throw (rt : Runtime σ) (msg : String) :
    complete_sink_calls (throw_java_exception rt msg) = [] := by
  by_cases h : rt.FindClass "java/lang/IllegalStateException" = 0 <;>
    simp [throw_java_exception, h, complete_sink_calls]

theorem complete_sink_calls_generate_response_streaming (rt : Runtime σ) (s : σ)
    (vctx : VisionAIContext) (max_tokens : Int) :
    complete_sink_calls (generate_response_streaming rt s vctx max_tokens).trace = [] :=
  complete_sink_calls_generation _ (generate_response_streaming_loop_calls rt vctx _ s [] 0)

/-- The payload `runInferenceStreaming` hands to the completion sink is the
string `runInference` returns on the same input. -/
theorem runInferenceStreaming_payload (rt : Runtime σ) (s : σ) (ctx_ptr : Ptr)
    (vctx : VisionAIContext) (img_data : Bytes) (width height : Int) (prompt_c : Bytes) :
    complete_sink_calls
        (runInferenceStreaming rt s ctx_ptr vctx img_data width height prompt_c).trace = [] ∨
    complete_sink_calls
        (runInferenceStreaming rt s ctx_ptr vctx img_data width height prompt_c).trace =
      [(runInference rt s ctx_ptr vctx img_data width height prompt_c).ret] := by
  by_cases hready : ctx_ptr = 0 ∨ vctx.model = 0 ∨ vctx.ctx = 0 ∨ vctx.ctx_mtmd = 0
  · left
    simp [runInferenceStreaming, hready, complete_sink_calls_throw]
  · simp only [runInferenceStreaming, runInference, if_neg hready]
    split
    · left
      simp [complete_sink_calls_append, complete_sink_calls_cons, complete_sink_calls_nil]
    · split
      · left
        simp [complete_sink_calls_append, complete_sink_calls_cons, complete_sink_calls_nil,
          complete_sink_calls_create_sampler]
      · right
        simp [complete_sink_calls_append, complete_sink_calls_cons, complete_sink_calls_nil,
          complete_sink_calls_create_sampler,
          complete_sink_calls_generate_response_streaming,
          generate_response_streaming_response]

theorem complete_sink_calls_init_bitmaps (rt : Runtime σ) (frames : List Frame) :
    ∀ s : σ, complete_sink_calls (init_bitmaps rt s frames).2.2 = [] := by
  induction frames with
  | nil => intro s; simp [init_bitmaps, complete_sink_calls]
  | cons f fs ih =>
    intro s
    simp [init_bitmaps, complete_sink_calls_cons, ih]

theorem complete_sink_calls_free_bitmaps (rt : Runtime σ) (bitmaps : List Ptr) :
    ∀ s : σ, complete_sink_calls (free_bitmaps rt s bitmaps).2 = [] := by
  induction bitmaps with
  | nil => intro s; simp [free_bitmaps, complete_sink_calls]
  | cons b bs ih =>
    intro s
    simp [free_bitmaps, complete_sink_calls_cons, ih]

/-- The payload `runVideoInferenceStreaming` hands to the completion sink is
the string `runVideoInference` returns on the same input. -/
theorem runVideoInferenceStreaming_payload (rt : Runtime σ) (s : σ) (ctx_ptr : Ptr)
    (vctx : VisionAIContext) (frames : List Frame) (prompt_c : Bytes) :
    complete_sink_calls
        (runVideoInferenceStreaming rt s ctx_ptr vctx frames prompt_c).trace = [] ∨
    complete_sink_calls
        (runVideoInferenceStreaming rt s ctx_ptr vctx frames prompt_c).trace =
      [(runVideoInference rt s ctx_ptr vctx frames prompt_c).ret] := by
  by_cases hready : ctx_ptr = 0 ∨ vctx.model = 0 ∨ vctx.ctx = 0 ∨ vctx.ctx_mtmd = 0
  · left
    simp [runVideoInferenceStreaming, hready, complete_sink_calls_throw]
  · simp only [runVideoInferenceStreaming, runVideoInference, if_neg hready]
    split
    · left
      simp [complete_sink_calls_append, complete_sink_calls_cons, complete_sink_calls_nil,
        complete_sink_calls_init_bitmaps, complete_sink_calls_free_bitmaps]
    · split
      · left
        simp [complete_sink_calls_append, complete_sink_calls_cons, complete_sink_calls_nil,
          complete_sink_calls_create_sampler, complete_sink_calls_init_bitmaps,
          complete_sink_calls_free_bitmaps]
      · right
        simp [complete_sink_calls_append, complete_sink_calls_cons, complete_sink_calls_nil,
          complete_sink_calls_create_sampler, complete_sink_calls_init_bitmaps,
          complete_sink_calls_free_bitmaps,
          complete_sink_calls_generate_response_streaming,
          generate_response_streaming_response]

/-! ## Session creation -/

/-- The outcomes of `loadModel`, one per way out of the function. -/
theorem loadModel_outcomes (rt : Runtime σ) (s : σ) (model_path_c mmproj_path_c : Bytes)
    (n_threads n_ctx : Int) :
    ((loadModel rt s model_path_c mmproj_path_c n_threads n_ctx).ret = 0 ∧
      (loadModel rt s model_path_c mmproj_path_c n_threads n_ctx).session = none ∧
      acquisitions (loadModel rt s model_path_c mmproj_path_c n_threads n_ctx).trace =
        [(Resource.model, 0)] ∧
      released (loadModel rt s model_path_c mmproj_path_c n_threads n_ctx).trace = [] ∧
      thrown (loadModel rt s model_path_c mmproj_path_c n_threads n_ctx).trace =
        (if rt.FindClass "java/lang/IllegalStateException" ≠ 0 then ["Failed to load model"]
         else [])) ∨
    (∃ m, m ≠ 0 ∧
      (loadModel rt s model_path_c mmproj_path_c n_threads n_ctx).ret = 0 ∧
      (loadModel rt s model_path_c mmproj_path_c n_threads n_ctx).session = none ∧
      acquisitions (loadModel rt s model_path_c mmproj_path_c n_threads n_ctx).trace =
        [(Resource.model, m), (Resource.context, 0)] ∧
      released (loadModel rt s model_path_c mmproj_path_c n_threads n_ctx).trace =
        [(Resource.model, m)] ∧
      thrown (loadModel rt s model_path_c mmproj_path_c n_threads n_ctx).trace =
        (if rt.FindClass "java/lang/IllegalStateException" ≠ 0 then ["Failed to create llama context"]
         else [])) ∨
    (∃ m c, m ≠ 0 ∧ c ≠ 0 ∧
      (loadModel rt s model_path_c mmproj_path_c n_threads n_ctx).ret = 0 ∧
      (loadModel rt s model_path_c mmproj_path_c n_threads n_ctx).session = none ∧
      acquisitions (loadModel rt s model_path_c mmproj_path_c n_threads n_ctx).trace =
        [(Resource.model, m), (Resource.context, c), (Resource.projector, 0)] ∧
      released (loadModel rt s model_path_c mmproj_path_c n_threads n_ctx).trace =
        [(Resource.context, c), (Resource.model, m)] ∧
      thrown (loadModel rt s model_path_c mmproj_path_c n_threads n_ctx).trace =
        (if rt.FindClass "java/lang/IllegalStateException" ≠ 0 then ["Failed to load multimodal projector"]
         else [])) ∨
    (∃ v : VisionAIContext,
      (loadModel rt s model_path_c mmproj_path_c n_threads n_ctx).session = some v ∧
      (loadModel rt s model_path_c mmproj_path_c n_threads n_ctx).ret ≠ 0 ∧
      v.model ≠ 0 ∧ v.ctx ≠ 0 ∧ v.ctx_mtmd ≠ 0 ∧ v.sampler ≠ 0 ∧ v.n_threads = n_threads ∧
      acquisitions (loadModel rt s model_path_c mmproj_path_c n_threads n_ctx).trace =
        [(Resource.model, v.model), (Resource.context, v.ctx),
         (Resource.projector, v.ctx_mtmd), (Resource.sampler, v.sampler)] ∧
      released (loadModel rt s model_path_c mmproj_path_c n_threads n_ctx).trace = [] ∧
      thrown (loadModel rt s model_path_c mmproj_path_c n_threads n_ctx).trace = []) := by
  unfold loadModel
  simp only []
  by_cases hcls : rt.FindClass "java/lang/IllegalStateException" = 0 <;> split
  · left
    rename_i h
    simp [throw_java_exception, hcls, acquisitions, released, thrown, h]
  · rename_i hm
    right
    split
    · left
      rename_i hc
      refine ⟨_, hm, ?_⟩
      simp [throw_java_exception, hcls, acquisitions, released, thrown, hc]
    · rename_i hc
      right
      split
      · left
        rename_i hp
        refine ⟨_, _, hm, hc, ?_⟩
        simp [throw_java_exception, hcls, acquisitions, released, thrown, hp]
      · rename_i hp
        right
        refine ⟨_, rfl, (rt.operator_new s).1.property, hm, hc, hp,
          (rt.llama_sampler_chain_init _).1.property, rfl, ?_⟩
        simp [create_sampler, acquisitions, released, thrown]
  · left
    rename_i h
    simp [throw_java_exception, hcls, acquisitions, released, thrown, h]
  · rename_i hm
    right
    split
    · left
      rename_i hc
      refine ⟨_, hm, ?_⟩
      simp [throw_java_exception, hcls, acquisitions, released, thrown, hc]
    · rename_i hc
      right
      split
      · left
        rename_i hp
        refine ⟨_, _, hm, hc, ?_⟩
        simp [throw_java_exception, hcls, acquisitions, released, thrown, hp]
      · rename_i hp
        right
        refine ⟨_, rfl, (rt.operator_new s).1.property, hm, hc, hp,
          (rt.llama_sampler_chain_init _).1.property, rfl, ?_⟩
        simp [create_sampler, acquisitions, released, thrown]

/-! ## The form of an inference call -/

theorem create_sampler_vctx (rt : Runtime σ) (s : σ) (vctx : VisionAIContext) :
    ∃ p, p ≠ 0 ∧ (create_sampler rt s vctx).vctx = { vctx with sampler := p } ∧
      (create_sampler rt s vctx).trace = sampler_rebuild vctx.sampler p := by
  refine ⟨_, (rt.llama_sampler_chain_init _).1.property, rfl, ?_⟩
  simp [create_sampler, sampler_rebuild]

theorem runInference_shape (rt : Runtime σ) (s : σ) (ctx_ptr : Ptr) (vctx : VisionAIContext)
    (hready : ¬ (ctx_ptr = 0 ∨ vctx.model = 0 ∨ vctx.ctx = 0 ∨ vctx.ctx_mtmd = 0))
    (img_data : Bytes) (width height : Int) (prompt_c : Bytes) :
    request_shape rt false vctx [⟨img_data, width, height⟩]
      (runInference rt s ctx_ptr vctx img_data width height prompt_c).trace
      (runInference rt s ctx_ptr vctx img_data width height prompt_c).vctx
      (runInference rt s ctx_ptr vctx img_data width height prompt_c).ret := by
  unfold runInference
  rw [if_neg hready]
  simp only []
  generalize rt.mtmd_bitmap_init s (to_uint32 width) (to_uint32 height) img_data = bmp
  generalize rt.mtmd_input_chunks_init bmp.2 = chunks
  generalize apply_chat_template rt vctx.model
    (rt.mtmd_default_marker ++ literal "\n" ++ prompt_c) = formatted
  generalize rt.mtmd_tokenize chunks.2 vctx.ctx_mtmd chunks.1 (c_str formatted) false true
    [bmp.1] = tok
  split
  · rename_i htok
    refine ⟨[bmp.1], chunks.1, rt.mtmd_default_marker ++ literal "\n" ++ prompt_c,
      c_str formatted, tok.1, [],
      [Call.mtmd_input_chunks_free chunks.1, Call.mtmd_bitmap_free bmp.1],
      throw_java_exception rt "Failed to tokenize input", rfl, ?_, Or.inl rfl,
      Or.inl ⟨htok, rfl, rfl, rfl, _, rfl⟩⟩
    simp [bitmap_init_calls]
  · rename_i htok
    have htok : tok.1 = 0 := by simpa using htok
    obtain ⟨p, hp, hv, htr⟩ := create_sampler_vctx rt
      (rt.llama_memory_clear tok.2 (rt.llama_get_memory vctx.ctx) true) vctx
    generalize create_sampler rt
      (rt.llama_memory_clear tok.2 (rt.llama_get_memory vctx.ctx) true) vctx = made at hv htr ⊢
    obtain ⟨mv, ms, mt⟩ := made
    simp only at hv htr
    subst hv htr
    simp only []
    generalize rt.mtmd_helper_eval_chunks ms vctx.ctx_mtmd vctx.ctx chunks.1 0 0 128 true = ev
    split
    · rename_i hev
      refine ⟨[bmp.1], chunks.1, rt.mtmd_default_marker ++ literal "\n" ++ prompt_c,
        c_str formatted, tok.1,
        Call.llama_memory_clear (rt.llama_get_memory vctx.ctx) true ::
          (sampler_rebuild vctx.sampler p ++
            [Call.mtmd_helper_eval_chunks vctx.ctx_mtmd vctx.ctx chunks.1 0 0 128 true ev.1]),
        [Call.mtmd_input_chunks_free chunks.1, Call.mtmd_bitmap_free bmp.1],
        throw_java_exception rt "Failed to evaluate input", rfl, ?_, Or.inl rfl,
        Or.inr ⟨htok, p, ev.1, [], hp, rfl, rfl, Or.inl ⟨hev, rfl, rfl, _, rfl⟩⟩⟩
      simp [bitmap_init_calls]
    · rename_i hev
      have hev : ev.1 = 0 := by simpa using hev
      refine ⟨[bmp.1], chunks.1, rt.mtmd_default_marker ++ literal "\n" ++ prompt_c,
        c_str formatted, tok.1,
        Call.llama_memory_clear (rt.llama_get_memory vctx.ctx) true ::
          (sampler_rebuild vctx.sampler p ++
            Call.mtmd_helper_eval_chunks vctx.ctx_mtmd vctx.ctx chunks.1 0 0 128 true ev.1 ::
            (generate_response rt ev.2 { vctx with sampler := p } MAX_TOKENS).trace),
        [Call.mtmd_input_chunks_free chunks.1, Call.mtmd_bitmap_free bmp.1],
        [], rfl, ?_, Or.inl rfl,
        Or.inr ⟨htok, p, ev.1, _, hp, rfl, rfl, Or.inr ⟨hev, ev.2, ?_⟩⟩⟩
      · simp [bitmap_init_calls]
      · simp

theorem runInferenceStreaming_shape (rt : Runtime σ) (s : σ) (ctx_ptr : Ptr)
    (vctx : VisionAIContext)
    (hready : ¬ (ctx_ptr = 0 ∨ vctx.model = 0 ∨ vctx.ctx = 0 ∨ vctx.ctx_mtmd = 0))
    (img_data : Bytes) (width height : Int) (prompt_c : Bytes) :
    request_shape rt true vctx [⟨img_data, width, height⟩]
      (runInferenceStreaming rt s ctx_ptr vctx img_data width height prompt_c).trace
      (runInferenceStreaming rt s ctx_ptr vctx img_data width height prompt_c).vctx [] := by
  unfold runInferenceStreaming
  rw [if_neg hready]
  simp only []
  generalize rt.mtmd_bitmap_init s (to_uint32 width) (to_uint32 height) img_data = bmp
  generalize rt.mtmd_input_chunks_init bmp.2 = chunks
  generalize apply_chat_template rt vctx.model
    (rt.mtmd_default_marker ++ literal "\n" ++ prompt_c) = formatted
  generalize rt.mtmd_tokenize chunks.2 vctx.ctx_mtmd chunks.1 (c_str formatted) false true
    [bmp.1] = tok
  split
  · rename_i htok
    refine ⟨[bmp.1], chunks.1, rt.mtmd_default_marker ++ literal "\n" ++ prompt_c,
      c_str formatted, tok.1, [],
      [Call.mtmd_input_chunks_free chunks.1, Call.mtmd_bitmap_free bmp.1],
      [Call.onError "Failed to tokenize input"], rfl, ?_, Or.inl rfl,
      Or.inl ⟨htok, rfl, rfl, rfl, _, rfl⟩⟩
    simp [bitmap_init_calls]
  · rename_i htok
    have htok : tok.1 = 0 := by simpa using htok
    obtain ⟨p, hp, hv, htr⟩ := create_sampler_vctx rt
      (rt.llama_memory_clear tok.2 (rt.llama_get_memory vctx.ctx) true) vctx
    generalize create_sampler rt
      (rt.llama_memory_clear tok.2 (rt.llama_get_memory vctx.ctx) true) vctx = made at hv htr ⊢
    obtain ⟨mv, ms, mt⟩ := made
    simp only at hv htr
    subst hv htr
    simp only []
    generalize rt.mtmd_helper_eval_chunks ms vctx.ctx_mtmd vctx.ctx chunks.1 0 0 128 true = ev
    split
    · rename_i hev
      refine ⟨[bmp.1], chunks.1, rt.mtmd_default_marker ++ literal "\n" ++ prompt_c,
        c_str formatted, tok.1,
        Call.llama_memory_clear (rt.llama_get_memory vctx.ctx) true ::
          (sampler_rebuild vctx.sampler p ++
            [Call.mtmd_helper_eval_chunks vctx.ctx_mtmd vctx.ctx chunks.1 0 0 128 true ev.1]),
        [Call.mtmd_input_chunks_free chunks.1, Call.mtmd_bitmap_free bmp.1],
        [Call.onError "Failed to evaluate input"], rfl, ?_, Or.inl rfl,
        Or.inr ⟨htok, p, ev.1, [], hp, rfl, rfl, Or.inl ⟨hev, rfl, rfl, _, rfl⟩⟩⟩
      simp [bitmap_init_calls]
    · rename_i hev
      have hev : ev.1 = 0 := by simpa using hev
      refine ⟨[bmp.1], chunks.1, rt.mtmd_default_marker ++ literal "\n" ++ prompt_c,
        c_str formatted, tok.1,
        Call.llama_memory_clear (rt.llama_get_memory vctx.ctx) true ::
          (sampler_rebuild vctx.sampler p ++
            Call.mtmd_helper_eval_chunks vctx.ctx_mtmd vctx.ctx chunks.1 0 0 128 true ev.1 ::
            (generate_response_streaming rt ev.2 { vctx with sampler := p } MAX_TOKENS).trace),
        [Call.mtmd_input_chunks_free chunks.1, Call.mtmd_bitmap_free bmp.1],
        [Call.onComplete (NewStringUTF (c_str
          (generate_response_streaming rt ev.2 { vctx with sampler := p } MAX_TOKENS).response))],
        rfl, ?_, Or.inl rfl,
        Or.inr ⟨htok, p, ev.1, _, hp, rfl, rfl, Or.inr ⟨hev, ev.2, ?_⟩⟩⟩
      · simp [bitmap_init_calls]
      · simp

theorem init_bitmaps_calls (rt : Runtime σ) (frames : List Frame) :
    ∀ s : σ, (init_bitmaps rt s frames).2.2 =
        bitmap_init_calls frames (init_bitmaps rt s frames).1 ∧
      (init_bitmaps rt s frames).1.length = frames.length := by
  induction frames with
  | nil => intro s; simp [init_bitmaps, bitmap_init_calls]
  | cons f fs ih =>
    intro s
    have h := ih (rt.mtmd_bitmap_init s (to_uint32 f.width) (to_uint32 f.height) f.data).2
    simp only [bitmap_init_calls] at h
    simp [init_bitmaps, bitmap_init_calls, h.1, h.2]

theorem free_bitmaps_calls (rt : Runtime σ) (bitmaps : List Ptr) :
    ∀ s : σ, (free_bitmaps rt s bitmaps).2 = bitmaps.map Call.mtmd_bitmap_free := by
  induction bitmaps with
  | nil => intro s; simp [free_bitmaps]
  | cons b bs ih => intro s; simp [free_bitmaps, ih]

theorem runVideoInference_shape (rt : Runtime σ) (s : σ) (ctx_ptr : Ptr)
    (vctx : VisionAIContext)
    (hready : ¬ (ctx_ptr = 0 ∨ vctx.model = 0 ∨ vctx.ctx = 0 ∨ vctx.ctx_mtmd = 0))
    (frames : List Frame) (prompt_c : Bytes) :
    request_shape rt false vctx frames
      (runVideoInference rt s ctx_ptr vctx frames prompt_c).trace
      (runVideoInference rt s ctx_ptr vctx frames prompt_c).vctx
      (runVideoInference rt s ctx_ptr vctx frames prompt_c).ret := by
  unfold runVideoInference
  rw [if_neg hready]
  simp only [free_bitmaps_calls]
  obtain ⟨hib, hlen⟩ := init_bitmaps_calls rt frames s
  generalize init_bitmaps rt s frames = ib at hib hlen ⊢
  obtain ⟨bitmaps, is, it⟩ := ib
  simp only at hib hlen
  subst hib
  simp only []
  generalize rt.mtmd_input_chunks_init is = chunks
  generalize apply_chat_template rt vctx.model
    (append_markers rt.mtmd_default_marker frames.length (prompt_c ++ literal "\n")) = formatted
  generalize rt.mtmd_tokenize chunks.2 vctx.ctx_mtmd chunks.1 (c_str formatted) false true
    bitmaps = tok
  split
  · rename_i htok
    refine ⟨bitmaps, chunks.1,
      append_markers rt.mtmd_default_marker frames.length (prompt_c ++ literal "\n"),
      c_str formatted, tok.1, [],
      bitmaps.map Call.mtmd_bitmap_free ++ [Call.mtmd_input_chunks_free chunks.1],
      throw_java_exception rt "Failed to tokenize video input", hlen, ?_, Or.inr rfl,
      Or.inl ⟨htok, rfl, rfl, rfl, _, rfl⟩⟩
    simp
  · rename_i htok
    have htok : tok.1 = 0 := by simpa using htok
    obtain ⟨p, hp, hv, htr⟩ := create_sampler_vctx rt
      (rt.llama_memory_clear tok.2 (rt.llama_get_memory vctx.ctx) true) vctx
    generalize create_sampler rt
      (rt.llama_memory_clear tok.2 (rt.llama_get_memory vctx.ctx) true) vctx = made at hv htr ⊢
    obtain ⟨mv, ms, mt⟩ := made
    simp only at hv htr
    subst hv htr
    simp only []
    generalize rt.mtmd_helper_eval_chunks ms vctx.ctx_mtmd vctx.ctx chunks.1 0 0 128 true = ev
    split
    · rename_i hev
      refine ⟨bitmaps, chunks.1,
        append_markers rt.mtmd_default_marker frames.length (prompt_c ++ literal "\n"),
        c_str formatted, tok.1,
        Call.llama_memory_clear (rt.llama_get_memory vctx.ctx) true ::
          (sampler_rebuild vctx.sampler p ++
            [Call.mtmd_helper_eval_chunks vctx.ctx_mtmd vctx.ctx chunks.1 0 0 128 true ev.1]),
        bitmaps.map Call.mtmd_bitmap_free ++ [Call.mtmd_input_chunks_free chunks.1],
        throw_java_exception rt "Failed to evaluate video input", hlen, ?_, Or.inr rfl,
        Or.inr ⟨htok, p, ev.1, [], hp, rfl, rfl, Or.inl ⟨hev, rfl, rfl, _, rfl⟩⟩⟩
      simp
    · rename_i hev
      have hev : ev.1 = 0 := by simpa using hev
      refine ⟨bitmaps, chunks.1,
        append_markers rt.mtmd_default_marker frames.length (prompt_c ++ literal "\n"),
        c_str formatted, tok.1,
        Call.llama_memory_clear (rt.llama_get_memory vctx.ctx) true ::
          (sampler_rebuild vctx.sampler p ++
            Call.mtmd_helper_eval_chunks vctx.ctx_mtmd vctx.ctx chunks.1 0 0 128 true ev.1 ::
            (generate_response rt ev.2 { vctx with sampler := p } MAX_TOKENS).trace),
        bitmaps.map Call.mtmd_bitmap_free ++ [Call.mtmd_input_chunks_free chunks.1],
        [], hlen, ?_, Or.inr rfl,
        Or.inr ⟨htok, p, ev.1, _, hp, rfl, rfl, Or.inr ⟨hev, ev.2, ?_⟩⟩⟩
      · simp
      · simp

theorem runVideoInferenceStreaming_shape (rt : Runtime σ) (s : σ) (ctx_ptr : Ptr)
    (vctx : VisionAIContext)
    (hready : ¬ (ctx_ptr = 0 ∨ vctx.model = 0 ∨ vctx.ctx = 0 ∨ vctx.ctx_mtmd = 0))
    (frames : List Frame) (prompt_c : Bytes) :
    request_shape rt true vctx frames
      (runVideoInferenceStreaming rt s ctx_ptr vctx frames prompt_c).trace
      (runVideoInferenceStreaming rt s ctx_ptr vctx frames prompt_c).vctx [] := by
  unfold runVideoInferenceStreaming
  rw [if_neg hready]
  simp only [free_bitmaps_calls]
  obtain ⟨hib, hlen⟩ := init_bitmaps_calls rt frames s
  generalize init_bitmaps rt s frames = ib at hib hlen ⊢
  obtain ⟨bitmaps, is, it⟩ := ib
  simp only at hib hlen
  subst hib
  simp only []
  generalize rt.mtmd_input_chunks_init is = chunks
  generalize apply_chat_template rt vctx.model
    (append_markers rt.mtmd_default_marker frames.length (prompt_c ++ literal "\n")) = formatted
  generalize rt.mtmd_tokenize chunks.2 vctx.ctx_mtmd chunks.1 (c_str formatted) false true
    bitmaps = tok
  split
  · rename_i htok
    refine ⟨bitmaps, chunks.1,
      append_markers rt.mtmd_default_marker frames.length (prompt_c ++ literal "\n"),
      c_str formatted, tok.1, [],
      bitmaps.map Call.mtmd_bitmap_free ++ [Call.mtmd_input_chunks_free chunks.1],
      [Call.onError "Failed to tokenize video input"], hlen, ?_, Or.inr rfl,
      Or.inl ⟨htok, rfl, rfl, rfl, _, rfl⟩⟩
    simp
  · rename_i htok
    have htok : tok.1 = 0 := by simpa using htok
    obtain ⟨p, hp, hv, htr⟩ := create_sampler_vctx rt
      (rt.llama_memory_clear tok.2 (rt.llama_get_memory vctx.ctx) true) vctx
    generalize create_sampler rt
      (rt.llama_memory_clear tok.2 (rt.llama_get_memory vctx.ctx) true) vctx = made at hv htr ⊢
    obtain ⟨mv, ms, mt⟩ := made
    simp only at hv htr
    subst hv htr
    simp only []
    generalize rt.mtmd_helper_eval_chunks ms vctx.ctx_mtmd vctx.ctx chunks.1 0 0 128 true = ev
    split
    · rename_i hev
      refine ⟨bitmaps, chunks.1,
        append_markers rt.mtmd_default_marker frames.length (prompt_c ++ literal "\n"),
        c_str formatted, tok.1,
        Call.llama_memory_clear (rt.llama_get_memory vctx.ctx) true ::
          (sampler_rebuild vctx.sampler p ++
            [Call.mtmd_helper_eval_chunks vctx.ctx_mtmd vctx.ctx chunks.1 0 0 128 true ev.1]),
        bitmaps.map Call.mtmd_bitmap_free ++ [Call.mtmd_input_chunks_free chunks.1],
        [Call.onError "Failed to evaluate video input"], hlen, ?_, Or.inr rfl,
        Or.inr ⟨htok, p, ev.1, [], hp, rfl, rfl, Or.inl ⟨hev, rfl, rfl, _, rfl⟩⟩⟩
      simp
    · rename_i hev
      have hev : ev.1 = 0 := by simpa using hev
      refine ⟨bitmaps, chunks.1,
        append_markers rt.mtmd_default_marker frames.length (prompt_c ++ literal "\n"),
        c_str formatted, tok.1,
        Call.llama_memory_clear (rt.llama_get_memory vctx.ctx) true ::
          (sampler_rebuild vctx.sampler p ++
            Call.mtmd_helper_eval_chunks vctx.ctx_mtmd vctx.ctx chunks.1 0 0 128 true ev.1 ::
            (generate_response_streaming rt ev.2 { vctx with sampler := p } MAX_TOKENS).trace),
        bitmaps.map Call.mtmd_bitmap_free ++ [Call.mtmd_input_chunks_free chunks.1],
        [Call.onComplete (NewStringUTF (c_str
          (generate_response_streaming rt ev.2 { vctx with sampler := p } MAX_TOKENS).response))],
        hlen, ?_, Or.inr rfl,
        Or.inr ⟨htok, p, ev.1, _, hp, rfl, rfl, Or.inr ⟨hev, ev.2, ?_⟩⟩⟩
      · simp
      · simp

/-! ## Reset order of an inference call -/

theorem filter_eq_nil_of_kind {k q : Call → Bool} (l : List Call)
    (hl : ∀ c ∈ l, k c = true) (hkq : ∀ c, k c = true → q c = false) : l.filter q = [] := by
  rw [List.filter_eq_nil_iff]
  intro c hc
  simp [hkq c (hl c hc)]

theorem filter_eq_self_of_kind {k q : Call → Bool} (l : List Call)
    (hl : ∀ c ∈ l, k c = true) (hkq : ∀ c, k c = true → q c = true) : l.filter q = l := by
  rw [List.filter_eq_self]
  intro c hc
  exact hkq c (hl c hc)

theorem bitmap_init_calls_kind (frames : List Frame) :
    ∀ (bitmaps : List Ptr), ∀ c ∈ bitmap_init_calls frames bitmaps, bitmap_init_call c = true := by
  induction frames with
  | nil => intro bitmaps c hc; simp [bitmap_init_calls] at hc
  | cons f fs ih =>
    intro bitmaps c hc
    cases bitmaps with
    | nil => simp [bitmap_init_calls] at hc
    | cons b bs =>
      simp only [bitmap_init_calls, List.zipWith_cons_cons, List.mem_cons] at hc
      rcases hc with rfl | hc
      · rfl
      · exact ih bs c hc

theorem bitmap_frees_map (bitmaps : List Ptr) :
    bitmap_frees (bitmaps.map Call.mtmd_bitmap_free) = bitmaps := by
  induction bitmaps with
  | nil => rfl
  | cons b bs ih =>
    simp only [bitmap_frees] at ih ⊢
    simp [ih]

theorem bitmap_free_calls_kind (bitmaps : List Ptr) :
    ∀ c ∈ bitmaps.map Call.mtmd_bitmap_free, release_call c = true := by
  intro c hc
  obtain ⟨b, -, rfl⟩ := List.mem_map.mp hc
  rfl

theorem frees_kind (bitmaps : List Ptr) (chunks : Ptr) (frees : List Call)
    (h : frees = Call.mtmd_input_chunks_free chunks :: bitmaps.map Call.mtmd_bitmap_free ∨
      frees = bitmaps.map Call.mtmd_bitmap_free ++ [Call.mtmd_input_chunks_free chunks]) :
    (∀ c ∈ frees, release_call c = true) ∧ bitmap_frees frees = bitmaps ∧
      chunk_frees frees = [chunks] := by
  have hm := bitmap_free_calls_kind bitmaps
  have hb := bitmap_frees_map bitmaps
  have hc : chunk_frees (bitmaps.map Call.mtmd_bitmap_free) = [] := by
    simp [chunk_frees, List.filterMap_map, Function.comp_def]
  simp only [bitmap_frees, chunk_frees] at hb hc ⊢
  rcases h with rfl | rfl
  · refine ⟨?_, ?_, ?_⟩
    · intro c hc'
      rcases List.mem_cons.mp hc' with rfl | h'
      · rfl
      · exact hm c h'
    · simp [hb]
    · simp [hc]
  · refine ⟨?_, ?_, ?_⟩
    · intro c hc'
      rcases List.mem_append.mp hc' with h' | h'
      · exact hm c h'
      · simp at h'; subst h'; rfl
    · simp [hb]
    · simp [hc]

theorem throw_java_exception_kind (rt : Runtime σ) (msg : String) :
    ∀ c ∈ throw_java_exception rt msg, report_call c = true := by
  by_cases h : rt.FindClass "java/lang/IllegalStateException" = 0 <;>
    simp [throw_java_exception, h, report_call]

theorem error_report_kind (rt : Runtime σ) (streaming : Bool) (msg : String) :
    ∀ c ∈ (if streaming then [Call.onError msg] else throw_java_exception rt msg),
      report_call c = true := by
  cases streaming
  · simpa using throw_java_exception_kind rt msg
  · simp [report_call]

theorem sampler_rebuild_kind (old p : Ptr) :
    ∀ c ∈ sampler_rebuild old p, sampler_call c = true := by
  by_cases h : old = 0 <;> simp [sampler_rebuild, h, sampler_call]

theorem generation_trace_kind (rt : Runtime σ) (streaming : Bool) (s2 : σ)
    (vctx2 : VisionAIContext) (gen report : List Call) (ret : Bytes)
    (h : if streaming then
        gen = (generate_response_streaming rt s2 vctx2 MAX_TOKENS).trace ∧
        report = [Call.onComplete (NewStringUTF
          (c_str (generate_response_streaming rt s2 vctx2 MAX_TOKENS).response))] ∧
        ret = []
      else
        gen = (generate_response rt s2 vctx2 MAX_TOKENS).trace ∧
        report = [] ∧
        ret = NewStringUTF (c_str (generate_response rt s2 vctx2 MAX_TOKENS).response)) :
    (∀ c ∈ gen, generation_call c = true) ∧ (∀ c ∈ report, report_call c = true) := by
  cases streaming
  · simp only [Bool.false_eq_true, if_false] at h
    obtain ⟨rfl, rfl, -⟩ := h
    exact ⟨generate_response_loop_calls rt vctx2 MAX_TOKENS.toNat s2 [] 0, by simp⟩
  · simp only [if_true] at h
    obtain ⟨rfl, rfl, -⟩ := h
    exact ⟨generate_response_streaming_loop_calls rt vctx2 MAX_TOKENS.toNat s2 [] 0,
      by simp [report_call]⟩

theorem work_call_kinds (c : Call) :
    (sampler_call c = true → work_call c = true) ∧
    (generation_call c = true → work_call c = true) ∧
    (work_call c = true → bitmap_init_call c = false ∧ release_call c = false ∧
      report_call c = false) := by
  cases c <;> simp [work_call, state_call, generation_call, sampler_call, bitmap_init_call,
    release_call, report_call]

/-- The parts of the trace of an inference call on a ready session, with the
kind of call each part is made of. -/
theorem request_shape_parts {rt : Runtime σ} {streaming : Bool} {vctx vctx2 : VisionAIContext}
    {frames : List Frame} {tr : List Call} {ret : Bytes}
    (h : request_shape rt streaming vctx frames tr vctx2 ret) :
    ∃ (bitmaps : List Ptr) (chunks : Ptr) (content text : Bytes) (tok : Int)
      (work frees report : List Call),
      bitmaps.length = frames.length ∧
      tr = bitmap_init_calls frames bitmaps ++
        (Call.apply_chat_template vctx.model content :: Call.mtmd_input_chunks_init chunks ::
          Call.mtmd_tokenize vctx.ctx_mtmd chunks text false true bitmaps tok ::
          (work ++ (frees ++ report))) ∧
      (∀ c ∈ frees, release_call c = true) ∧ bitmap_frees frees = bitmaps ∧
      chunk_frees frees = [chunks] ∧
      (∀ c ∈ report, report_call c = true) ∧
      (∀ c ∈ work, work_call c = true) ∧
      ((tok ≠ 0 ∧ work = [] ∧ vctx2 = vctx) ∨
        (tok = 0 ∧ ∃ (p : Ptr) (ev : Int) (gen : List Call),
          p ≠ 0 ∧ vctx2 = { vctx with sampler := p } ∧
          work = Call.llama_memory_clear (rt.llama_get_memory vctx.ctx) true ::
            (sampler_rebuild vctx.sampler p ++
              Call.mtmd_helper_eval_chunks vctx.ctx_mtmd vctx.ctx chunks 0 0 128 true ev :: gen) ∧
          ∀ c ∈ gen, generation_call c = true)) := by
  obtain ⟨bitmaps, chunks, content, text, tok, work, frees, report, hlen, htr, hfrees, hcase⟩ := h
  obtain ⟨hk, hb, hc⟩ := frees_kind bitmaps chunks frees hfrees
  refine ⟨bitmaps, chunks, content, text, tok, work, frees, report, hlen, htr, hk, hb, hc, ?_⟩
  rcases hcase with ⟨htok, hwork, hv, -, msg, hrep⟩ | ⟨htok, p, ev, gen, hp, hv, hwork, hrest⟩
  · exact ⟨hrep ▸ error_report_kind rt streaming msg, by simp [hwork],
      Or.inl ⟨htok, hwork, hv⟩⟩
  · have hw : (∀ c ∈ gen, generation_call c = true) → ∀ c ∈ work, work_call c = true := by
      intro hg c hc
      rw [hwork] at hc
      simp only [List.mem_cons, List.mem_append] at hc
      rcases hc with rfl | hc | rfl | hc
      · rfl
      · exact (work_call_kinds c).1 (sampler_rebuild_kind _ _ c hc)
      · rfl
      · exact (work_call_kinds c).2.1 (hg c hc)
    rcases hrest with ⟨-, hgen, -, msg, hrep⟩ | ⟨-, s2, hgen⟩
    · have hg : ∀ c ∈ gen, generation_call c = true := by simp [hgen]
      exact ⟨hrep ▸ error_report_kind rt streaming msg, hw hg,
        Or.inr ⟨htok, p, ev, gen, hp, hv, hwork, hg⟩⟩
    · obtain ⟨hg, hr⟩ := generation_trace_kind rt streaming s2 vctx2 gen report ret hgen
      exact ⟨hr, hw hg, Or.inr ⟨htok, p, ev, gen, hp, hv, hwork, hg⟩⟩

theorem evaluation_call_kinds (c : Call) (h : evaluation_call c = true) :
    bitmap_init_call c = false ∧ release_call c = false ∧ report_call c = false ∧
      generation_call c = false ∧ sampler_call c = false := by
  cases c <;> simp [evaluation_call, bitmap_init_call, release_call, report_call,
    generation_call, sampler_call] at h ⊢

theorem state_call_kinds (c : Call) :
    (bitmap_init_call c = true → state_call c = false) ∧
    (release_call c = true → state_call c = false) ∧
    (report_call c = true → state_call c = false) ∧
    (sampler_call c = true → state_call c = true) ∧
    (generation_call c = true → state_call c = true → sample_or_decode c = true) := by
  cases c <;> simp [state_call, bitmap_init_call, release_call, report_call,
    generation_call, sampler_call, sample_or_decode]

theorem request_shape_reset_order {rt : Runtime σ} {streaming : Bool}
    {vctx vctx2 : VisionAIContext} {frames : List Frame} {tr : List Call} {ret : Bytes}
    (h : request_shape rt streaming vctx frames tr vctx2 ret)
    (he : ∃ c ∈ tr, evaluation_call c = true) : reset_order rt vctx tr := by
  obtain ⟨bitmaps, chunks, content, text, tok, work, frees, report, -, rfl, hk, -, -, hr, -,
    hcase⟩ := request_shape_parts h
  have hi := bitmap_init_calls_kind frames bitmaps
  rcases hcase with ⟨-, rfl, -⟩ | ⟨-, p, ev, gen, -, -, rfl, hg⟩
  · exfalso
    obtain ⟨c, hc, hce⟩ := he
    obtain ⟨e1, e2, e3, -, -⟩ := evaluation_call_kinds c hce
    simp only [List.mem_append, List.mem_cons, List.nil_append] at hc
    rcases hc with hc | rfl | rfl | rfl | hc | hc
    · rw [hi c hc] at e1; cases e1
    · simp [evaluation_call] at hce
    · simp [evaluation_call] at hce
    · simp [evaluation_call] at hce
    · rw [hk c hc] at e2; cases e2
    · rw [hr c hc] at e3; cases e3
  · refine ⟨p, chunks, ev, gen.filter state_call, ?_, ?_⟩
    · have h1 : (bitmap_init_calls frames bitmaps).filter state_call = [] :=
        filter_eq_nil_of_kind _ hi (fun c => (state_call_kinds c).1)
      have h2 : frees.filter state_call = [] :=
        filter_eq_nil_of_kind _ hk (fun c => (state_call_kinds c).2.1)
      have h3 : report.filter state_call = [] :=
        filter_eq_nil_of_kind _ hr (fun c => (state_call_kinds c).2.2.1)
      have h4 : (sampler_rebuild vctx.sampler p).filter state_call =
          sampler_rebuild vctx.sampler p :=
        filter_eq_self_of_kind _ (sampler_rebuild_kind _ _) (fun c => (state_call_kinds c).2.2.2.1)
      simp [state_calls, List.filter_cons, state_call, h1, h2, h3, h4]
    · intro c hc
      obtain ⟨hcg, hcs⟩ := List.mem_filter.mp hc
      exact (state_call_kinds c).2.2.2.2 (hg c hcg) hcs

theorem serve_shape (rt : Runtime σ) (s : σ) (ctx_ptr : Ptr) (vctx : VisionAIContext)
    (hready : ¬ (ctx_ptr = 0 ∨ vctx.model = 0 ∨ vctx.ctx = 0 ∨ vctx.ctx_mtmd = 0))
    (req : Request) :
    ∃ ret, request_shape rt req.streaming vctx req.frames (serve rt s ctx_ptr vctx req).trace
      (serve rt s ctx_ptr vctx req).vctx ret := by
  cases req with
  | image img_data width height prompt_c =>
    exact ⟨_, runInference_shape rt s ctx_ptr vctx hready img_data width height prompt_c⟩
  | video frames prompt_c =>
    exact ⟨_, runVideoInference_shape rt s ctx_ptr vctx hready frames prompt_c⟩
  | image_streaming img_data width height prompt_c =>
    exact ⟨_, runInferenceStreaming_shape rt s ctx_ptr vctx hready img_data width height prompt_c⟩
  | video_streaming frames prompt_c =>
    exact ⟨_, runVideoInferenceStreaming_shape rt s ctx_ptr vctx hready frames prompt_c⟩

theorem serve_not_ready (rt : Runtime σ) (s : σ) (ctx_ptr : Ptr) (vctx : VisionAIContext)
    (h : ctx_ptr = 0 ∨ vctx.model = 0 ∨ vctx.ctx = 0 ∨ vctx.ctx_mtmd = 0) (req : Request) :
    (serve rt s ctx_ptr vctx req).trace = throw_java_exception rt "Model not loaded" ∧
    (serve rt s ctx_ptr vctx req).vctx = vctx ∧ (serve rt s ctx_ptr vctx req).state = s := by
  cases req <;>
    simp [serve, runInference, runVideoInference, runInferenceStreaming,
      runVideoInferenceStreaming, if_pos h]

theorem serve_reset_order (rt : Runtime σ) (s : σ) (ctx_ptr : Ptr) (vctx : VisionAIContext)
    (req : Request)
    (he : ∃ c ∈ (serve rt s ctx_ptr vctx req).trace, evaluation_call c = true) :
    reset_order rt vctx (serve rt s ctx_ptr vctx req).trace := by
  by_cases hready : ctx_ptr = 0 ∨ vctx.model = 0 ∨ vctx.ctx = 0 ∨ vctx.ctx_mtmd = 0
  · exfalso
    obtain ⟨c, hc, hce⟩ := he
    rw [(serve_not_ready rt s ctx_ptr vctx hready req).1] at hc
    have := throw_java_exception_kind rt _ c hc
    rw [(evaluation_call_kinds c hce).2.2.1] at this
    cases this
  · obtain ⟨ret, hshape⟩ := serve_shape rt s ctx_ptr vctx hready req
    exact request_shape_reset_order hshape he

/-! ## Resource balance and bitmap lifetime -/

theorem filterMap_eq_nil_of_kind {α : Type} {k : Call → Bool} {f : Call → Option α}
    (l : List Call) (hl : ∀ c ∈ l, k c = true) (hkf : ∀ c, k c = true → f c = none) :
    l.filterMap f = [] := by
  rw [List.filterMap_eq_nil_iff]
  intro c hc
  exact hkf c (hl c hc)

theorem filterMap_eq_nil_of_singletons {α : Type} {f : Call → Option α} (l : List Call)
    (h : ∀ c ∈ l, [c].filterMap f = []) : l.filterMap f = [] := by
  rw [List.filterMap_eq_nil_iff]
  intro c hc
  have := h c hc
  rw [List.filterMap_eq_nil_iff] at this
  exact this c (List.mem_singleton_self c)

theorem sink_calls_of_generation (l : List Call) (h : ∀ c ∈ l, generation_call c = true) :
    l.filter sink_call = (token_sink_calls l).map Call.onToken := by
  induction l with
  | nil => rfl
  | cons c l ih =>
    have hc := h c (List.mem_cons_self c l)
    have := ih fun d hd => h d (List.mem_cons_of_mem c hd)
    simp only [token_sink_calls] at this ⊢
    cases c <;> simp [generation_call] at hc <;> simp [List.filter_cons, sink_call, this]

theorem quiet_call_projections (c : Call)
    (h : bitmap_init_call c = true ∨ release_call c = true ∨ sampler_call c = true) :
    tokenize_results [c] = [] ∧ evaluation_results [c] = [] ∧ sink_call c = false ∧
      generation_call c = false := by
  cases c <;> simp [bitmap_init_call, release_call, sampler_call] at h <;>
    simp [tokenize_results, evaluation_results, sink_call, generation_call]

theorem generation_call_projections (c : Call) (h : generation_call c = true) :
    tokenize_results [c] = [] ∧ evaluation_results [c] = [] := by
  cases c <;> simp [generation_call] at h <;> simp [tokenize_results, evaluation_results]

theorem quiet_calls_projections (l : List Call)
    (h : ∀ c ∈ l, bitmap_init_call c = true ∨ release_call c = true ∨ sampler_call c = true) :
    tokenize_results l = [] ∧ evaluation_results l = [] ∧ l.filter sink_call = [] ∧
      l.filter generation_call = [] :=
  ⟨filterMap_eq_nil_of_singletons _ fun c hc => (quiet_call_projections c (h c hc)).1,
    filterMap_eq_nil_of_singletons _ fun c hc => (quiet_call_projections c (h c hc)).2.1,
    List.filter_eq_nil_iff.mpr fun c hc => by simp [(quiet_call_projections c (h c hc)).2.2.1],
    List.filter_eq_nil_iff.mpr fun c hc => by simp [(quiet_call_projections c (h c hc)).2.2.2]⟩

theorem request_shape_sink_protocol {rt : Runtime σ} {vctx vctx2 : VisionAIContext}
    {frames : List Frame} {tr : List Call} {ret : Bytes}
    (h : request_shape rt true vctx frames tr vctx2 ret) : sink_protocol rt tr := by
  obtain ⟨bitmaps, chunks, content, text, tok, work, frees, report, hlen, rfl, hfrees, hcase⟩ := h
  obtain ⟨hk, -, -⟩ := frees_kind bitmaps chunks frees hfrees
  obtain ⟨i1, i2, i3, i4⟩ := quiet_calls_projections (bitmap_init_calls frames bitmaps)
    fun c hc => Or.inl (bitmap_init_calls_kind frames bitmaps c hc)
  obtain ⟨f1, f2, f3, f4⟩ := quiet_calls_projections frees fun c hc => Or.inr (Or.inl (hk c hc))
  obtain ⟨b1, b2, b3, b4⟩ := quiet_calls_projections (sampler_rebuild vctx.sampler vctx2.sampler)
    fun c hc => Or.inr (Or.inr (sampler_rebuild_kind _ _ c hc))
  simp only [tokenize_results, evaluation_results] at i1 i2 f1 f2 b1 b2
  refine ⟨tok, ?_, ?_⟩
  · have hw : tokenize_results work = [] ∧ tokenize_results report = [] := by
      rcases hcase with ⟨-, rfl, -, -, msg, rfl⟩ | ⟨-, p, ev, gen, -, rfl, rfl, hrest⟩
      · simp [tokenize_results]
      · rcases hrest with ⟨-, rfl, -, msg, rfl⟩ | ⟨-, s2, rfl, rfl, -⟩
        · simp [tokenize_results, List.filterMap_append, b1]
        · have g1 : tokenize_results (generate_response_streaming rt s2
              { vctx with sampler := p } MAX_TOKENS).trace = [] :=
            filterMap_eq_nil_of_singletons _ fun c hc => (generation_call_projections c
              (generate_response_streaming_loop_calls rt _ MAX_TOKENS.toNat s2 [] 0 c hc)).1
          simp only [tokenize_results] at g1
          simp [tokenize_results, List.filterMap_append, b1, g1]
    simp only [tokenize_results] at hw ⊢
    simp [List.filterMap_append, i1, f1, hw.1, hw.2]
  · rcases hcase with ⟨htok, rfl, -, -, msg, rfl⟩ | ⟨htok, p, ev, gen, -, rfl, rfl, hrest⟩
    · left
      refine ⟨Or.inl ⟨htok, ?_⟩, ⟨msg, ?_⟩, ?_⟩
      · simp [evaluation_results, List.filterMap_append, i2, f2]
      · simp [sink_calls, List.filter_append, List.filter_cons, sink_call, i3, f3]
      · simp [List.filter_append, List.filter_cons, generation_call, i4, f4]
    · rcases hrest with ⟨hev, rfl, -, msg, rfl⟩ | ⟨hev, s2, rfl, rfl, -⟩
      · left
        refine ⟨Or.inr ⟨htok, ev, hev, ?_⟩, ⟨msg, ?_⟩, ?_⟩
        · simp [evaluation_results, List.filterMap_append, i2, f2, b2]
        · simp [sink_calls, List.filter_append, List.filter_cons, sink_call, i3, f3, b3]
        · simp [List.filter_append, List.filter_cons, generation_call, i4, f4, b4]
      · right
        have hg := generate_response_streaming_loop_calls rt { vctx with sampler := p }
          MAX_TOKENS.toNat s2 [] 0
        have g2 : evaluation_results (generate_response_streaming rt s2
            { vctx with sampler := p } MAX_TOKENS).trace = [] :=
          filterMap_eq_nil_of_singletons _ fun c hc =>
            (generation_call_projections c (hg c hc)).2
        have g3 := sink_calls_of_generation _ hg
        simp only [evaluation_results] at g2
        refine ⟨htok, ?_, s2, { vctx with sampler := p }, ?_⟩
        · simp [evaluation_results, List.filterMap_append, i2, f2, b2, g2, hev]
        · simp only [sink_calls, List.filter_append, List.filter_cons, sink_call, i3, f3, b3]
          simp [g3, generate_response_streaming]

/-- On a ready session both streaming entry points follow the sink protocol. -/
theorem streaming_sink_protocol (rt : Runtime σ) (s : σ) (ctx_ptr : Ptr)
    (vctx : VisionAIContext) (img_data : Bytes) (width height : Int) (frames : List Frame)
    (prompt_c : Bytes)
    (hready : ¬ (ctx_ptr = 0 ∨ vctx.model = 0 ∨ vctx.ctx = 0 ∨ vctx.ctx_mtmd = 0)) :
    sink_protocol rt
      (runInferenceStreaming rt s ctx_ptr vctx img_data width height prompt_c).trace ∧
    sink_protocol rt (runVideoInferenceStreaming rt s ctx_ptr vctx frames prompt_c).trace :=
  ⟨request_shape_sink_protocol
      (runInferenceStreaming_shape rt s ctx_ptr vctx hready img_data width height prompt_c),
    request_shape_sink_protocol
      (runVideoInferenceStreaming_shape rt s ctx_ptr vctx hready frames prompt_c)⟩

/-! ## Sampler chains over the life of a session -/

theorem sampler_discipline_cons_quiet (live : Ptr) (c : Call) (tr : List Call)
    (h : sampler_event c = false) :
    sampler_discipline live (c :: tr) = sampler_discipline live tr := by
  cases c <;> simp [sampler_event] at h <;> simp [sampler_discipline]

theorem sampler_discipline_append (a b : List Call) :
    ∀ live, sampler_discipline live (a ++ b) =
      (sampler_discipline live a).bind fun l => sampler_discipline l b := by
  induction a with
  | nil => intro live; simp [sampler_discipline]
  | cons c a ih =>
    intro live
    by_cases hc : sampler_event c = false
    · rw [List.cons_append, sampler_discipline_cons_quiet _ _ _ hc,
        sampler_discipline_cons_quiet _ _ _ hc, ih]
    · cases c <;> simp [sampler_event] at hc
      · simp only [List.cons_append, sampler_discipline]
        split
        · exact ih _
        · rfl
      · simp only [List.cons_append, sampler_discipline]
        split
        · exact ih _
        · rfl

theorem sampler_discipline_quiet (l : List Call) (h : ∀ c ∈ l, sampler_event c = false)
    (live : Ptr) : sampler_discipline live l = some live := by
  induction l with
  | nil => rfl
  | cons c l ih =>
    rw [sampler_discipline_cons_quiet _ _ _ (h c (List.mem_cons_self c l))]
    exact ih fun d hd => h d (List.mem_cons_of_mem c hd)

theorem sampler_discipline_rebuild (old p : Ptr) (hp : p ≠ 0) :
    sampler_discipline old (sampler_rebuild old p) = some p := by
  by_cases h : old = 0 <;> simp [sampler_rebuild, h, hp, sampler_discipline]

/-- What the replay admits is balanced: the chain live at the start followed by
the chains constructed is the list of chains freed followed by the chain live
at the end. -/
theorem sampler_discipline_balance (tr : List Call) :
    ∀ live live2, sampler_discipline live tr = some live2 →
      [live].filter (fun p => p != 0) ++ chain_inits tr =
        sampler_frees tr ++ [live2].filter (fun p => p != 0) := by
  induction tr with
  | nil =>
    intro live live2 h
    simp only [sampler_discipline, Option.some.injEq] at h
    simp [chain_inits, sampler_frees, h]
  | cons c tr ih =>
    intro live live2 h
    by_cases hc : sampler_event c = false
    · rw [sampler_discipline_cons_quiet _ _ _ hc] at h
      have := ih live live2 h
      simp only [chain_inits, sampler_frees] at this ⊢
      cases c <;> simp [sampler_event] at hc <;> simpa using this
    · cases c <;> simp [sampler_event] at hc
      · rename_i p
        simp only [sampler_discipline] at h
        split at h
        · rename_i h0
          have := ih p live2 h
          simp only [chain_inits, sampler_frees] at this ⊢
          obtain ⟨rfl, hp⟩ := h0
          simpa [List.filter_cons, hp] using this
        · cases h
      · rename_i p
        simp only [sampler_discipline] at h
        split at h
        · rename_i h0
          obtain ⟨hp, rfl⟩ := h0
          have := ih 0 live2 h
          simp only [chain_inits, sampler_frees] at this ⊢
          simpa [List.filter_cons, hp] using this
        · cases h

theorem quiet_kinds (c : Call)
    (h : bitmap_init_call c = true ∨ release_call c = true ∨ report_call c = true ∨
      generation_call c = true) : sampler_event c = false := by
  cases c <;> simp [bitmap_init_call, release_call, report_call, generation_call] at h <;> rfl

theorem request_shape_discipline {rt : Runtime σ} {streaming : Bool}
    {vctx vctx2 : VisionAIContext} {frames : List Frame} {tr : List Call} {ret : Bytes}
    (h : request_shape rt streaming vctx frames tr vctx2 ret) :
    sampler_discipline vctx.sampler tr = some vctx2.sampler := by
  obtain ⟨bitmaps, chunks, content, text, tok, work, frees, report, -, rfl, hk, -, -, hr, -,
    hcase⟩ := request_shape_parts h
  have hi : sampler_discipline vctx.sampler (bitmap_init_calls frames bitmaps) =
      some vctx.sampler :=
    sampler_discipline_quiet _
      (fun c hc => quiet_kinds c (Or.inl (bitmap_init_calls_kind frames bitmaps c hc))) _
  have hf : ∀ live, sampler_discipline live frees = some live :=
    sampler_discipline_quiet _ fun c hc => quiet_kinds c (Or.inr (Or.inl (hk c hc)))
  have hrep : ∀ live, sampler_discipline live report = some live :=
    sampler_discipline_quiet _ fun c hc => quiet_kinds c (Or.inr (Or.inr (Or.inl (hr c hc))))
  rcases hcase with ⟨-, rfl, rfl⟩ | ⟨-, p, ev, gen, hp, rfl, rfl, hg⟩
  · simp [sampler_discipline_append, hi, sampler_discipline, hf, hrep]
  · have hgen : ∀ live, sampler_discipline live gen = some live :=
      sampler_discipline_quiet _ fun c hc =>
        quiet_kinds c (Or.inr (Or.inr (Or.inr (hg c hc))))
    simp [sampler_discipline_append, hi, sampler_discipline, hf, hrep, hgen,
      sampler_discipline_rebuild _ _ hp]

theorem request_shape_sampler_live {rt : Runtime σ} {streaming : Bool}
    {vctx vctx2 : VisionAIContext} {frames : List Frame} {tr : List Call} {ret : Bytes}
    (h : request_shape rt streaming vctx frames tr vctx2 ret) (hlive : vctx.sampler ≠ 0) :
    vctx2.sampler ≠ 0 := by
  obtain ⟨bitmaps, chunks, content, text, tok, work, frees, report, -, -, -, -, -, -, -,
    hcase⟩ := request_shape_parts h
  rcases hcase with ⟨-, -, rfl⟩ | ⟨-, p, ev, gen, hp, rfl, -, -⟩
  · exact hlive
  · exact hp

theorem serve_sampler_live (rt : Runtime σ) (s : σ) (ctx_ptr : Ptr) (vctx : VisionAIContext)
    (req : Request) (hlive : vctx.sampler ≠ 0) :
    (serve rt s ctx_ptr vctx req).vctx.sampler ≠ 0 := by
  by_cases hready : ctx_ptr = 0 ∨ vctx.model = 0 ∨ vctx.ctx = 0 ∨ vctx.ctx_mtmd = 0
  · rw [(serve_not_ready rt s ctx_ptr vctx hready req).2.1]
    exact hlive
  · obtain ⟨ret, hshape⟩ := serve_shape rt s ctx_ptr vctx hready req
    exact request_shape_sampler_live hshape hlive

theorem serve_all_sampler_live (rt : Runtime σ) (ctx_ptr : Ptr) (reqs : List Request) :
    ∀ (s : σ) (vctx : VisionAIContext), vctx.sampler ≠ 0 →
      (serve_all rt s ctx_ptr vctx reqs).vctx.sampler ≠ 0 := by
  induction reqs with
  | nil => intro s vctx h; exact h
  | cons req reqs ih =>
    intro s vctx h
    simp only [serve_all]
    exact ih _ _ (serve_sampler_live rt s ctx_ptr vctx req h)

theorem serve_discipline (rt : Runtime σ) (s : σ) (ctx_ptr : Ptr) (vctx : VisionAIContext)
    (req : Request) :
    sampler_discipline vctx.sampler (serve rt s ctx_ptr vctx req).trace =
      some (serve rt s ctx_ptr vctx req).vctx.sampler := by
  by_cases hready : ctx_ptr = 0 ∨ vctx.model = 0 ∨ vctx.ctx = 0 ∨ vctx.ctx_mtmd = 0
  · obtain ⟨ht, hv, -⟩ := serve_not_ready rt s ctx_ptr vctx hready req
    rw [ht, hv]
    exact sampler_discipline_quiet _
      (fun c hc => quiet_kinds c (Or.inr (Or.inr (Or.inl (throw_java_exception_kind rt _ c hc)))))
      _
  · obtain ⟨ret, hshape⟩ := serve_shape rt s ctx_ptr vctx hready req
    exact request_shape_discipline hshape

theorem serve_all_discipline (rt : Runtime σ) (ctx_ptr : Ptr) (reqs : List Request) :
    ∀ (s : σ) (vctx : VisionAIContext),
      sampler_discipline vctx.sampler (serve_all rt s ctx_ptr vctx reqs).trace =
        some (serve_all rt s ctx_ptr vctx reqs).vctx.sampler := by
  induction reqs with
  | nil => intro s vctx; rfl
  | cons req reqs ih =>
    intro s vctx
    simp only [serve_all]
    rw [sampler_discipline_append, serve_discipline]
    exact ih _ _

theorem loadModel_discipline (rt : Runtime σ) (s : σ) (model_path_c mmproj_path_c : Bytes)
    (n_threads n_ctx : Int)
    (h : (loadModel rt s model_path_c mmproj_path_c n_threads n_ctx).ret ≠ 0) :
    ∃ v, (loadModel rt s model_path_c mmproj_path_c n_threads n_ctx).session = some v ∧
      v.sampler ≠ 0 ∧
      sampler_discipline 0 (loadModel rt s model_path_c mmproj_path_c n_threads n_ctx).trace =
        some v.sampler := by
  unfold loadModel at h ⊢
  simp only [] at h ⊢
  split
  · rename_i h1; rw [if_pos h1] at h; exact absurd rfl h
  · split
    · rename_i h1 h2; rw [if_neg h1, if_pos h2] at h; exact absurd rfl h
    · split
      · rename_i h1 h2 h3; rw [if_neg h1, if_neg h2, if_pos h3] at h; exact absurd rfl h
      · refine ⟨_, rfl, (rt.llama_sampler_chain_init _).1.property, ?_⟩
        simp [create_sampler, sampler_discipline, (rt.llama_sampler_chain_init _).1.property]

theorem freeModel_discipline (rt : Runtime σ) (s : σ) (ctx_ptr : Ptr) (vctx : VisionAIContext)
    (h : ctx_ptr ≠ 0) :
    sampler_discipline vctx.sampler (freeModel rt s ctx_ptr vctx).trace = some 0 := by
  by_cases h1 : vctx.sampler = 0 <;> by_cases h2 : vctx.ctx_mtmd = 0 <;>
    by_cases h3 : vctx.ctx = 0 <;> by_cases h4 : vctx.model = 0 <;>
    simp [freeModel, h, h1, h2, h3, h4, sampler_discipline]

/-! ## Claims -/

/-- Claim C1 (end-of-generation stop).  For every library, library state,
session and ceiling `max_tokens`, and every `k` with `1 ≤ k ≤ max_tokens`: if
the `k`-th sampled token is the first end-of-generation token and no decode
call fails before it, then `generate_response` and
`generate_response_streaming` both return the concatenation, in order, of the
fragments of the first `k - 1` sampled tokens (a token whose piece length is
not positive contributes the empty fragment, see `token_fragment`); they make
exactly `k` sample calls, which return the first `k` sampled tokens, and
exactly `k - 1` decode calls, on the first `k - 1` tokens; and the last call of
the trace is the sample call that returned the end-of-generation token, so no
sample or decode call follows it. -/
theorem generate_response_stops_at_end_of_generation (rt : Runtime σ) (s : σ)
    (vctx : VisionAIContext) (max_tokens : Int) (k : Nat)
    (hk : 1 ≤ k) (hmax : (k : Int) ≤ max_tokens)
    (heog : is_eog_at rt vctx s (k - 1) = true)
    (hfirst : ∀ j, j < k - 1 →
      is_eog_at rt vctx s j = false ∧ decode_result_at rt vctx s j = 0) :
    ((generate_response rt s vctx max_tokens).response =
        ((List.range (k - 1)).map (fragment_at rt vctx s)).flatten ∧
      sample_calls (generate_response rt s vctx max_tokens).trace =
        (List.range k).map (sampled_at rt vctx s) ∧
      (sample_calls (generate_response rt s vctx max_tokens).trace).length = k ∧
      decode_calls (generate_response rt s vctx max_tokens).trace =
        (List.range (k - 1)).map (fun j => (sampled_at rt vctx s j, 0)) ∧
      (decode_calls (generate_response rt s vctx max_tokens).trace).length = k - 1 ∧
      (generate_response rt s vctx max_tokens).trace.getLast? =
        some (Call.llama_sampler_sample vctx.sampler vctx.ctx (sampled_at rt vctx s (k - 1)))) ∧
    ((generate_response_streaming rt s vctx max_tokens).response =
        ((List.range (k - 1)).map (fragment_at rt vctx s)).flatten ∧
      sample_calls (generate_response_streaming rt s vctx max_tokens).trace =
        (List.range k).map (sampled_at rt vctx s) ∧
      (sample_calls (generate_response_streaming rt s vctx max_tokens).trace).length = k ∧
      decode_calls (generate_response_streaming rt s vctx max_tokens).trace =
        (List.range (k - 1)).map (fun j => (sampled_at rt vctx s j, 0)) ∧
      (decode_calls (generate_response_streaming rt s vctx max_tokens).trace).length = k - 1 ∧
      (generate_response_streaming rt s vctx max_tokens).trace.getLast? =
        some (Call.llama_sampler_sample vctx.sampler vctx.ctx (sampled_at rt vctx s (k - 1)))) := by
  obtain ⟨m, rfl⟩ : ∃ m, k = m + 1 := ⟨k - 1, by omega⟩
  simp only [Nat.add_sub_cancel] at heog hfirst ⊢
  have hm : m < max_tokens.toNat := by omega
  have hdec : (List.range m).map
      (fun j => (sampled_at rt vctx s j, decode_result_at rt vctx s j)) =
      (List.range m).map (fun j => (sampled_at rt vctx s j, (0 : Int))) := by
    apply List.map_congr_left
    intro j hj
    rw [(hfirst j (List.mem_range.mp hj)).2]
  rw [generate_response_eog rt s vctx max_tokens m hm hfirst heog,
    generate_response_streaming_eog rt s vctx max_tokens m hm hfirst heog]
  refine ⟨⟨rfl, ?_, ?_, ?_, ?_, by simp⟩, ⟨rfl, ?_, ?_, ?_, ?_, by simp⟩⟩
  · have := sample_calls_blocking_calls rt vctx s m
    simp only [sample_calls] at this ⊢
    simp [this, List.range_succ]
  · have := sample_calls_blocking_calls rt vctx s m
    simp only [sample_calls] at this ⊢
    simp [this]
  · have := decode_calls_blocking_calls rt vctx s m
    rw [hdec] at this
    simp only [decode_calls] at this ⊢
    simp [this]
  · have := decode_calls_blocking_calls rt vctx s m
    simp only [decode_calls] at this ⊢
    simp [this]
  · have := sample_calls_streaming_calls rt vctx s m
    simp only [sample_calls] at this ⊢
    simp [this, List.range_succ]
  · have := sample_calls_streaming_calls rt vctx s m
    simp only [sample_calls] at this ⊢
    simp [this]
  · have := decode_calls_streaming_calls rt vctx s m
    rw [hdec] at this
    simp only [decode_calls] at this ⊢
    simp [this]
  · have := decode_calls_streaming_calls rt vctx s m
    simp only [decode_calls] at this ⊢
    simp [this]

/-- Claim C1 on a scripted run: the third sampled token is the first
end-of-generation token. -/
theorem generate_response_stops_at_end_of_generation_witness :
    (1 ≤ 3 ∧ ((3 : Nat) : Int) ≤ 400 ∧
      is_eog_at (scripted script_eog) ready_session (0, 0) (3 - 1) = true ∧
      ∀ j, j < 3 - 1 →
        is_eog_at (scripted script_eog) ready_session (0, 0) j = false ∧
        decode_result_at (scripted script_eog) ready_session (0, 0) j = 0) ∧
    (generate_response (scripted script_eog) (0, 0) ready_session 400).response =
      ((List.range (3 - 1)).map (fragment_at (scripted script_eog) ready_session (0, 0))).flatten ∧
    (sample_calls (generate_response (scripted script_eog) (0, 0) ready_session 400).trace).length
      = 3 ∧
    (decode_calls (generate_response (scripted script_eog) (0, 0) ready_session 400).trace).length
      = 3 - 1 :=
  ⟨⟨by decide, by decide, by decide, by decide⟩,
    (generate_response_stops_at_end_of_generation (scripted script_eog) (0, 0) ready_session 400 3
      (by decide) (by decide) (by decide) (by decide)).1.1,
    (generate_response_stops_at_end_of_generation (scripted script_eog) (0, 0) ready_session 400 3
      (by decide) (by decide) (by decide) (by decide)).1.2.2.1,
    (generate_response_stops_at_end_of_generation (scripted script_eog) (0, 0) ready_session 400 3
      (by decide) (by decide) (by decide) (by decide)).1.2.2.2.2.1⟩

/-- Claim C2 (token ceiling).  For every library, library state, session and
ceiling `max_tokens` (a C `int`; `max_tokens.toNat` is `max_tokens` itself when
it is not negative, and a negative ceiling runs no iteration):
* if no iteration samples an end-of-generation token and every decode call
  succeeds, `generate_response` makes exactly `max_tokens` sample calls and
  `max_tokens` decode calls, counts `max_tokens` generated tokens, returns the
  fragments of all of them and raises nothing;
* in every case it makes at most `max_tokens` sample calls and decode calls and
  counts at most `max_tokens` generated tokens;
* each of the four inference entry points, which pass `MAX_TOKENS = 400` to the
  loop, makes at most 400 sample calls on every input. -/
theorem generate_response_token_ceiling (rt : Runtime σ) (s : σ) (vctx : VisionAIContext)
    (max_tokens : Int) :
    ((∀ j, j < max_tokens.toNat →
        is_eog_at rt vctx s j = false ∧ decode_result_at rt vctx s j = 0) →
      (sample_calls (generate_response rt s vctx max_tokens).trace).length = max_tokens.toNat ∧
      (decode_calls (generate_response rt s vctx max_tokens).trace).length = max_tokens.toNat ∧
      (generate_response rt s vctx max_tokens).tokens_generated = max_tokens.toNat ∧
      (generate_response rt s vctx max_tokens).response =
        ((List.range max_tokens.toNat).map (fragment_at rt vctx s)).flatten ∧
      thrown (generate_response rt s vctx max_tokens).trace = []) ∧
    ((sample_calls (generate_response rt s vctx max_tokens).trace).length ≤ max_tokens.toNat ∧
      (decode_calls (generate_response rt s vctx max_tokens).trace).length ≤ max_tokens.toNat ∧
      (generate_response rt s vctx max_tokens).tokens_generated ≤ max_tokens.toNat) ∧
    (∀ (ctx_ptr : Ptr) (img_data : Bytes) (width height : Int) (prompt_c : Bytes),
      (sample_calls
        (runInference rt s ctx_ptr vctx img_data width height prompt_c).trace).length ≤ 400 ∧
      (sample_calls
        (runInferenceStreaming rt s ctx_ptr vctx img_data width height prompt_c).trace).length
          ≤ 400) ∧
    (∀ (ctx_ptr : Ptr) (frames : List Frame) (prompt_c : Bytes),
      (sample_calls (runVideoInference rt s ctx_ptr vctx frames prompt_c).trace).length ≤ 400 ∧
      (sample_calls
        (runVideoInferenceStreaming rt s ctx_ptr vctx frames prompt_c).trace).length ≤ 400) := by
  refine ⟨?_, ?_, ?_, ?_⟩
  · intro hclean
    rw [generate_response_ceiling rt s vctx max_tokens hclean]
    refine ⟨?_, ?_, rfl, rfl, (no_error_blocking_calls rt vctx s _).1⟩
    · simp [sample_calls_blocking_calls]
    · simp [decode_calls_blocking_calls]
  · have h := generate_response_loop_bound rt vctx max_tokens.toNat s [] 0
    rw [Nat.zero_add] at h
    exact h
  · intro ctx_ptr img_data width height prompt_c
    exact ⟨runInference_sample_bound rt s ctx_ptr vctx img_data width height prompt_c,
      runInferenceStreaming_sample_bound rt s ctx_ptr vctx img_data width height prompt_c⟩
  · intro ctx_ptr frames prompt_c
    exact ⟨runVideoInference_sample_bound rt s ctx_ptr vctx frames prompt_c,
      runVideoInferenceStreaming_sample_bound rt s ctx_ptr vctx frames prompt_c⟩

/-- Claim C2 on a scripted run whose sampler never emits the end-of-generation
token: exactly 400 iterations. -/
theorem generate_response_token_ceiling_witness :
    (∀ j, j < (400 : Int).toNat →
      is_eog_at (scripted script_endless) ready_session (0, 0) j = false ∧
      decode_result_at (scripted script_endless) ready_session (0, 0) j = 0) ∧
    (sample_calls (generate_response (scripted script_endless) (0, 0) ready_session 400).trace).length
      = 400 ∧
    (decode_calls (generate_response (scripted script_endless) (0, 0) ready_session 400).trace).length
      = 400 :=
  have h : ∀ j, j < (400 : Int).toNat →
      is_eog_at (scripted script_endless) ready_session (0, 0) j = false ∧
      decode_result_at (scripted script_endless) ready_session (0, 0) j = 0 := by
    intro j _
    simp [is_eog_at, decode_result_at, sampled_at, scripted, script_endless]
  ⟨h, ((generate_response_token_ceiling (scripted script_endless) (0, 0) ready_session 400).1 h).1,
    ((generate_response_token_ceiling (scripted script_endless) (0, 0) ready_session 400).1 h).2.1⟩

/-- Claim C3 (decode failure mid-loop).  For every library, library state,
session and ceiling `max_tokens`, and every `k` with `1 ≤ k ≤ max_tokens`: if
none of the first `k` sampled tokens is an end-of-generation token, the first
`k - 1` decode calls return 0 and the `k`-th returns non-zero, then
`generate_response` and `generate_response_streaming` both return the
concatenation of the fragments of the first `k` tokens (the `k`-th included),
make exactly `k` sample calls and `k` decode calls, the failed decode call
being the last call of the trace, and raise no error: no Java exception is
thrown and the error sink is not called. -/
theorem generate_response_decode_failure (rt : Runtime σ) (s : σ) (vctx : VisionAIContext)
    (max_tokens : Int) (k : Nat) (hk : 1 ≤ k) (hmax : (k : Int) ≤ max_tokens)
    (hnoeog : ∀ j, j < k → is_eog_at rt vctx s j = false)
    (hok : ∀ j, j < k - 1 → decode_result_at rt vctx s j = 0)
    (hfail : decode_result_at rt vctx s (k - 1) ≠ 0) :
    ((generate_response rt s vctx max_tokens).response =
        ((List.range k).map (fragment_at rt vctx s)).flatten ∧
      sample_calls (generate_response rt s vctx max_tokens).trace =
        (List.range k).map (sampled_at rt vctx s) ∧
      (sample_calls (generate_response rt s vctx max_tokens).trace).length = k ∧
      decode_calls (generate_response rt s vctx max_tokens).trace =
        (List.range k).map (fun j => (sampled_at rt vctx s j, decode_result_at rt vctx s j)) ∧
      (decode_calls (generate_response rt s vctx max_tokens).trace).length = k ∧
      (generate_response rt s vctx max_tokens).trace.getLast? =
        some (Call.llama_decode vctx.ctx (sampled_at rt vctx s (k - 1))
          (decode_result_at rt vctx s (k - 1))) ∧
      thrown (generate_response rt s vctx max_tokens).trace = [] ∧
      error_sink_calls (generate_response rt s vctx max_tokens).trace = []) ∧
    ((generate_response_streaming rt s vctx max_tokens).response =
        ((List.range k).map (fragment_at rt vctx s)).flatten ∧
      sample_calls (generate_response_streaming rt s vctx max_tokens).trace =
        (List.range k).map (sampled_at rt vctx s) ∧
      (sample_calls (generate_response_streaming rt s vctx max_tokens).trace).length = k ∧
      decode_calls (generate_response_streaming rt s vctx max_tokens).trace =
        (List.range k).map (fun j => (sampled_at rt vctx s j, decode_result_at rt vctx s j)) ∧
      (decode_calls (generate_response_streaming rt s vctx max_tokens).trace).length = k ∧
      (generate_response_streaming rt s vctx max_tokens).trace.getLast? =
        some (Call.llama_decode vctx.ctx (sampled_at rt vctx s (k - 1))
          (decode_result_at rt vctx s (k - 1))) ∧
      thrown (generate_response_streaming rt s vctx max_tokens).trace = [] ∧
      error_sink_calls (generate_response_streaming rt s vctx max_tokens).trace = []) := by
  obtain ⟨m, rfl⟩ : ∃ m, k = m + 1 := ⟨k - 1, by omega⟩
  simp only [Nat.add_sub_cancel] at hok hfail ⊢
  have hm : m < max_tokens.toNat := by omega
  have hclean : ∀ j, j < m →
      is_eog_at rt vctx s j = false ∧ decode_result_at rt vctx s j = 0 :=
    fun j hj => ⟨hnoeog j (Nat.lt_succ_of_lt hj), hok j hj⟩
  rw [generate_response_fail rt s vctx max_tokens m hm hclean (hnoeog m (Nat.lt_succ_self m))
      hfail,
    generate_response_streaming_fail rt s vctx max_tokens m hm hclean
      (hnoeog m (Nat.lt_succ_self m)) hfail]
  refine ⟨⟨rfl, sample_calls_blocking_calls rt vctx s _, ?_,
      decode_calls_blocking_calls rt vctx s _, ?_, ?_,
      (no_error_blocking_calls rt vctx s _).1, (no_error_blocking_calls rt vctx s _).2⟩,
    ⟨rfl, sample_calls_streaming_calls rt vctx s _, ?_,
      decode_calls_streaming_calls rt vctx s _, ?_, ?_,
      (no_error_streaming_calls rt vctx s _).1, (no_error_streaming_calls rt vctx s _).2⟩⟩
  · simp [sample_calls_blocking_calls]
  · simp [decode_calls_blocking_calls]
  · simp [blocking_calls_succ_last]
  · simp [sample_calls_streaming_calls]
  · simp [decode_calls_streaming_calls]
  · rw [streaming_calls_succ_last, ← List.cons_append, ← List.append_assoc]
    exact List.getLast?_concat _

/-- Claim C3 on a scripted run: the second decode call fails. -/
theorem generate_response_decode_failure_witness :
    (1 ≤ 2 ∧ ((2 : Nat) : Int) ≤ 400 ∧
      (∀ j, j < 2 → is_eog_at (scripted script_decode_failure) ready_session (0, 0) j = false) ∧
      (∀ j, j < 2 - 1 →
        decode_result_at (scripted script_decode_failure) ready_session (0, 0) j = 0) ∧
      decode_result_at (scripted script_decode_failure) ready_session (0, 0) (2 - 1) ≠ 0) ∧
    (generate_response (scripted script_decode_failure) (0, 0) ready_session 400).response =
      ((List.range 2).map
        (fragment_at (scripted script_decode_failure) ready_session (0, 0))).flatten ∧
    (generate_response_streaming (scripted script_decode_failure) (0, 0) ready_session
        400).response =
      ((List.range 2).map
        (fragment_at (scripted script_decode_failure) ready_session (0, 0))).flatten :=
  ⟨⟨by decide, by decide, by decide, by decide, by decide⟩,
    (generate_response_decode_failure (scripted script_decode_failure) (0, 0) ready_session 400 2
      (by decide) (by decide) (by decide) (by decide) (by decide)).1.1,
    (generate_response_decode_failure (scripted script_decode_failure) (0, 0) ready_session 400 2
      (by decide) (by decide) (by decide) (by decide) (by decide)).2.1⟩

/-- Claim C4 at a run whose second token has the single byte NUL as its text
(tokens "a", NUL, "b", then end of generation).  The response accumulated by
the loop is `a NUL b`; `runInferenceStreaming` delivers "a", "" and "b" to the
per-token sink, which concatenate to "ab", but hands "a" to the completion
sink, because `response.c_str()` stops at the NUL byte; `runInference` returns
"a" as well.  The streamed fragments do not concatenate to the completion
payload. -/
theorem streamed_fragments_diverge_on_nul_byte :
    (generate_response_streaming (scripted script_nul) (0, 0) ready_session MAX_TOKENS).response
      = [97, 0, 98] ∧
    token_sink_calls
      (runInferenceStreaming (scripted script_nul) (0, 0) 4096 ready_session [] 1 1 [63]).trace
      = [[97], [], [98]] ∧
    complete_sink_calls
      (runInferenceStreaming (scripted script_nul) (0, 0) 4096 ready_session [] 1 1 [63]).trace
      = [[97]] ∧
    [(token_sink_calls
      (runInferenceStreaming (scripted script_nul) (0, 0) 4096 ready_session [] 1 1
        [63]).trace).flatten] ≠
    complete_sink_calls
      (runInferenceStreaming (scripted script_nul) (0, 0) 4096 ready_session [] 1 1 [63]).trace ∧
    (runInference (scripted script_nul) (0, 0) 4096 ready_session [] 1 1 [63]).ret = [97] := by
  decide

/-- Claim C5 (user-content ordering per call kind).  On a ready session, for
every marker (`rt.mtmd_default_marker`), prompt, image and list of frames, each
entry point calls the prompt formatter exactly once, and the user content it
passes is: marker, line feed (byte 10), prompt for `runInference` and
`runInferenceStreaming`; prompt, line feed, then marker and line feed once per
frame for `runVideoInference` and `runVideoInferenceStreaming` (any number of
frames, zero included).  The blocking and the streaming variant of each kind
pass the same content. -/
theorem user_content_per_call_kind (rt : Runtime σ) (s : σ) (ctx_ptr : Ptr)
    (vctx : VisionAIContext)
    (hready : ¬ (ctx_ptr = 0 ∨ vctx.model = 0 ∨ vctx.ctx = 0 ∨ vctx.ctx_mtmd = 0))
    (img_data : Bytes) (width height : Int) (frames : List Frame) (prompt_c : Bytes) :
    formatter_calls (runInference rt s ctx_ptr vctx img_data width height prompt_c).trace =
      [(vctx.model, rt.mtmd_default_marker ++ [10] ++ prompt_c)] ∧
    formatter_calls
        (runInferenceStreaming rt s ctx_ptr vctx img_data width height prompt_c).trace =
      [(vctx.model, rt.mtmd_default_marker ++ [10] ++ prompt_c)] ∧
    formatter_calls (runVideoInference rt s ctx_ptr vctx frames prompt_c).trace =
      [(vctx.model, prompt_c ++ [10] ++
        (List.replicate frames.length (rt.mtmd_default_marker ++ [10])).flatten)] ∧
    formatter_calls (runVideoInferenceStreaming rt s ctx_ptr vctx frames prompt_c).trace =
      [(vctx.model, prompt_c ++ [10] ++
        (List.replicate frames.length (rt.mtmd_default_marker ++ [10])).flatten)] := by
  have hl : literal "\n" = [10] := by decide
  refine ⟨?_, ?_, ?_, ?_⟩
  · unfold runInference
    rw [if_neg hready]
    simp only []
    split
    · simp [formatter_calls_append, formatter_calls_throw, formatter_calls_cons,
        formatter_calls_nil, hl]
    · split
      · simp [formatter_calls_append, formatter_calls_throw, formatter_calls_cons,
          formatter_calls_nil, formatter_calls_create_sampler, hl]
      · simp [formatter_calls_append, formatter_calls_throw, formatter_calls_cons,
          formatter_calls_nil, formatter_calls_create_sampler,
          formatter_calls_generate_response, hl]
  · unfold runInferenceStreaming
    rw [if_neg hready]
    simp only []
    split
    · simp [formatter_calls_append, formatter_calls_throw, formatter_calls_cons,
        formatter_calls_nil, hl]
    · split
      · simp [formatter_calls_append, formatter_calls_throw, formatter_calls_cons,
          formatter_calls_nil, formatter_calls_create_sampler, hl]
      · simp [formatter_calls_append, formatter_calls_throw, formatter_calls_cons,
          formatter_calls_nil, formatter_calls_create_sampler,
          formatter_calls_generate_response_streaming, hl]
  · unfold runVideoInference
    rw [if_neg hready]
    simp only []
    split
    · simp [formatter_calls_append, formatter_calls_throw, formatter_calls_cons,
        formatter_calls_nil, formatter_calls_init_bitmaps, formatter_calls_free_bitmaps,
        append_markers_eq, hl]
    · split
      · simp [formatter_calls_append, formatter_calls_throw, formatter_calls_cons,
          formatter_calls_nil, formatter_calls_create_sampler, formatter_calls_init_bitmaps,
          formatter_calls_free_bitmaps, append_markers_eq, hl]
      · simp [formatter_calls_append, formatter_calls_throw, formatter_calls_cons,
          formatter_calls_nil, formatter_calls_create_sampler,
          formatter_calls_generate_response, formatter_calls_init_bitmaps,
          formatter_calls_free_bitmaps, append_markers_eq, hl]
  · unfold runVideoInferenceStreaming
    rw [if_neg hready]
    simp only []
    split
    · simp [formatter_calls_append, formatter_calls_throw, formatter_calls_cons,
        formatter_calls_nil, formatter_calls_init_bitmaps, formatter_calls_free_bitmaps,
        append_markers_eq, hl]
    · split
      · simp [formatter_calls_append, formatter_calls_throw, formatter_calls_cons,
          formatter_calls_nil, formatter_calls_create_sampler, formatter_calls_init_bitmaps,
          formatter_calls_free_bitmaps, append_markers_eq, hl]
      · simp [formatter_calls_append, formatter_calls_throw, formatter_calls_cons,
          formatter_calls_nil, formatter_calls_create_sampler,
          formatter_calls_generate_response_streaming, formatter_calls_init_bitmaps,
          formatter_calls_free_bitmaps, append_markers_eq, hl]

/-- Claim C5 on a scripted run with two frames. -/
theorem user_content_per_call_kind_witness :
    ¬ ((4096 : Ptr) = 0 ∨ ready_session.model = 0 ∨ ready_session.ctx = 0 ∨
      ready_session.ctx_mtmd = 0) ∧
    formatter_calls
        (runInference (scripted script_plain) (0, 0) 4096 ready_session [] 1 1 [63]).trace =
      [(11, literal "<__media__>" ++ [10] ++ [63])] ∧
    formatter_calls
        (runVideoInferenceStreaming (scripted script_plain) (0, 0) 4096 ready_session
          [⟨[], 1, 1⟩, ⟨[], 2, 2⟩] [63]).trace =
      [(11, [63] ++ [10] ++ (List.replicate 2 (literal "<__media__>" ++ [10])).flatten)] :=
  ⟨by decide,
    (user_content_per_call_kind (scripted script_plain) (0, 0) 4096 ready_session (by decide)
      [] 1 1 [⟨[], 1, 1⟩, ⟨[], 2, 2⟩] [63]).1,
    (user_content_per_call_kind (scripted script_plain) (0, 0) 4096 ready_session (by decide)
      [] 1 1 [⟨[], 1, 1⟩, ⟨[], 2, 2⟩] [63]).2.2.2⟩

/-- Claim C6 as stated fails: the model has no chat template, the template
routine renders the conversation all the same (as the llama runtime does with
its built-in default) and `apply_chat_template` returns that rendering, not
the raw user content. -/
theorem apply_chat_template_without_template_counterexample :
    (scripted script_untemplated).llama_model_chat_template 11 = none ∧
    apply_chat_template (scripted script_untemplated) 11 [104, 105] = [97, 98, 99] ∧
    apply_chat_template (scripted script_untemplated) 11 [104, 105] ≠ [104, 105] := by
  decide

/-- Claim C6, amended.  For every model, with or without a chat template, and
every user content: when the size query of the template routine reports a
negative size, `apply_chat_template` returns the raw user content unchanged.
(The function never tests the template pointer: an absent template is handed
to the routine as it is and the raw content comes back only if the routine
then reports a negative size.) -/
theorem apply_chat_template_falls_back_on_negative_size (rt : Runtime σ) (model : Ptr)
    (user_content : Bytes)
    (hneg : template_size rt model user_content < 0) :
    apply_chat_template rt model user_content = user_content :=
  apply_chat_template_negative rt model user_content hneg

/-- Claim C6, amended, on a model without template whose template routine
reports `-1`. -/
theorem apply_chat_template_falls_back_on_negative_size_witness :
    ((scripted script_plain).llama_model_chat_template 11 = none ∧
      template_size (scripted script_plain) 11 [104, 105] < 0) ∧
    apply_chat_template (scripted script_plain) 11 [104, 105] = [104, 105] :=
  ⟨⟨by decide, by decide⟩,
    apply_chat_template_falls_back_on_negative_size (scripted script_plain) 11 [104, 105]
      (by decide)⟩

/-- Claim C7 as stated fails: the model has a template, the size query reports
the non-negative size 0, and the string returned is empty. -/
theorem apply_chat_template_empty_rendering_counterexample :
    (scripted script_blank_template).llama_model_chat_template 11 ≠ none ∧
    0 ≤ template_size (scripted script_blank_template) 11 [104, 105] ∧
    apply_chat_template (scripted script_blank_template) 11 [104, 105] = [] := by
  decide

/-- Claim C7, amended.  For every model and user content for which the size
query reports a size `len` with `0 ≤ len < INT32_MAX` (so that the `int32_t`
sum `len + 1`, the size of the buffer, does not overflow),
`apply_chat_template` returns a string whose length is exactly `len`: the
first `len` bytes of the `len + 1` byte buffer after the second rendering
call.  The string is non-empty exactly when `len > 0`. -/
theorem apply_chat_template_size_contract (rt : Runtime σ) (model : Ptr) (user_content : Bytes)
    (hlen : 0 ≤ template_size rt model user_content)
    (hmax : template_size rt model user_content < INT32_MAX) :
    (apply_chat_template rt model user_content).length =
      (template_size rt model user_content).toNat ∧
    ((apply_chat_template rt model user_content).length : Int) =
      template_size rt model user_content ∧
    apply_chat_template rt model user_content =
      (template_buffer rt model user_content).take (template_size rt model user_content).toNat ∧
    (template_buffer rt model user_content).length =
      (template_size rt model user_content).toNat + 1 ∧
    (apply_chat_template rt model user_content ≠ [] ↔ 0 < template_size rt model user_content) := by
  have hbuf := template_buffer_length rt model user_content
  have hres := apply_chat_template_rendered rt model user_content hlen hmax
  have hl : (apply_chat_template rt model user_content).length =
      (template_size rt model user_content).toNat := by
    rw [hres, List.length_take, hbuf]
    omega
  refine ⟨hl, by omega, hres, by omega, ?_⟩
  rw [← List.length_pos, hl]
  omega

/-- Claim C7, amended, on a model whose template renders four bytes. -/
theorem apply_chat_template_size_contract_witness :
    (0 ≤ template_size (scripted script_templated) 11 [104, 105] ∧
      template_size (scripted script_templated) 11 [104, 105] < INT32_MAX) ∧
    apply_chat_template (scripted script_templated) 11 [104, 105] = [60, 104, 105, 62] ∧
    (apply_chat_template (scripted script_templated) 11 [104, 105]).length =
      (template_size (scripted script_templated) 11 [104, 105]).toNat :=
  ⟨⟨by decide, by decide⟩, by decide,
    (apply_chat_template_size_contract (scripted script_templated) 11 [104, 105]
      (by decide) (by decide)).1⟩

/-- Claim C8 as stated fails: the model cannot be loaded and the JNI lookup of
`java/lang/IllegalStateException` returns null.  `loadModel` deletes the
session object and returns 0, but `throw_java_exception` skips `ThrowNew`: no
error is raised. -/
theorem loadModel_error_not_raised_counterexample :
    (Resource.model, 0) ∈
      acquisitions
        (loadModel (scripted script_no_model_no_class) (0, 0) [109] [112] 4 2048).trace ∧
    (loadModel (scripted script_no_model_no_class) (0, 0) [109] [112] 4 2048).ret = 0 ∧
    (loadModel (scripted script_no_model_no_class) (0, 0) [109] [112] 4 2048).trace =
      [Call.operator_new 4096, Call.ggml_backend_load_all,
       Call.llama_model_load_from_file [109] 99 0, Call.operator_delete 4096,
       Call.FindClass "java/lang/IllegalStateException" 0] ∧
    thrown (loadModel (scripted script_no_model_no_class) (0, 0) [109] [112] 4 2048).trace =
      [] := by
  decide

/-- Claim C8, amended.  For every `loadModel` call in which the acquisition of
a stage returns a null handle: the number of release calls equals the number
of handles acquired, the handles are released in reverse acquisition order,
each exactly once (the acquired handles are pairwise distinct and the release
list is their reverse), nothing is acquired after the failed stage, the call
returns 0 and the session object is deleted.  The error of that stage is
raised when the JNI lookup of `java/lang/IllegalStateException` returns a
class, and no error is raised when the lookup returns null.  The failed stage
is the model load, the inference-context creation or the multimodal-context
load: the sampler-chain constructor returns a chain. -/
theorem loadModel_rollback (rt : Runtime σ) (s : σ) (model_path_c mmproj_path_c : Bytes)
    (n_threads n_ctx : Int) (stage : Resource)
    (hinjected : (stage, 0) ∈
      acquisitions (loadModel rt s model_path_c mmproj_path_c n_threads n_ctx).trace) :
    (released (loadModel rt s model_path_c mmproj_path_c n_threads n_ctx).trace).length =
      (acquired (loadModel rt s model_path_c mmproj_path_c n_threads n_ctx).trace).length ∧
    released (loadModel rt s model_path_c mmproj_path_c n_threads n_ctx).trace =
      (acquired (loadModel rt s model_path_c mmproj_path_c n_threads n_ctx).trace).reverse ∧
    (acquired (loadModel rt s model_path_c mmproj_path_c n_threads n_ctx).trace).Nodup ∧
    (acquisitions (loadModel rt s model_path_c mmproj_path_c n_threads n_ctx).trace).getLast? =
      some (stage, 0) ∧
    thrown (loadModel rt s model_path_c mmproj_path_c n_threads n_ctx).trace =
      (if rt.FindClass "java/lang/IllegalStateException" ≠ 0 then [stage_error stage]
       else []) ∧
    (loadModel rt s model_path_c mmproj_path_c n_threads n_ctx).ret = 0 ∧
    (loadModel rt s model_path_c mmproj_path_c n_threads n_ctx).session = none ∧
    stage ≠ Resource.sampler := by
  rcases loadModel_outcomes rt s model_path_c mmproj_path_c n_threads n_ctx with
    ⟨hr, hs, ha, hrel, ht⟩ | ⟨m, hm, hr, hs, ha, hrel, ht⟩ |
    ⟨m, c, hm, hc, hr, hs, ha, hrel, ht⟩ | ⟨v, hs, hr, hm, hc, hp, hsam, _, ha, hrel, ht⟩
  · rw [ha] at hinjected
    simp only [List.mem_singleton, Prod.mk.injEq] at hinjected
    obtain ⟨rfl, -⟩ := hinjected
    simp [acquired, ha, hrel, ht, hr, hs, stage_error]
  · rw [ha] at hinjected
    simp only [List.mem_cons, Prod.mk.injEq, List.mem_singleton, List.not_mem_nil,
      or_false] at hinjected
    rcases hinjected with ⟨rfl, h0⟩ | ⟨rfl, -⟩
    · exact absurd h0.symm hm
    · simp [acquired, ha, hrel, ht, hr, hs, stage_error, hm]
  · rw [ha] at hinjected
    simp only [List.mem_cons, Prod.mk.injEq, List.mem_singleton, List.not_mem_nil,
      or_false] at hinjected
    rcases hinjected with ⟨rfl, h0⟩ | ⟨rfl, h0⟩ | ⟨rfl, -⟩
    · exact absurd h0.symm hm
    · exact absurd h0.symm hc
    · simp [acquired, ha, hrel, ht, hr, hs, stage_error, hm, hc]
  · rw [ha] at hinjected
    simp only [List.mem_cons, Prod.mk.injEq, List.mem_singleton, List.not_mem_nil,
      or_false] at hinjected
    rcases hinjected with ⟨rfl, h0⟩ | ⟨rfl, h0⟩ | ⟨rfl, h0⟩ | ⟨rfl, h0⟩
    · exact absurd h0.symm hm
    · exact absurd h0.symm hc
    · exact absurd h0.symm hp
    · exact absurd h0.symm hsam

/-- Claim C8, amended, on a run where the multimodal projector fails to
load. -/
theorem loadModel_rollback_witness :
    (Resource.projector, 0) ∈
      acquisitions (loadModel (scripted script_no_projector) (0, 0) [109] [112] 4 2048).trace ∧
    released (loadModel (scripted script_no_projector) (0, 0) [109] [112] 4 2048).trace =
      [(Resource.context, 12), (Resource.model, 11)] ∧
    released (loadModel (scripted script_no_projector) (0, 0) [109] [112] 4 2048).trace =
      (acquired (loadModel (scripted script_no_projector) (0, 0) [109] [112] 4 2048).trace).reverse ∧
    thrown (loadModel (scripted script_no_projector) (0, 0) [109] [112] 4 2048).trace =
      ["Failed to load multimodal projector"] ∧
    thrown (loadModel (scripted script_no_projector) (0, 0) [109] [112] 4 2048).trace =
      (if (scripted script_no_projector).FindClass "java/lang/IllegalStateException" ≠ 0 then
        [stage_error Resource.projector]
       else []) :=
  ⟨by decide, by decide,
    (loadModel_rollback (scripted script_no_projector) (0, 0) [109] [112] 4 2048
      Resource.projector (by decide)).2.1, by decide,
    (loadModel_rollback (scripted script_no_projector) (0, 0) [109] [112] 4 2048
      Resource.projector (by decide)).2.2.2.2.1⟩

/-- Claim C9 (fully constructed or absent).  For every `loadModel` call that
returns a non-zero handle, the session object exists and its four handles
(model, inference context, sampler chain, multimodal context) are non-null:
they are the ones the four acquisition calls returned, in that order.  For
every call that fails (it returns 0, an acquisition returns a null handle, or
an error is raised) the returned handle is 0 and the session object is
deleted; and a call returns 0 only when an acquisition returned a null
handle. -/
theorem loadModel_session_handles (rt : Runtime σ) (s : σ) (model_path_c mmproj_path_c : Bytes)
    (n_threads n_ctx : Int) :
    ((loadModel rt s model_path_c mmproj_path_c n_threads n_ctx).ret ≠ 0 →
      ∃ v : VisionAIContext,
        (loadModel rt s model_path_c mmproj_path_c n_threads n_ctx).session = some v ∧
        v.model ≠ 0 ∧ v.ctx ≠ 0 ∧ v.sampler ≠ 0 ∧ v.ctx_mtmd ≠ 0 ∧
        acquisitions (loadModel rt s model_path_c mmproj_path_c n_threads n_ctx).trace =
          [(Resource.model, v.model), (Resource.context, v.ctx),
           (Resource.projector, v.ctx_mtmd), (Resource.sampler, v.sampler)]) ∧
    ((loadModel rt s model_path_c mmproj_path_c n_threads n_ctx).ret = 0 →
      (loadModel rt s model_path_c mmproj_path_c n_threads n_ctx).session = none ∧
      ∃ stage, (stage, 0) ∈
        acquisitions (loadModel rt s model_path_c mmproj_path_c n_threads n_ctx).trace) ∧
    (∀ stage,
      (stage, 0) ∈
        acquisitions (loadModel rt s model_path_c mmproj_path_c n_threads n_ctx).trace →
      (loadModel rt s model_path_c mmproj_path_c n_threads n_ctx).ret = 0 ∧
      (loadModel rt s model_path_c mmproj_path_c n_threads n_ctx).session = none) ∧
    (thrown (loadModel rt s model_path_c mmproj_path_c n_threads n_ctx).trace ≠ [] →
      (loadModel rt s model_path_c mmproj_path_c n_threads n_ctx).ret = 0 ∧
      (loadModel rt s model_path_c mmproj_path_c n_threads n_ctx).session = none) := by
  rcases loadModel_outcomes rt s model_path_c mmproj_path_c n_threads n_ctx with
    ⟨hr, hs, ha, hrel, ht⟩ | ⟨m, hm, hr, hs, ha, hrel, ht⟩ |
    ⟨m, c, hm, hc, hr, hs, ha, hrel, ht⟩ | ⟨v, hs, hr, hm, hc, hp, hsam, _, ha, hrel, ht⟩
  · exact ⟨fun h => absurd hr h, fun _ => ⟨hs, Resource.model, by simp [ha]⟩,
      fun _ _ => ⟨hr, hs⟩, fun _ => ⟨hr, hs⟩⟩
  · exact ⟨fun h => absurd hr h, fun _ => ⟨hs, Resource.context, by simp [ha]⟩,
      fun _ _ => ⟨hr, hs⟩, fun _ => ⟨hr, hs⟩⟩
  · exact ⟨fun h => absurd hr h, fun _ => ⟨hs, Resource.projector, by simp [ha]⟩,
      fun _ _ => ⟨hr, hs⟩, fun _ => ⟨hr, hs⟩⟩
  · refine ⟨fun _ => ⟨v, hs, hm, hc, hsam, hp, ha⟩, fun h => absurd h hr, ?_,
      fun h => absurd ht h⟩
    intro stage hin
    rw [ha] at hin
    simp only [List.mem_cons, Prod.mk.injEq, List.mem_singleton, List.not_mem_nil,
      or_false] at hin
    rcases hin with ⟨rfl, h0⟩ | ⟨rfl, h0⟩ | ⟨rfl, h0⟩ | ⟨rfl, h0⟩
    · exact absurd h0.symm hm
    · exact absurd h0.symm hc
    · exact absurd h0.symm hp
    · exact absurd h0.symm hsam

/-- Claim C9 on a run where every acquisition succeeds. -/
theorem loadModel_session_handles_witness :
    (loadModel (scripted script_plain) (0, 0) [109] [112] 4 2048).ret ≠ 0 ∧
    ∃ v : VisionAIContext,
      (loadModel (scripted script_plain) (0, 0) [109] [112] 4 2048).session = some v ∧
      v.model ≠ 0 ∧ v.ctx ≠ 0 ∧ v.sampler ≠ 0 ∧ v.ctx_mtmd ≠ 0 ∧
      acquisitions (loadModel (scripted script_plain) (0, 0) [109] [112] 4 2048).trace =
        [(Resource.model, v.model), (Resource.context, v.ctx),
         (Resource.projector, v.ctx_mtmd), (Resource.sampler, v.sampler)] :=
  ⟨by decide,
    (loadModel_session_handles (scripted script_plain) (0, 0) [109] [112] 4 2048).1 (by decide)⟩

/-- Claim C10 (release).  `freeModel` on a null session handle issues no call
at all.  On a non-null handle its release calls are, in this order, the
sampler, the multimodal context, the inference context and the model, each one
present exactly when its handle is non-null; no handle is released twice, and
the session object is gone afterwards. -/
theorem freeModel_release_order (rt : Runtime σ) (s : σ) (ctx_ptr : Ptr)
    (vctx : VisionAIContext) :
    (freeModel rt s 0 vctx).trace = [] ∧
    released (freeModel rt s ctx_ptr vctx).trace =
      (if ctx_ptr = 0 then []
       else [(Resource.sampler, vctx.sampler), (Resource.projector, vctx.ctx_mtmd),
         (Resource.context, vctx.ctx), (Resource.model, vctx.model)].filter
           fun h => h.2 != 0) ∧
    (released (freeModel rt s ctx_ptr vctx).trace).Nodup ∧
    (freeModel rt s ctx_ptr vctx).session = none := by
  refine ⟨by simp [freeModel], ?_, ?_, ?_⟩
  · by_cases hp : ctx_ptr = 0
    · simp [freeModel, hp, released]
    · by_cases h1 : vctx.sampler = 0 <;> by_cases h2 : vctx.ctx_mtmd = 0 <;>
        by_cases h3 : vctx.ctx = 0 <;> by_cases h4 : vctx.model = 0 <;>
        simp [freeModel, hp, released, h1, h2, h3, h4, List.filter_cons]
  · by_cases hp : ctx_ptr = 0
    · simp [freeModel, hp, released]
    · by_cases h1 : vctx.sampler = 0 <;> by_cases h2 : vctx.ctx_mtmd = 0 <;>
        by_cases h3 : vctx.ctx = 0 <;> by_cases h4 : vctx.model = 0 <;>
        simp [freeModel, hp, released, h1, h2, h3, h4]
  · by_cases hp : ctx_ptr = 0 <;> simp [freeModel, hp]

/-- Claim C11 (reset order).  Take any sequence of inference calls on one
session (calls of any of the four entry points, whatever their outcome),
followed by one more call.  If the trace of that call contains a chunk
evaluation, then among its state calls the first is the clear of the running
memory, followed by one sampler rebuild (the free of the chain the earlier
calls left, if any, one construction, four stages), followed by the chunk
evaluation at position 0, and only sample and decode calls come after it. -/
theorem reset_order_on_every_call (rt : Runtime σ) (s : σ) (ctx_ptr : Ptr)
    (vctx : VisionAIContext) (earlier : List Request) (req : Request)
    (he : ∃ c ∈ (serve rt (serve_all rt s ctx_ptr vctx earlier).state ctx_ptr
      (serve_all rt s ctx_ptr vctx earlier).vctx req).trace, evaluation_call c = true) :
    reset_order rt (serve_all rt s ctx_ptr vctx earlier).vctx
      (serve rt (serve_all rt s ctx_ptr vctx earlier).state ctx_ptr
        (serve_all rt s ctx_ptr vctx earlier).vctx req).trace :=
  serve_reset_order rt _ ctx_ptr _ req he

/-- Claim C11 on a run: a multi-frame call without frames, then a streaming
single-image call. -/
theorem reset_order_on_every_call_witness :
    (∃ c ∈ (serve (scripted script_eog)
        (serve_all (scripted script_eog) (0, 0) 4096 ready_session [Request.video [] [63]]).state
        4096
        (serve_all (scripted script_eog) (0, 0) 4096 ready_session [Request.video [] [63]]).vctx
        (Request.image_streaming [] 1 1 [63])).trace, evaluation_call c = true) ∧
    reset_order (scripted script_eog)
      (serve_all (scripted script_eog) (0, 0) 4096 ready_session [Request.video [] [63]]).vctx
      (serve (scripted script_eog)
        (serve_all (scripted script_eog) (0, 0) 4096 ready_session [Request.video [] [63]]).state
        4096
        (serve_all (scripted script_eog) (0, 0) 4096 ready_session [Request.video [] [63]]).vctx
        (Request.image_streaming [] 1 1 [63])).trace :=
  ⟨⟨Call.mtmd_helper_eval_chunks 13 12 31 0 0 128 true 0, by decide, rfl⟩,
    reset_order_on_every_call (scripted script_eog) (0, 0) 4096 ready_session
      [Request.video [] [63]] (Request.image_streaming [] 1 1 [63])
      ⟨Call.mtmd_helper_eval_chunks 13 12 31 0 0 128 true 0, by decide, rfl⟩⟩

/-- Claim C14 at a multi-frame streaming run whose second token has the single
byte NUL as its text (tokens "a", NUL, "b", then end of generation).  The
sink calls are three per-token notifications and then one call of the
completion sink, and the error sink is not called; but the response
accumulated by the loop is `a NUL b`, and the payload of the completion sink
is "a": `response.c_str()` stops at the NUL byte, so the completion sink does
not receive the full accumulated response. -/
theorem completion_payload_cut_at_nul_byte :
    sink_calls
      (runVideoInferenceStreaming (scripted script_nul) (0, 0) 4096 ready_session
        [⟨[1, 2, 3], 1, 1⟩, ⟨[4, 5, 6], 1, 1⟩] [63]).trace =
      [Call.onToken [97], Call.onToken [], Call.onToken [98], Call.onComplete [97]] ∧
    (generate_response_streaming (scripted script_nul) (0, 0) ready_session MAX_TOKENS).response
      = [97, 0, 98] ∧
    complete_sink_calls
      (runVideoInferenceStreaming (scripted script_nul) (0, 0) 4096 ready_session
        [⟨[1, 2, 3], 1, 1⟩, ⟨[4, 5, 6], 1, 1⟩] [63]).trace ≠
      [(generate_response_streaming (scripted script_nul) (0, 0) ready_session
        MAX_TOKENS).response] := by
  decide

/-- Claim C15 as stated fails: the JNI lookup of
`java/lang/IllegalStateException` returns null.  An inference call on a null
session handle then issues the lookup and nothing else: `throw_java_exception`
skips `ThrowNew`, and the failure "Model not loaded" is not raised. -/
theorem not_ready_session_raises_nothing_counterexample :
    (runInference (scripted script_no_class) (0, 0) 0 ready_session [1, 2, 3] 1 1 [63]).trace =
      [Call.FindClass "java/lang/IllegalStateException" 0] ∧
    thrown
      (runInference (scripted script_no_class) (0, 0) 0 ready_session [1, 2, 3] 1 1 [63]).trace =
      [] ∧
    (runInferenceStreaming (scripted script_no_class) (0, 0) 0 ready_session [1, 2, 3] 1 1
      [63]).trace = [Call.FindClass "java/lang/IllegalStateException" 0] := by
  decide

/-- Claim C15, amended.  When the session handle is null or the model,
inference-context or multimodal-context handle of the session is absent, each
of the four inference entry points looks up `java/lang/IllegalStateException`
and, when the lookup returns a class, raises it with the message "Model not
loaded"; when the lookup returns null nothing is raised.  The call issues no
other call: no bitmap, chunk sequence, tokenize, memory-clear, sampler,
evaluation, sample, decode or sink call is made.  The session object and the
library state are unchanged, and the blocking entry points return the empty
string. -/
theorem not_ready_session_is_refused (rt : Runtime σ) (s : σ) (ctx_ptr : Ptr)
    (vctx : VisionAIContext) (img_data : Bytes) (width height : Int) (frames : List Frame)
    (prompt_c : Bytes)
    (hnot : ctx_ptr = 0 ∨ vctx.model = 0 ∨ vctx.ctx = 0 ∨ vctx.ctx_mtmd = 0) :
    runInference rt s ctx_ptr vctx img_data width height prompt_c =
      ⟨[], vctx, s,
        Call.FindClass "java/lang/IllegalStateException"
            (rt.FindClass "java/lang/IllegalStateException") ::
          (if rt.FindClass "java/lang/IllegalStateException" ≠ 0 then
            [Call.ThrowNew (rt.FindClass "java/lang/IllegalStateException") "Model not loaded"]
           else [])⟩ ∧
    runVideoInference rt s ctx_ptr vctx frames prompt_c =
      ⟨[], vctx, s,
        Call.FindClass "java/lang/IllegalStateException"
            (rt.FindClass "java/lang/IllegalStateException") ::
          (if rt.FindClass "java/lang/IllegalStateException" ≠ 0 then
            [Call.ThrowNew (rt.FindClass "java/lang/IllegalStateException") "Model not loaded"]
           else [])⟩ ∧
    runInferenceStreaming rt s ctx_ptr vctx img_data width height prompt_c =
      ⟨vctx, s,
        Call.FindClass "java/lang/IllegalStateException"
            (rt.FindClass "java/lang/IllegalStateException") ::
          (if rt.FindClass "java/lang/IllegalStateException" ≠ 0 then
            [Call.ThrowNew (rt.FindClass "java/lang/IllegalStateException") "Model not loaded"]
           else [])⟩ ∧
    runVideoInferenceStreaming rt s ctx_ptr vctx frames prompt_c =
      ⟨vctx, s,
        Call.FindClass "java/lang/IllegalStateException"
            (rt.FindClass "java/lang/IllegalStateException") ::
          (if rt.FindClass "java/lang/IllegalStateException" ≠ 0 then
            [Call.ThrowNew (rt.FindClass "java/lang/IllegalStateException") "Model not loaded"]
           else [])⟩ := by
  have ht : throw_java_exception rt "Model not loaded" =
      Call.FindClass "java/lang/IllegalStateException"
          (rt.FindClass "java/lang/IllegalStateException") ::
        (if rt.FindClass "java/lang/IllegalStateException" ≠ 0 then
          [Call.ThrowNew (rt.FindClass "java/lang/IllegalStateException") "Model not loaded"]
         else []) := by
    by_cases hcls : rt.FindClass "java/lang/IllegalStateException" = 0 <;>
      simp [throw_java_exception, hcls]
  refine ⟨?_, ?_, ?_, ?_⟩
  · unfold runInference
    rw [if_pos hnot, ht]
    simp [NewStringUTF]
  · unfold runVideoInference
    rw [if_pos hnot, ht]
    simp [NewStringUTF]
  · unfold runInferenceStreaming
    rw [if_pos hnot, ht]
  · unfold runVideoInferenceStreaming
    rw [if_pos hnot, ht]

/-- Claim C15, amended, on a session whose multimodal context is absent, the
exception class being found. -/
theorem not_ready_session_is_refused_witness :
    ((4096 : Ptr) = 0 ∨ ({ ready_session with ctx_mtmd := 0 } : VisionAIContext).model = 0 ∨
      ({ ready_session with ctx_mtmd := 0 } : VisionAIContext).ctx = 0 ∨
      ({ ready_session with ctx_mtmd := 0 } : VisionAIContext).ctx_mtmd = 0) ∧
    runVideoInference (scripted script_eog) (0, 0) 4096 { ready_session with ctx_mtmd := 0 }
        [⟨[1, 2, 3], 1, 1⟩] [63] =
      ⟨[], { ready_session with ctx_mtmd := 0 }, (0, 0),
        Call.FindClass "java/lang/IllegalStateException" 7 ::
          (if (scripted script_eog).FindClass "java/lang/IllegalStateException" ≠ 0 then
            [Call.ThrowNew 7 "Model not loaded"]
           else [])⟩ ∧
    (runVideoInference (scripted script_eog) (0, 0) 4096 { ready_session with ctx_mtmd := 0 }
        [⟨[1, 2, 3], 1, 1⟩] [63]).trace =
      [Call.FindClass "java/lang/IllegalStateException" 7, Call.ThrowNew 7 "Model not loaded"] :=
  ⟨by decide,
    (not_ready_session_is_refused (scripted script_eog) (0, 0) 4096
      { ready_session with ctx_mtmd := 0 } [1, 2, 3] 1 1 [⟨[1, 2, 3], 1, 1⟩] [63]
      (by decide)).2.1, by decide⟩

/-- Claim C16 (sampler-chain balance).  For every `loadModel` call that returns
a non-zero handle, followed by any finite sequence of inference calls on that
handle (of any of the four kinds, whatever their outcome) and one `freeModel`:
the sampler calls of the whole trace are admitted by the replay from no live
chain and leave no live chain (no chain is freed twice or before its
construction; no chain is constructed beside a live one); the chains freed
are exactly the chains constructed, each once and in the order of
construction, so that there are as many constructions as frees; and after
`loadModel` and after each inference call there is one live chain, the one in
the sampler handle of the session. -/
theorem sampler_chain_balance (rt : Runtime σ) (s : σ) (model_path_c mmproj_path_c : Bytes)
    (n_threads n_ctx : Int) (reqs : List Request)
    (hload : (loadModel rt s model_path_c mmproj_path_c n_threads n_ctx).ret ≠ 0) :
    sampler_discipline 0
      (session_life rt s model_path_c mmproj_path_c n_threads n_ctx reqs) = some 0 ∧
    sampler_frees (session_life rt s model_path_c mmproj_path_c n_threads n_ctx reqs) =
      chain_inits (session_life rt s model_path_c mmproj_path_c n_threads n_ctx reqs) ∧
    (chain_inits (session_life rt s model_path_c mmproj_path_c n_threads n_ctx reqs)).length =
      (sampler_frees
        (session_life rt s model_path_c mmproj_path_c n_threads n_ctx reqs)).length ∧
    ∃ v, (loadModel rt s model_path_c mmproj_path_c n_threads n_ctx).session = some v ∧
      ∀ k,
        (serve_all rt (loadModel rt s model_path_c mmproj_path_c n_threads n_ctx).state
          (loadModel rt s model_path_c mmproj_path_c n_threads n_ctx).ret v
          (reqs.take k)).vctx.sampler ≠ 0 ∧
        sampler_discipline 0
          ((loadModel rt s model_path_c mmproj_path_c n_threads n_ctx).trace ++
            (serve_all rt (loadModel rt s model_path_c mmproj_path_c n_threads n_ctx).state
              (loadModel rt s model_path_c mmproj_path_c n_threads n_ctx).ret v
              (reqs.take k)).trace) =
        some (serve_all rt (loadModel rt s model_path_c mmproj_path_c n_threads n_ctx).state
          (loadModel rt s model_path_c mmproj_path_c n_threads n_ctx).ret v
          (reqs.take k)).vctx.sampler := by
  obtain ⟨v, hv, hlive, hd⟩ :=
    loadModel_discipline rt s model_path_c mmproj_path_c n_threads n_ctx hload
  have hprefix : ∀ rs, sampler_discipline 0
      ((loadModel rt s model_path_c mmproj_path_c n_threads n_ctx).trace ++
        (serve_all rt (loadModel rt s model_path_c mmproj_path_c n_threads n_ctx).state
          (loadModel rt s model_path_c mmproj_path_c n_threads n_ctx).ret v rs).trace) =
      some (serve_all rt (loadModel rt s model_path_c mmproj_path_c n_threads n_ctx).state
        (loadModel rt s model_path_c mmproj_path_c n_threads n_ctx).ret v rs).vctx.sampler := by
    intro rs
    rw [sampler_discipline_append, hd]
    exact serve_all_discipline rt _ rs _ _
  have hlife : sampler_discipline 0
      (session_life rt s model_path_c mmproj_path_c n_threads n_ctx reqs) = some 0 := by
    simp only [session_life, hv]
    rw [sampler_discipline_append, hprefix reqs]
    exact freeModel_discipline rt _ _ _ hload
  have hbal : sampler_frees (session_life rt s model_path_c mmproj_path_c n_threads n_ctx reqs) =
      chain_inits (session_life rt s model_path_c mmproj_path_c n_threads n_ctx reqs) := by
    have := sampler_discipline_balance _ 0 0 hlife
    simpa using this.symm
  exact ⟨hlife, hbal, by rw [hbal], v, hv,
    fun k => ⟨serve_all_sampler_live rt _ (reqs.take k) _ v hlive, hprefix (reqs.take k)⟩⟩

/-- Claim C16 on a session that serves a single-image call and a streaming
multi-frame call. -/
theorem sampler_chain_balance_witness :
    (loadModel (scripted script_eog) (0, 0) [109] [112] 4 2048).ret ≠ 0 ∧
    sampler_discipline 0
      (session_life (scripted script_eog) (0, 0) [109] [112] 4 2048
        [Request.image [1, 2, 3] 1 1 [63], Request.video_streaming [⟨[1, 2, 3], 1, 1⟩] [63]]) =
      some 0 ∧
    sampler_frees
      (session_life (scripted script_eog) (0, 0) [109] [112] 4 2048
        [Request.image [1, 2, 3] 1 1 [63], Request.video_streaming [⟨[1, 2, 3], 1, 1⟩] [63]]) =
      chain_inits
        (session_life (scripted script_eog) (0, 0) [109] [112] 4 2048
          [Request.image [1, 2, 3] 1 1 [63],
           Request.video_streaming [⟨[1, 2, 3], 1, 1⟩] [63]]) :=
  ⟨by decide,
    (sampler_chain_balance (scripted script_eog) (0, 0) [109] [112] 4 2048
      [Request.image [1, 2, 3] 1 1 [63], Request.video_streaming [⟨[1, 2, 3], 1, 1⟩] [63]]
      (by decide)).1,
    (sampler_chain_balance (scripted script_eog) (0, 0) [109] [112] 4 2048
      [Request.image [1, 2, 3] 1 1 [63], Request.video_streaming [⟨[1, 2, 3], 1, 1⟩] [63]]
      (by decide)).2.1⟩

end VisionAI
